import Mathlib

/-! # Mari protocol engine: scheduler, bloom filter, queue, scan table, association

A shallow embedding of parts of the Mari network stack (`src/mari/*.c`) together
with theorems about them.  Machine integers are natural numbers or integers with
explicit wrap-around wherever the C code can overflow; C arrays are lists that are
read by index; file-scope state structs become explicit state values.
-/

namespace Mari

/-! ## models.h -/

def MARI_N_BLE_REGULAR_CHANNELS : Nat := 37
def MARI_N_BLE_ADVERTISING_CHANNELS : Nat := 3
def MARI_N_CELLS_MAX : Nat := 149
def MARI_PACKET_MAX_SIZE : Nat := 255

/-- Slot roles (`slot_type_t`). -/
inductive slot_type_t where
  | SLOT_TYPE_BEACON
  | SLOT_TYPE_SHARED_UPLINK
  | SLOT_TYPE_DOWNLINK
  | SLOT_TYPE_UPLINK
  deriving DecidableEq, Repr

open slot_type_t

/-- Events surfaced to the application (`mr_event_t`). -/
inductive mr_event_t where
  | MARI_NEW_PACKET
  | MARI_CONNECTED
  | MARI_DISCONNECTED
  | MARI_NODE_JOINED
  | MARI_NODE_LEFT
  | MARI_KEEPALIVE
  | MARI_ERROR
  deriving DecidableEq, Repr

/-- Event reasons (`mr_event_tag_t`). -/
inductive mr_event_tag_t where
  | MARI_NONE
  | MARI_HANDOVER
  | MARI_OUT_OF_SYNC
  | MARI_PEER_LOST
  | MARI_GATEWAY_FULL
  | MARI_PEER_LOST_TIMEOUT
  | MARI_PEER_LOST_BLOOM
  | MARI_HANDOVER_FAILED
  deriving DecidableEq, Repr

/-- Event data (`mr_event_data_t`): the id of the `node_info` and `gateway_info` views
of the union, the reason tag, and for the `new_packet` view the bytes of the frame. -/
structure mr_event_data_t where
  node_id : Nat
  tag : mr_event_tag_t
  new_packet : List Nat := []
  deriving DecidableEq, Repr

/-- One schedule cell (`cell_t`); the `uint64_t` fields are natural numbers. -/
structure cell_t where
  type : slot_type_t
  channel_offset : Nat
  assigned_node_id : Nat
  last_received_asn : Nat
  bloom_h1 : Nat
  bloom_h2 : Nat
  deriving DecidableEq, Repr

/-- A schedule (`schedule_t`).  `cells` holds the `n_cells` active entries of the
fixed-capacity C array, so `n_cells` is the length of the list. -/
structure schedule_t where
  id : Nat
  max_nodes : Nat
  backoff_n_min : Nat
  backoff_n_max : Nat
  cells : List cell_t
  deriving DecidableEq, Repr

/-- Number of cells of a schedule (`schedule_t.n_cells`). -/
def schedule_t.n_cells (s : schedule_t) : Nat := s.cells.length

/-! ## bloom.h / bloom.c -/

def MARI_BLOOM_M_BITS : Nat := 1024
def MARI_BLOOM_M_BYTES : Nat := MARI_BLOOM_M_BITS / 8
def MARI_BLOOM_K_HASHES : Nat := 2
def MARI_BLOOM_FNV1A_H2_SALT : Nat := 0x5bd1e995

/-- FNV-1a 64-bit hash of the eight bytes of `input`, most significant byte first
(`mr_bloom_hash_fnv1a64`); the multiplication wraps at 64 bits. -/
def mr_bloom_hash_fnv1a64 (input : Nat) : Nat :=
  (List.range 8).foldl
    (fun hash b =>
      let byte := (input >>> (56 - b * 8)) &&& 0xFF
      ((hash ^^^ byte) * 0x100000001b3) % 2 ^ 64)
    0xcbf29ce484222325

/-! ## scheduler.c -/

/-- File-scope scheduler state (`schedule_vars_t`); the `uint8_t` counter of
assigned uplink nodes is kept below 256 by explicit wrap-around.  `active_schedule` is
the schedule `active_schedule_ptr` points to, as it is now.  `available_schedules`
holds the schedules the entries of the array of that name point to, and
`active_schedule_idx` is the index of the entry that `active_schedule_ptr` is equal to:
that entry of the list is the schedule as it was when it was last made active or
inactive, and is out of date while the schedule is active. -/
structure schedule_vars_t where
  active_schedule : schedule_t
  slotframe_counter : Nat
  num_assigned_uplink_nodes : Nat
  current_cell_index : Nat
  available_schedules : List schedule_t := []
  active_schedule_idx : Option Nat := none
  deriving DecidableEq, Repr

/-- The loop of `mr_scheduler_gateway_assign_next_available_uplink_cell`, entered at
cell index `i` with the cells from `i` on.  Returns the value returned by the C
function, the cells from `i` on after the call, and the counter after the call. -/
def assign_loop (node_id asn : Nat) :
    Nat → Nat → List cell_t → Int × List cell_t × Nat
  | _, cnt, [] => (-1, [], cnt)
  | i, cnt, cell :: rest =>
    if cell.type = SLOT_TYPE_UPLINK ∧ cell.assigned_node_id = 0 then
      ((i : Int),
       { cell with
           assigned_node_id := node_id
           last_received_asn := asn
           bloom_h1 := mr_bloom_hash_fnv1a64 node_id
           bloom_h2 := mr_bloom_hash_fnv1a64 (node_id ^^^ MARI_BLOOM_FNV1A_H2_SALT) } :: rest,
       (cnt + 1) % 256)
    else if cell.type = SLOT_TYPE_UPLINK ∧ cell.assigned_node_id = node_id then
      ((i : Int), { cell with last_received_asn := asn } :: rest, cnt)
    else
      let r := assign_loop node_id asn (i + 1) cnt rest
      (r.1, cell :: r.2.1, r.2.2)

/-- Gateway side of a join request
(`mr_scheduler_gateway_assign_next_available_uplink_cell`). -/
def mr_scheduler_gateway_assign_next_available_uplink_cell
    (st : schedule_vars_t) (node_id asn : Nat) : Int × schedule_vars_t :=
  let r := assign_loop node_id asn 0 st.num_assigned_uplink_nodes st.active_schedule.cells
  (r.1,
   { st with
       active_schedule := { st.active_schedule with cells := r.2.1 }
       num_assigned_uplink_nodes := r.2.2 })

/-- Counter decrement on a node leaving
(`mr_scheduler_gateway_decrease_nodes_counter`); the `uint8_t` wraps. -/
def mr_scheduler_gateway_decrease_nodes_counter (cnt : Nat) : Nat :=
  (cnt + 255) % 256

/-- Slot count of the active schedule as the `uint8_t` the C accessor returns
(`mr_scheduler_get_active_schedule_slot_count`). -/
def mr_scheduler_get_active_schedule_slot_count (st : schedule_vars_t) : Nat :=
  st.active_schedule.n_cells % 256

/-! ## association.c: gateway timeout sweep -/

def MARI_MAX_SLOTFRAMES_NO_RX_LEAVE : Nat := 5

/-- Subtraction of `uint64_t` values. -/
def u64_sub (a b : Nat) : Nat := (a % 2 ^ 64 + 2 ^ 64 - b % 2 ^ 64) % 2 ^ 64

/-- The loop of `mr_assoc_gateway_clear_old_nodes` over the cells.  Returns the
cells, the counter and the events passed to the event callback, oldest first. -/
def clear_old_loop (asn max_asn_old : Nat) :
    Nat → List cell_t → List cell_t × Nat × List (mr_event_t × mr_event_data_t)
  | cnt, [] => ([], cnt, [])
  | cnt, cell :: rest =>
    if cell.type ≠ SLOT_TYPE_UPLINK then
      let r := clear_old_loop asn max_asn_old cnt rest
      (cell :: r.1, r.2.1, r.2.2)
    else if cell.assigned_node_id ≠ 0 ∧ u64_sub asn cell.last_received_asn > max_asn_old then
      let event_data : mr_event_data_t :=
        { node_id := cell.assigned_node_id, tag := mr_event_tag_t.MARI_PEER_LOST_TIMEOUT }
      let r := clear_old_loop asn max_asn_old
        (mr_scheduler_gateway_decrease_nodes_counter cnt) rest
      ({ cell with assigned_node_id := 0, last_received_asn := 0 } :: r.1, r.2.1,
       (mr_event_t.MARI_NODE_LEFT, event_data) :: r.2.2)
    else
      let r := clear_old_loop asn max_asn_old cnt rest
      (cell :: r.1, r.2.1, r.2.2)

/-- Gateway timeout sweep (`mr_assoc_gateway_clear_old_nodes`). -/
def mr_assoc_gateway_clear_old_nodes (st : schedule_vars_t) (asn : Nat) :
    schedule_vars_t × List (mr_event_t × mr_event_data_t) :=
  let max_asn_old := mr_scheduler_get_active_schedule_slot_count st * MARI_MAX_SLOTFRAMES_NO_RX_LEAVE
  let r := clear_old_loop asn max_asn_old st.num_assigned_uplink_nodes st.active_schedule.cells
  ({ st with
       active_schedule := { st.active_schedule with cells := r.1 }
       num_assigned_uplink_nodes := r.2.1 },
   r.2.2)

/-- One gateway operation on the schedule: a join request or a timeout sweep. -/
inductive gateway_op where
  | assign (node_id asn : Nat)
  | sweep (asn : Nat)
  deriving DecidableEq, Repr

/-- Effect of one gateway operation on the scheduler state. -/
def gateway_step (st : schedule_vars_t) : gateway_op → schedule_vars_t
  | .assign node_id asn => (mr_scheduler_gateway_assign_next_available_uplink_cell st node_id asn).2
  | .sweep asn => (mr_assoc_gateway_clear_old_nodes st asn).1

/-- Effect of a sequence of gateway operations, first operation first. -/
def gateway_run (st : schedule_vars_t) (ops : List gateway_op) : schedule_vars_t :=
  ops.foldl gateway_step st

/-- The cell written by a fresh assignment of `node_id` at `asn` into cell `c`. -/
def assigned_cell (c : cell_t) (node_id asn : Nat) : cell_t :=
  { type := c.type
    channel_offset := c.channel_offset
    assigned_node_id := node_id
    last_received_asn := asn
    bloom_h1 := mr_bloom_hash_fnv1a64 node_id
    bloom_h2 := mr_bloom_hash_fnv1a64 (node_id ^^^ MARI_BLOOM_FNV1A_H2_SALT) }

/-! ## bloom.c: filter computation and membership test -/

/-- Gateway bloom state (`bloom_vars_t`); `bloom` is the 128-byte filter. -/
structure bloom_vars_t where
  is_dirty : Bool
  is_available : Bool
  bloom : List Nat
  deriving DecidableEq, Repr

/-- The bit index `(h1 + k * h2) & (MARI_BLOOM_M_BITS - 1)` in `uint64_t` arithmetic. -/
def bloom_idx (h1 h2 k : Nat) : Nat :=
  ((h1 + (k * h2) % 2 ^ 64) % 2 ^ 64) &&& (MARI_BLOOM_M_BITS - 1)

/-- The statement `bloom[idx / 8] |= (1 << (idx % 8))`. -/
def bloom_set_bit (bloom : List Nat) (idx : Nat) : List Nat :=
  bloom.set (idx / 8) (bloom.getD (idx / 8) 0 ||| (1 <<< (idx % 8)))

/-- The inner loop over `k` of `mr_bloom_gateway_compute` for one cell. -/
def bloom_set_hashes (bloom : List Nat) (h1 h2 : Nat) : List Nat :=
  (List.range MARI_BLOOM_K_HASHES).foldl
    (fun bl k => bloom_set_bit bl (bloom_idx h1 h2 k)) bloom

/-- The loop over the cells of `mr_bloom_gateway_compute`. -/
def bloom_compute_loop : List cell_t → List Nat → List Nat
  | [], bloom => bloom
  | cell :: rest, bloom =>
    if cell.type ≠ SLOT_TYPE_UPLINK then
      bloom_compute_loop rest bloom
    else if cell.assigned_node_id = 0 then
      bloom_compute_loop rest bloom
    else
      bloom_compute_loop rest (bloom_set_hashes bloom cell.bloom_h1 cell.bloom_h2)

/-- Rebuild of the filter from the cached hashes of the assigned Uplink cells
(`mr_bloom_gateway_compute`). -/
def mr_bloom_gateway_compute (bv : bloom_vars_t) (st : schedule_vars_t) : bloom_vars_t :=
  { bv with
      is_available := true
      bloom := bloom_compute_loop st.active_schedule.cells
        (List.replicate MARI_BLOOM_M_BYTES 0) }

/-- Membership test at a node (`mr_bloom_node_contains`): false as soon as one of
the `MARI_BLOOM_K_HASHES` bits is clear. -/
def mr_bloom_node_contains (node_id : Nat) (bloom : List Nat) : Bool :=
  let h1 := mr_bloom_hash_fnv1a64 node_id
  let h2 := mr_bloom_hash_fnv1a64 (node_id ^^^ MARI_BLOOM_FNV1A_H2_SALT)
  (List.range MARI_BLOOM_K_HASHES).all
    (fun k =>
      let idx := bloom_idx h1 h2 k
      (bloom.getD (idx / 8) 0 &&& (1 <<< (idx % 8))) != 0)

/-! ## queue.h / queue.c -/

def MARI_PACKET_QUEUE_SIZE : Nat := 32

/-- One queued frame (`mr_packet_t`): a length and a 255-byte buffer. -/
structure mr_packet_t where
  length : Nat
  buffer : List Nat
  deriving DecidableEq, Repr

/-- The ring buffer (`mari_packet_queue_t`). -/
structure mari_packet_queue_t where
  current : Nat
  last : Nat
  packets : List mr_packet_t
  deriving DecidableEq, Repr

/-- File-scope queue state (`queue_vars_t`). -/
structure queue_vars_t where
  packet_queue : mari_packet_queue_t
  queue_locked : Bool
  join_packet : mr_packet_t
  deriving DecidableEq, Repr

/-- The C library call `memcpy(dst, src, n)`: the first `n` bytes of `dst` are replaced by
the first `n` bytes of `src`. -/
def memcpy (dst src : List Nat) (n : Nat) : List Nat :=
  src.take n ++ dst.drop n

/-- Enqueue a frame (`mr_queue_add`).  The function busy-waits while the queue is
locked, so on a locked queue it does not return (`none`). -/
def mr_queue_add (q : queue_vars_t) (packet : List Nat) (length : Nat) : Option queue_vars_t :=
  if q.queue_locked then
    none
  else
    let last := q.packet_queue.last
    let slot := q.packet_queue.packets.getD last { length := 0, buffer := [] }
    some
      { q with
          packet_queue :=
            { q.packet_queue with
                packets := q.packet_queue.packets.set last
                  { length := length, buffer := memcpy slot.buffer packet length }
                last := (last + 1) % MARI_PACKET_QUEUE_SIZE }
          queue_locked := false }

/-- Copy the oldest frame into `packet` without removing it (`mr_queue_peek`).
Returns the length and the caller's buffer after the call. -/
def mr_queue_peek (q : queue_vars_t) (packet : List Nat) : Nat × List Nat :=
  if q.queue_locked then
    (0, packet)
  else if q.packet_queue.current = q.packet_queue.last then
    (0, packet)
  else
    let slot := q.packet_queue.packets.getD q.packet_queue.current { length := 0, buffer := [] }
    (slot.length, memcpy packet slot.buffer slot.length)

/-- Remove the oldest frame (`mr_queue_pop`). -/
def mr_queue_pop (q : queue_vars_t) : Bool × queue_vars_t :=
  if q.queue_locked then
    (false, q)
  else if q.packet_queue.current = q.packet_queue.last then
    (false, q)
  else
    (true,
     { q with
         packet_queue :=
           { q.packet_queue with
               current := (q.packet_queue.current + 1) % MARI_PACKET_QUEUE_SIZE } })

/-- Clear the ring and the join holder (`mr_queue_reset`). -/
def mr_queue_reset (q : queue_vars_t) : queue_vars_t :=
  { packet_queue := { q.packet_queue with current := 0, last := 0 }
    queue_locked := false
    join_packet := { length := 0, buffer := List.replicate q.join_packet.buffer.length 0 } }

/-- The ring branch of `mr_queue_next_packet` (gateway Downlink slot with an empty
join holder; node Uplink slot, before any keepalive is synthesised):
`len = mr_queue_peek(packet); if (len) mr_queue_pop();`.
Returns `len`, the caller's buffer and the queue after the call. -/
def mr_queue_next_packet_ring (q : queue_vars_t) (packet : List Nat) :
    Nat × List Nat × queue_vars_t :=
  let r := mr_queue_peek q packet
  if r.1 ≠ 0 then (r.1, r.2, (mr_queue_pop q).2) else (r.1, r.2, q)

/-- A sequence of `mr_queue_add` calls, one per frame, each frame passed with its own
length. -/
def queue_add_all : queue_vars_t → List (List Nat) → Option queue_vars_t
  | q, [] => some q
  | q, f :: rest =>
    match mr_queue_add q f f.length with
    | none => none
    | some q1 => queue_add_all q1 rest

/-- The results of `n` consecutive ring dequeues into the same caller buffer: for
each, the returned length and the bytes of the buffer up to that length. -/
def queue_drain : Nat → queue_vars_t → List Nat → List (Nat × List Nat)
  | 0, _, _ => []
  | n + 1, q, packet =>
    let r := mr_queue_next_packet_ring q packet
    (r.1, r.2.1.take r.1) :: queue_drain n r.2.2 r.2.1

/-! ## scan.h / scan.c -/

def MARI_MAX_SCAN_LIST_SIZE : Nat := 5
def MARI_SCAN_OLD_US : Nat := 1000 * 500

/-- Beacon header without the bloom filter (`mr_beacon_scan_header_t`). -/
structure mr_beacon_scan_header_t where
  version : Nat
  type : Nat
  network_id : Nat
  asn : Nat
  src : Nat
  remaining_capacity : Nat
  active_schedule_id : Nat
  deriving DecidableEq, Repr

/-- One RSSI sample (`mr_channel_info_t`). -/
structure mr_channel_info_t where
  rssi : Int
  timestamp : Nat
  captured_asn : Nat
  beacon : mr_beacon_scan_header_t
  deriving DecidableEq, Repr

/-- One scan-table entry (`mr_gateway_scan_t`): a gateway id and one sample per
advertising channel (37, 38, 39). -/
structure mr_gateway_scan_t where
  gateway_id : Nat
  channel_info : List mr_channel_info_t
  deriving DecidableEq, Repr

/-- The scan table (`scan_vars_t`), `MARI_MAX_SCAN_LIST_SIZE` entries. -/
structure scan_vars_t where
  scans : List mr_gateway_scan_t
  deriving DecidableEq, Repr

/-- An all-zero `mr_channel_info_t`. -/
def channel_info_zero : mr_channel_info_t :=
  { rssi := 0
    timestamp := 0
    captured_asn := 0
    beacon :=
      { version := 0, type := 0, network_id := 0, asn := 0, src := 0,
        remaining_capacity := 0, active_schedule_id := 0 } }

/-- An all-zero `mr_gateway_scan_t`. -/
def gateway_scan_zero : mr_gateway_scan_t :=
  { gateway_id := 0, channel_info := [] }

/-- Array read `scan.channel_info[j]`. -/
def mr_gateway_scan_t.info (scan : mr_gateway_scan_t) (j : Nat) : mr_channel_info_t :=
  scan.channel_info.getD j channel_info_zero

/-- Array read `scan_vars.scans[i]`. -/
def scan_vars_t.entry (sv : scan_vars_t) (i : Nat) : mr_gateway_scan_t :=
  sv.scans.getD i gateway_scan_zero

/-- Conversion of an `int` value to `int8_t` (wrap-around modulo 256). -/
def int8_wrap (x : Int) : Int := (x + 128) % 256 - 128

/-- Subtraction of `uint32_t` values. -/
def u32_sub (a b : Nat) : Nat := (a % 2 ^ 32 + 2 ^ 32 - b % 2 ^ 32) % 2 ^ 32

/-- The sample with the greatest timestamp, the first one on ties
(`_get_channel_info_latest`). -/
def _get_channel_info_latest (scan : mr_gateway_scan_t) : mr_channel_info_t :=
  let latest_idx := (List.range MARI_N_BLE_ADVERTISING_CHANNELS).foldl
    (fun latest_idx i =>
      if (scan.info i).timestamp > (scan.info latest_idx).timestamp then i else latest_idx) 0
  scan.info latest_idx

/-- Timestamp of the latest sample (`_get_ts_latest`). -/
def _get_ts_latest (scan : mr_gateway_scan_t) : Nat :=
  (_get_channel_info_latest scan).timestamp

/-- The inner loop of `mr_scan_select` over the three samples of one entry: the
`int8_t` accumulators `(avg_rssi, n_rssi)` after the loop. -/
def scan_sum_loop (scan : mr_gateway_scan_t) (ts_scan_started ts_scan_ended : Nat) : Int × Int :=
  (List.range MARI_N_BLE_ADVERTISING_CHANNELS).foldl
    (fun acc j =>
      if (scan.info j).timestamp = 0 then acc
      else if (scan.info j).timestamp < ts_scan_started then acc
      else if u32_sub ts_scan_ended (scan.info j).timestamp > MARI_SCAN_OLD_US then acc
      else (int8_wrap (acc.1 + (scan.info j).rssi), int8_wrap (acc.2 + 1)))
    (0, 0)

/-- One iteration of the outer loop of `mr_scan_select`, on the pair
`(best_gateway_idx, best_gateway_rssi)`. -/
def scan_select_step (sv : scan_vars_t) (ts_scan_started ts_scan_ended : Nat)
    (best : Int × Int) (i : Nat) : Int × Int :=
  if (sv.entry i).gateway_id = 0 then best
  else
    let acc := scan_sum_loop (sv.entry i) ts_scan_started ts_scan_ended
    if acc.2 = 0 then best
    else
      let avg_rssi := int8_wrap (Int.tdiv acc.1 acc.2)
      if avg_rssi > best.2 then (int8_wrap (i : Int), avg_rssi) else best

/-- The outer loop of `mr_scan_select`: the final
`(best_gateway_idx, best_gateway_rssi)`, starting from `(-1, INT8_MIN)`. -/
def scan_select_loop (sv : scan_vars_t) (ts_scan_started ts_scan_ended : Nat) : Int × Int :=
  (List.range MARI_MAX_SCAN_LIST_SIZE).foldl
    (scan_select_step sv ts_scan_started ts_scan_ended) (-1, -128)

/-- Gateway selection (`mr_scan_select`): the returned flag and the contents of
`*best_channel_info` after the call. -/
def mr_scan_select (sv : scan_vars_t) (ts_scan_started ts_scan_ended : Nat) :
    Bool × mr_channel_info_t :=
  let best := scan_select_loop sv ts_scan_started ts_scan_ended
  if best.1 < 0 then (false, channel_info_zero)
  else (true, _get_channel_info_latest (sv.entry best.1.toNat))

/-- The average `mr_scan_select` computes for entry `i`, when it computes one: none for
an empty entry and for an entry with no sample in the freshness window. -/
def scan_avg (sv : scan_vars_t) (ts_scan_started ts_scan_ended : Nat) (i : Nat) : Option Int :=
  if (sv.entry i).gateway_id = 0 then none
  else if (scan_sum_loop (sv.entry i) ts_scan_started ts_scan_ended).2 = 0 then none
  else some (int8_wrap (Int.tdiv (scan_sum_loop (sv.entry i) ts_scan_started ts_scan_ended).1
    (scan_sum_loop (sv.entry i) ts_scan_started ts_scan_ended).2))

/-! ## Example states -/

/-- A free cell of the given type. -/
def free_cell (t : slot_type_t) : cell_t :=
  { type := t, channel_offset := 0, assigned_node_id := 0, last_received_asn := 0,
    bloom_h1 := 0, bloom_h2 := 0 }

/-- A seven-cell schedule with two Uplink cells and no assigned cell. -/
def example_schedule : schedule_t :=
  { id := 1
    max_nodes := 2
    backoff_n_min := 4
    backoff_n_max := 6
    cells := [free_cell SLOT_TYPE_BEACON, free_cell SLOT_TYPE_BEACON, free_cell SLOT_TYPE_BEACON,
      free_cell SLOT_TYPE_SHARED_UPLINK, free_cell SLOT_TYPE_DOWNLINK,
      free_cell SLOT_TYPE_UPLINK, free_cell SLOT_TYPE_UPLINK] }

/-- Scheduler state of a gateway that has just booted on `example_schedule`. -/
def example_gateway : schedule_vars_t :=
  { active_schedule := example_schedule
    slotframe_counter := 0
    num_assigned_uplink_nodes := 0
    current_cell_index := 0 }

/-- The gateway after nodes 3 and 7 have joined (at ASN 0 and 100). -/
def example_gateway_full : schedule_vars_t :=
  gateway_run example_gateway [.assign 3 0, .assign 7 100]

/-- The gateway after nodes 3 and 7 have joined and a sweep at ASN 100 has evicted
node 3: the first Uplink cell (index 5) is free again, node 7 holds index 6. -/
def example_gateway_after_sweep : schedule_vars_t :=
  gateway_run example_gateway [.assign 3 0, .assign 7 100, .sweep 100]

/-! ## Specification predicates -/

/-- Bit `idx` of the filter is set. -/
def bloom_bit (bloom : List Nat) (idx : Nat) : Bool :=
  (bloom.getD (idx / 8) 0).testBit (idx % 8)

/-- Every assigned Uplink cell caches the two hashes of its node id. -/
def hashes_cached (cells : List cell_t) : Prop :=
  ∀ c ∈ cells, c.type = SLOT_TYPE_UPLINK → c.assigned_node_id ≠ 0 →
    c.bloom_h1 = mr_bloom_hash_fnv1a64 c.assigned_node_id ∧
    c.bloom_h2 = mr_bloom_hash_fnv1a64 (c.assigned_node_id ^^^ MARI_BLOOM_FNV1A_H2_SALT)

/-- A queue whose 32 slots and join holder have all-zero 255-byte buffers. -/
def example_queue : queue_vars_t :=
  { packet_queue :=
      { current := 0
        last := 0
        packets := List.replicate 32 { length := 0, buffer := List.replicate 255 0 } }
    queue_locked := false
    join_packet := { length := 0, buffer := List.replicate 255 0 } }

/-- Slot `p` of the ring holds frame `f`: same length, same bytes. -/
def slot_holds (p : mr_packet_t) (f : List Nat) : Prop :=
  p.length = f.length ∧ p.buffer.take f.length = f

/-- Array read `queue_vars.packet_queue.packets[i]`. -/
def queue_vars_t.slot (q : queue_vars_t) (i : Nat) : mr_packet_t :=
  q.packet_queue.packets.getD i { length := 0, buffer := [] }

/-- Thirty-one one-byte frames `[1], [2], ..., [31]`. -/
def example_frames_31 : List (List Nat) :=
  (List.range 31).map (fun i => [i + 1])

/-- The reset example queue after the 31 frames of `example_frames_31` were added: the
ring is full (`current = 0`, `last = 31`). -/
def example_queue_full : queue_vars_t :=
  (queue_add_all (mr_queue_reset example_queue) example_frames_31).getD example_queue

/-- The three tests by which the inner loop of `mr_scan_select` skips a sample with
timestamp `ts`. -/
def sample_skipped (ts_scan_started ts_scan_ended ts : Nat) : Prop :=
  ts = 0 ∨ ts < ts_scan_started ∨ u32_sub ts_scan_ended ts > MARI_SCAN_OLD_US

instance (a b c : Nat) : Decidable (sample_skipped a b c) :=
  inferInstanceAs (Decidable (_ ∨ _ ∨ _))

/-- A sample is stale when its timestamp is 0, is earlier than the start of the scan,
or lies more than `MARI_SCAN_OLD_US` before the end of the scan. -/
def sample_stale (ts_scan_started ts_scan_ended ts : Nat) : Prop :=
  ts = 0 ∨ ts < ts_scan_started ∨ ts + MARI_SCAN_OLD_US < ts_scan_ended

instance (a b c : Nat) : Decidable (sample_stale a b c) :=
  inferInstanceAs (Decidable (_ ∨ _ ∨ _))

/-- One iteration of the inner loop of `mr_scan_select` on the accumulators
`(avg_rssi, n_rssi)`. -/
def scan_sum_step (scan : mr_gateway_scan_t) (ts_scan_started ts_scan_ended : Nat)
    (acc : Int × Int) (j : Nat) : Int × Int :=
  if (scan.info j).timestamp = 0 then acc
  else if (scan.info j).timestamp < ts_scan_started then acc
  else if u32_sub ts_scan_ended (scan.info j).timestamp > MARI_SCAN_OLD_US then acc
  else (int8_wrap (acc.1 + (scan.info j).rssi), int8_wrap (acc.2 + 1))

/-- The exact average of the samples of an entry that are not stale, with no 8-bit
wrap-around; none when every sample is stale. -/
def in_window_average (scan : mr_gateway_scan_t) (ts_scan_started ts_scan_ended : Nat) :
    Option Int :=
  let fresh := ((List.range MARI_N_BLE_ADVERTISING_CHANNELS).map scan.info).filter
    (fun c => ¬ sample_stale ts_scan_started ts_scan_ended c.timestamp)
  if fresh.length = 0 then none
  else some (Int.tdiv (fresh.map (fun c => c.rssi)).sum (fresh.length : Int))

/-- A sample with the given RSSI and timestamp taken from a beacon of gateway `src`. -/
def example_sample (rssi : Int) (ts src : Nat) : mr_channel_info_t :=
  { rssi := rssi
    timestamp := ts
    captured_asn := 0
    beacon :=
      { version := 2, type := 1, network_id := 0, asn := 0, src := src,
        remaining_capacity := 1, active_schedule_id := 0 } }

/-- An empty scan-table entry with its three zeroed samples. -/
def example_empty_entry : mr_gateway_scan_t :=
  { gateway_id := 0, channel_info := [channel_info_zero, channel_info_zero, channel_info_zero] }

/-- A scan table in which gateway 1 was heard twice at -70 dBm and gateway 2 once at
-40 dBm. -/
def example_scan_overflow : scan_vars_t :=
  { scans :=
      [{ gateway_id := 1
         channel_info := [example_sample (-70) 10 1, example_sample (-70) 20 1, channel_info_zero] },
       { gateway_id := 2
         channel_info := [example_sample (-40) 30 2, channel_info_zero, channel_info_zero] },
       example_empty_entry, example_empty_entry, example_empty_entry] }

/-- A scan table in which gateways 1 and 2 were each heard once at -50 dBm, gateway 2
later than gateway 1. -/
def example_scan_tie : scan_vars_t :=
  { scans :=
      [{ gateway_id := 1
         channel_info := [example_sample (-50) 10 1, channel_info_zero, channel_info_zero] },
       { gateway_id := 2
         channel_info := [example_sample (-50) 20 2, channel_info_zero, channel_info_zero] },
       example_empty_entry, example_empty_entry, example_empty_entry] }

/-! ## models.h: node types, radio actions, slot information -/

/-- Role of the device (`mr_node_type_t`). -/
inductive mr_node_type_t where
  | MARI_GATEWAY
  | MARI_NODE
  deriving DecidableEq, Repr

/-- What the radio does in a slot (`mr_radio_action_t`). -/
inductive mr_radio_action_t where
  | MARI_RADIO_ACTION_SLEEP
  | MARI_RADIO_ACTION_RX
  | MARI_RADIO_ACTION_TX
  deriving DecidableEq, Repr

open mr_node_type_t mr_radio_action_t

/-- Result of a scheduler tick (`mr_slot_info_t`). -/
structure mr_slot_info_t where
  radio_action : mr_radio_action_t
  channel : Nat
  type : slot_type_t
  deriving DecidableEq, Repr

def MARI_FIXED_CHANNEL : Nat := 0
def MARI_FIXED_SCAN_CHANNEL : Nat := 37

def MARI_PACKET_BEACON : Nat := 1
def MARI_PACKET_JOIN_REQUEST : Nat := 2
def MARI_PACKET_JOIN_RESPONSE : Nat := 4
def MARI_PACKET_KEEPALIVE : Nat := 8
def MARI_PACKET_DATA : Nat := 16

/-! ## mac.h: slot timing -/

def MARI_BLE_PAYLOAD_MAX_LENGTH : Nat := 255
def BLE_2M : Nat := 1000 * 1000 * 2
def BLE_2M_B_MS : Nat := BLE_2M / 8 / 1000
def BLE_2M_US_PER_BYTE : Nat := 1000 / BLE_2M_B_MS
def MARI_TS_TX_OFFSET : Nat := 400
def MARI_RX_GUARD_TIME : Nat := 140
def MARI_END_GUARD_TIME : Nat := MARI_RX_GUARD_TIME + 100
def MARI_PACKET_TOA : Nat := BLE_2M_US_PER_BYTE * MARI_BLE_PAYLOAD_MAX_LENGTH
def MARI_PACKET_TOA_WITH_PADDING : Nat := MARI_PACKET_TOA + 120
def MARI_WHOLE_SLOT_DURATION : Nat :=
  MARI_TS_TX_OFFSET + MARI_PACKET_TOA_WITH_PADDING + MARI_END_GUARD_TIME

/-! ## association.h / association.c: node association state -/

def MARI_BACKOFF_N_MIN : Nat := 4
def MARI_BACKOFF_N_MAX : Nat := 6
def MARI_JOIN_TIMEOUT_SINCE_SYNCED : Nat := 1000 * 1000 * 5
def MARI_JOINING_STATE_TIMEOUT : Nat :=
  (MARI_WHOLE_SLOT_DURATION * (2 - 1)) + (MARI_WHOLE_SLOT_DURATION / 2)

/-- Association states (`mr_assoc_state_t`). -/
inductive mr_assoc_state_t where
  | JOIN_STATE_IDLE
  | JOIN_STATE_SCANNING
  | JOIN_STATE_SYNCED
  | JOIN_STATE_JOINING
  | JOIN_STATE_JOINED
  deriving DecidableEq, Repr

open mr_assoc_state_t

/-- Numeric value of an association state, as declared in the enum. -/
def mr_assoc_state_t.val : mr_assoc_state_t → Nat
  | JOIN_STATE_IDLE => 1
  | JOIN_STATE_SCANNING => 2
  | JOIN_STATE_SYNCED => 4
  | JOIN_STATE_JOINING => 8
  | JOIN_STATE_JOINED => 16

/-- File-scope association state (`assoc_vars_t`), without the callback pointer: the
events passed to the callback are returned by the functions that raise them.
`backoff_n` is an `int16_t`; the other numeric fields are unsigned. -/
structure assoc_vars_t where
  state : mr_assoc_state_t
  last_state_change_ts : Nat
  network_id : Nat
  last_received_from_gateway_asn : Nat
  backoff_n : Int
  backoff_random_time : Nat
  join_response_timeout_ts : Nat
  synced_gateway_remaining_capacity : Nat
  is_pending_disconnect : mr_event_tag_t
  deriving DecidableEq, Repr

/-- State change (`mr_assoc_set_state`); `now_ts` is the value read from the timer. -/
def mr_assoc_set_state (av : assoc_vars_t) (state : mr_assoc_state_t) (now_ts : Nat) :
    assoc_vars_t :=
  { av with state := state, last_state_change_ts := now_ts }

def mr_assoc_get_state (av : assoc_vars_t) : mr_assoc_state_t := av.state

def mr_assoc_is_joined (av : assoc_vars_t) : Bool := av.state = JOIN_STATE_JOINED

/-- Network id put in outgoing headers (`mr_assoc_get_network_id`): the configured one on
a gateway, the one of the synced gateway (read from the MAC) on a node. -/
def mr_assoc_get_network_id (node_type : mr_node_type_t) (av : assoc_vars_t)
    (synced_network_id : Nat) : Nat :=
  if node_type = MARI_GATEWAY then av.network_id else synced_network_id

/-- Conversion of an `int` value to `uint8_t`. -/
def uint8_wrap (x : Int) : Nat := (x % 256).toNat

/-- Number of slots to wait (`mr_assoc_node_compute_backoff_random_time`);
`random_number` is the byte read from the random number generator. -/
def mr_assoc_node_compute_backoff_random_time (backoff_n : Nat) (random_number : Nat) : Nat :=
  let max := uint8_wrap (((1 <<< backoff_n : Nat) : Int) - 1)
  (random_number % 256) % (max + 1)

/-- Start of the join procedure (`mr_assoc_node_init_backoff`). -/
def mr_assoc_node_init_backoff (av : assoc_vars_t) (random_number : Nat) : assoc_vars_t :=
  { av with
      backoff_n := (MARI_BACKOFF_N_MIN : Int)
      backoff_random_time :=
        mr_assoc_node_compute_backoff_random_time
          (uint8_wrap (MARI_BACKOFF_N_MIN : Int)) random_number }

/-- Backoff switched off (`mr_assoc_node_reset_backoff`). -/
def mr_assoc_node_reset_backoff (av : assoc_vars_t) : assoc_vars_t :=
  { av with backoff_n := -1, backoff_random_time := 0 }

/-- One SharedUplink slot went by (`mr_assoc_node_tick_backoff`). -/
def mr_assoc_node_tick_backoff (av : assoc_vars_t) : assoc_vars_t :=
  if av.backoff_random_time > 0 then
    { av with backoff_random_time := av.backoff_random_time - 1 }
  else av

/-- A join attempt failed (`mr_assoc_node_register_collision_backoff`). -/
def mr_assoc_node_register_collision_backoff (av : assoc_vars_t) (random_number : Nat) :
    assoc_vars_t :=
  let backoff_n : Int :=
    if av.backoff_n = -1 then (MARI_BACKOFF_N_MIN : Int)
    else
      let new_n := uint8_wrap (av.backoff_n + 1)
      if new_n < MARI_BACKOFF_N_MAX then (new_n : Int) else (MARI_BACKOFF_N_MAX : Int)
  { av with
      backoff_n := backoff_n
      backoff_random_time :=
        mr_assoc_node_compute_backoff_random_time (uint8_wrap backoff_n) random_number }

def mr_assoc_node_ready_to_join (av : assoc_vars_t) : Bool :=
  av.state = JOIN_STATE_SYNCED ∧ av.backoff_random_time = 0

/-- A join request is about to be sent (`mr_assoc_node_start_joining`).  `now_ts` is the
timer value read for the deadline, `now_ts_state` the one read by `mr_assoc_set_state`. -/
def mr_assoc_node_start_joining (av : assoc_vars_t) (now_ts now_ts_state : Nat) : assoc_vars_t :=
  mr_assoc_set_state
    { av with join_response_timeout_ts := (now_ts + MARI_JOINING_STATE_TIMEOUT) % 2 ^ 32 }
    JOIN_STATE_JOINING now_ts_state

/-- Keep-alive of the gateway (`mr_assoc_node_keep_gateway_alive`): the `uint64_t` ASN is
stored in a `uint32_t` field. -/
def mr_assoc_node_keep_gateway_alive (av : assoc_vars_t) (asn : Nat) : assoc_vars_t :=
  { av with last_received_from_gateway_asn := asn % 2 ^ 32 }

def MARI_NET_ID_PATTERN_ANY : Nat := 0
def MARI_PROTOCOL_VERSION : Nat := 2

def mr_assoc_node_matches_network_id (av : assoc_vars_t) (network_id : Nat) : Bool :=
  if av.network_id = MARI_NET_ID_PATTERN_ANY then true
  else av.network_id = network_id

/-! ## scheduler.c: node side and slot selection -/

/-- The loop of `mr_scheduler_node_assign_myself_to_cell`, entered at index `i`: the
returned flag and the cells from `i` on. -/
def node_assign_loop (device_id cell_index : Nat) : Nat → List cell_t → Bool × List cell_t
  | _, [] => (false, [])
  | i, cell :: rest =>
    if cell.type = SLOT_TYPE_UPLINK ∧ i = cell_index then
      (true, { cell with assigned_node_id := device_id } :: rest)
    else
      let r := node_assign_loop device_id cell_index (i + 1) rest
      (r.1, cell :: r.2)

/-- Node side of a join response (`mr_scheduler_node_assign_myself_to_cell`). -/
def mr_scheduler_node_assign_myself_to_cell (st : schedule_vars_t) (device_id cell_index : Nat) :
    Bool × schedule_vars_t :=
  let r := node_assign_loop device_id cell_index 0 st.active_schedule.cells
  (r.1, { st with active_schedule := { st.active_schedule with cells := r.2 } })

/-- The loop of `mr_scheduler_node_deassign_myself_from_schedule`. -/
def node_deassign_loop (device_id : Nat) : List cell_t → List cell_t
  | [] => []
  | cell :: rest =>
    if cell.type = SLOT_TYPE_UPLINK ∧ cell.assigned_node_id = device_id then
      { cell with assigned_node_id := 0, last_received_asn := 0 } ::
        node_deassign_loop device_id rest
    else
      cell :: node_deassign_loop device_id rest

/-- A node drops its cells (`mr_scheduler_node_deassign_myself_from_schedule`). -/
def mr_scheduler_node_deassign_myself_from_schedule (st : schedule_vars_t) (device_id : Nat) :
    schedule_vars_t :=
  { st with
      active_schedule :=
        { st.active_schedule with
            cells := node_deassign_loop device_id st.active_schedule.cells } }

/-- Capacity advertised in beacons (`mr_scheduler_gateway_remaining_capacity`), a
`uint8_t` difference. -/
def mr_scheduler_gateway_remaining_capacity (st : schedule_vars_t) : Nat :=
  uint8_wrap ((st.active_schedule.max_nodes : Int) - (st.num_assigned_uplink_nodes : Int))

def mr_scheduler_get_active_schedule_id (st : schedule_vars_t) : Nat :=
  st.active_schedule.id

/-- Channel of a slot (`mr_scheduler_get_channel`).  The first test is the
preprocessor test on `MARI_FIXED_CHANNEL`; `MARI_FIXED_SCAN_CHANNEL` is defined, so
the Beacon branch is the one that returns it.  The sum is a `uint64_t`, the result a
`uint8_t`. -/
def mr_scheduler_get_channel (slot_type : slot_type_t) (asn channel_offset : Nat) : Nat :=
  if MARI_FIXED_CHANNEL ≠ 0 then
    MARI_FIXED_CHANNEL
  else if slot_type = SLOT_TYPE_BEACON then
    MARI_FIXED_SCAN_CHANNEL
  else
    (((asn + channel_offset) % 2 ^ 64) % MARI_N_BLE_REGULAR_CHANNELS) % 256

/-- Radio action of a gateway (`_compute_gateway_action`). -/
def _compute_gateway_action (cell : cell_t) (slot_info : mr_slot_info_t) : mr_slot_info_t :=
  match cell.type with
  | SLOT_TYPE_BEACON => { slot_info with radio_action := MARI_RADIO_ACTION_TX }
  | SLOT_TYPE_DOWNLINK => { slot_info with radio_action := MARI_RADIO_ACTION_TX }
  | SLOT_TYPE_SHARED_UPLINK => { slot_info with radio_action := MARI_RADIO_ACTION_RX }
  | SLOT_TYPE_UPLINK => { slot_info with radio_action := MARI_RADIO_ACTION_RX }

/-- Radio action of a node (`_compute_node_action`); `device_id` is `mr_device_id()`. -/
def _compute_node_action (cell : cell_t) (slot_info : mr_slot_info_t) (device_id : Nat) :
    mr_slot_info_t :=
  match cell.type with
  | SLOT_TYPE_BEACON => { slot_info with radio_action := MARI_RADIO_ACTION_RX }
  | SLOT_TYPE_DOWNLINK => { slot_info with radio_action := MARI_RADIO_ACTION_RX }
  | SLOT_TYPE_SHARED_UPLINK => { slot_info with radio_action := MARI_RADIO_ACTION_TX }
  | SLOT_TYPE_UPLINK =>
    if cell.assigned_node_id = device_id then
      { slot_info with radio_action := MARI_RADIO_ACTION_TX }
    else
      { slot_info with radio_action := MARI_RADIO_ACTION_SLEEP }

/-- Array read `active_schedule_ptr->cells[i]`.  The default is only returned for an
index past the cells, which `mr_scheduler_tick` computes only when `n_cells` is 0. -/
def schedule_vars_t.cell (st : schedule_vars_t) (i : Nat) : cell_t :=
  st.active_schedule.cells.getD i
    { type := SLOT_TYPE_BEACON, channel_offset := 0, assigned_node_id := 0,
      last_received_asn := 0, bloom_h1 := 0, bloom_h2 := 0 }

/-- One slot boundary (`mr_scheduler_tick`): the slot information returned, the
scheduler state and the association state (whose backoff counter a node ticks on a
SharedUplink cell) after the call. -/
def mr_scheduler_tick (st : schedule_vars_t) (av : assoc_vars_t) (node_type : mr_node_type_t)
    (device_id asn : Nat) : mr_slot_info_t × schedule_vars_t × assoc_vars_t :=
  let current_cell_index := asn % st.active_schedule.n_cells
  let st1 := { st with current_cell_index := current_cell_index }
  let cell := st1.cell current_cell_index
  let slot_info : mr_slot_info_t :=
    { radio_action := MARI_RADIO_ACTION_SLEEP
      channel := mr_scheduler_get_channel cell.type asn cell.channel_offset
      type := cell.type }
  let r : mr_slot_info_t × assoc_vars_t :=
    if node_type = MARI_GATEWAY then
      (_compute_gateway_action cell slot_info, av)
    else
      (_compute_node_action cell slot_info device_id,
       if cell.type = SLOT_TYPE_SHARED_UPLINK then mr_assoc_node_tick_backoff av else av)
  let st2 :=
    if asn ≠ 0 ∧ current_cell_index = 0 then
      { st1 with slotframe_counter := (st1.slotframe_counter + 1) % 2 ^ 32 }
    else st1
  (r.1, st2, r.2)

/-! ## scan.c: insertion into the scan table -/

/-- Beacon header as received (`mr_beacon_packet_header_t`). -/
structure mr_beacon_packet_header_t where
  version : Nat
  type : Nat
  network_id : Nat
  asn : Nat
  src : Nat
  remaining_capacity : Nat
  active_schedule_id : Nat
  bloom_filter : List Nat
  deriving DecidableEq, Repr

/-- The sample `_save_rssi` writes: the RSSI, the timestamp, the ASN and the beacon
header without its bloom filter. -/
def scan_sample (beacon : mr_beacon_packet_header_t) (rssi : Int) (ts_scan asn_scan : Nat) :
    mr_channel_info_t :=
  { rssi := rssi
    timestamp := ts_scan
    captured_asn := asn_scan
    beacon :=
      { version := beacon.version
        type := beacon.type
        network_id := beacon.network_id
        asn := beacon.asn
        src := beacon.src
        remaining_capacity := beacon.remaining_capacity
        active_schedule_id := beacon.active_schedule_id } }

/-- Store one sample in entry `idx` (`_save_rssi`), at channel index
`channel % MARI_N_BLE_REGULAR_CHANNELS`.  Writes are modelled for indices inside the
arrays (advertising channels 37, 38, 39 give 0, 1, 2). -/
def _save_rssi (sv : scan_vars_t) (idx : Nat) (beacon : mr_beacon_packet_header_t) (rssi : Int)
    (channel ts_scan asn_scan : Nat) : scan_vars_t :=
  let channel_idx := channel % MARI_N_BLE_REGULAR_CHANNELS
  { scans := sv.scans.set idx
      { sv.entry idx with
          channel_info := (sv.entry idx).channel_info.set channel_idx
            (scan_sample beacon rssi ts_scan asn_scan) } }

/-- Local variables of `mr_scan_add` together with the scan table. -/
structure scan_add_vars_t where
  sv : scan_vars_t
  found : Bool
  empty_spot_idx : Int
  ts_oldest_all : Nat
  ts_oldest_all_idx : Nat
  deriving DecidableEq, Repr

/-- One iteration of the loop of `mr_scan_add`. -/
def scan_add_step (beacon : mr_beacon_packet_header_t) (rssi : Int)
    (channel ts_scan asn_scan : Nat) (v : scan_add_vars_t) (i : Nat) : scan_add_vars_t :=
  if (v.sv.entry i).gateway_id = beacon.src then
    { v with sv := _save_rssi v.sv i beacon rssi channel ts_scan asn_scan, found := true }
  else
    let v1 :=
      if (v.sv.entry i).gateway_id = 0 ∧ v.empty_spot_idx < 0 then
        { v with empty_spot_idx := (i : Int) }
      else v
    let ts_cmp := _get_ts_latest (v1.sv.entry i)
    if (v1.sv.entry i).gateway_id ≠ 0 ∧ ts_cmp < v1.ts_oldest_all then
      { v1 with ts_oldest_all := ts_cmp, ts_oldest_all_idx := i }
    else v1

/-- An entry after `memset(&scan_vars.scans[i], 0, sizeof(mr_gateway_scan_t))`. -/
def gateway_scan_cleared : mr_gateway_scan_t :=
  { gateway_id := 0
    channel_info := List.replicate MARI_N_BLE_ADVERTISING_CHANNELS channel_info_zero }

/-- Insertion of a beacon sample into the scan table (`mr_scan_add`). -/
def mr_scan_add (sv : scan_vars_t) (beacon : mr_beacon_packet_header_t) (rssi : Int)
    (channel ts_scan asn_scan : Nat) : scan_vars_t :=
  let gateway_id := beacon.src
  let v := (List.range MARI_MAX_SCAN_LIST_SIZE).foldl
    (scan_add_step beacon rssi channel ts_scan asn_scan)
    { sv := sv, found := false, empty_spot_idx := -1, ts_oldest_all := ts_scan,
      ts_oldest_all_idx := 0 }
  if v.found then
    v.sv
  else if v.empty_spot_idx ≥ 0 then
    let idx := v.empty_spot_idx.toNat
    let sv1 : scan_vars_t :=
      { scans := v.sv.scans.set idx { v.sv.entry idx with gateway_id := gateway_id } }
    _save_rssi sv1 idx beacon rssi channel ts_scan asn_scan
  else
    let idx := v.ts_oldest_all_idx
    let sv1 : scan_vars_t := { scans := v.sv.scans.set idx gateway_scan_cleared }
    let sv2 : scan_vars_t :=
      { scans := sv1.scans.set idx { sv1.entry idx with gateway_id := gateway_id } }
    _save_rssi sv2 idx beacon rssi channel ts_scan asn_scan

/-! ## packet.h / packet.c: frames as bytes -/

/-- Size in bytes of a field of an enum type inside the packed headers.  It makes the
common header 24 bytes long. -/
def sizeof_enum : Nat := 4

/-- The `n` bytes of an unsigned value, least significant first. -/
def le_bytes (n x : Nat) : List Nat :=
  (List.range n).map (fun k => (x / 256 ^ k) % 256)

/-- The unsigned value of the `n` bytes at offset `off` of a buffer, least significant
first. -/
def read_le (buffer : List Nat) (off n : Nat) : Nat :=
  (List.range n).foldr (fun k acc => buffer.getD (off + k) 0 + 256 * acc) 0

/-- General packet header (`mr_packet_header_t`). -/
structure mr_packet_header_t where
  version : Nat
  type : Nat
  network_id : Nat
  dst : Nat
  src : Nat
  stats_rssi : Nat
  deriving DecidableEq, Repr

def sizeof_mr_packet_header_t : Nat := 1 + sizeof_enum + 2 + 8 + 8 + 1

def sizeof_mr_beacon_packet_header_t : Nat :=
  1 + sizeof_enum + 2 + 8 + 8 + 1 + 1 + MARI_BLOOM_M_BYTES

/-- The bytes of a packed `mr_packet_header_t`. -/
def mr_packet_header_t.bytes (h : mr_packet_header_t) : List Nat :=
  le_bytes 1 h.version ++ le_bytes sizeof_enum h.type ++ le_bytes 2 h.network_id ++
    le_bytes 8 h.dst ++ le_bytes 8 h.src ++ le_bytes 1 h.stats_rssi

/-- The cast `(mr_packet_header_t *)packet`. -/
def mr_packet_header_t.of_bytes (packet : List Nat) : mr_packet_header_t :=
  { version := read_le packet 0 1
    type := read_le packet 1 sizeof_enum
    network_id := read_le packet (1 + sizeof_enum) 2
    dst := read_le packet (1 + sizeof_enum + 2) 8
    src := read_le packet (1 + sizeof_enum + 2 + 8) 8
    stats_rssi := read_le packet (1 + sizeof_enum + 2 + 8 + 8) 1 }

/-- The bytes of a packed `mr_beacon_packet_header_t`. -/
def mr_beacon_packet_header_t.bytes (b : mr_beacon_packet_header_t) : List Nat :=
  le_bytes 1 b.version ++ le_bytes sizeof_enum b.type ++ le_bytes 2 b.network_id ++
    le_bytes 8 b.asn ++ le_bytes 8 b.src ++ le_bytes 1 b.remaining_capacity ++
    le_bytes 1 b.active_schedule_id ++
    (List.range MARI_BLOOM_M_BYTES).map (fun k => b.bloom_filter.getD k 0 % 256)

/-- The cast `(mr_beacon_packet_header_t *)packet`. -/
def mr_beacon_packet_header_t.of_bytes (packet : List Nat) : mr_beacon_packet_header_t :=
  { version := read_le packet 0 1
    type := read_le packet 1 sizeof_enum
    network_id := read_le packet (1 + sizeof_enum) 2
    asn := read_le packet (1 + sizeof_enum + 2) 8
    src := read_le packet (1 + sizeof_enum + 2 + 8) 8
    remaining_capacity := read_le packet (1 + sizeof_enum + 2 + 8 + 8) 1
    active_schedule_id := read_le packet (1 + sizeof_enum + 2 + 8 + 8 + 1) 1
    bloom_filter :=
      (List.range MARI_BLOOM_M_BYTES).map
        (fun k => packet.getD (1 + sizeof_enum + 2 + 8 + 8 + 1 + 1 + k) 0) }

/-- Header of an outgoing frame (`_set_header`): the length written and the buffer.
`device_id` is `mr_device_id()`, `network_id` is `mr_assoc_get_network_id()`. -/
def _set_header (buffer : List Nat) (dst packet_type device_id network_id : Nat) :
    Nat × List Nat :=
  let header : mr_packet_header_t :=
    { version := MARI_PROTOCOL_VERSION
      type := packet_type
      network_id := network_id
      dst := dst
      src := device_id
      stats_rssi := 0 }
  (sizeof_mr_packet_header_t, memcpy buffer header.bytes sizeof_mr_packet_header_t)

def mr_build_packet_keepalive (buffer : List Nat) (dst device_id network_id : Nat) :
    Nat × List Nat :=
  _set_header buffer dst MARI_PACKET_KEEPALIVE device_id network_id

def mr_build_packet_join_request (buffer : List Nat) (dst device_id network_id : Nat) :
    Nat × List Nat :=
  _set_header buffer dst MARI_PACKET_JOIN_REQUEST device_id network_id

def mr_build_packet_join_response (buffer : List Nat) (dst device_id network_id : Nat) :
    Nat × List Nat :=
  _set_header buffer dst MARI_PACKET_JOIN_RESPONSE device_id network_id

/-- A beacon frame (`mr_build_packet_beacon`); `bloom` is the gateway's filter, copied
by `mr_bloom_gateway_copy`. -/
def mr_build_packet_beacon (buffer : List Nat) (net_id asn remaining_capacity
    active_schedule_id device_id : Nat) (bloom : List Nat) : Nat × List Nat :=
  let beacon : mr_beacon_packet_header_t :=
    { version := MARI_PROTOCOL_VERSION
      type := MARI_PACKET_BEACON
      network_id := net_id
      asn := asn
      src := device_id
      remaining_capacity := remaining_capacity
      active_schedule_id := active_schedule_id
      bloom_filter := bloom }
  (sizeof_mr_beacon_packet_header_t,
   memcpy buffer beacon.bytes sizeof_mr_beacon_packet_header_t)

/-! ## queue.c: the join holder and the frame of the next slot -/

def MARI_AUTO_UPLINK_KEEPALIVE : Nat := 1

/-- A join request is put in the holder (`mr_queue_set_join_request`). -/
def mr_queue_set_join_request (q : queue_vars_t) (node_id device_id network_id : Nat) :
    queue_vars_t :=
  let r := mr_build_packet_join_request q.join_packet.buffer node_id device_id network_id
  { q with join_packet := { length := r.1 % 256, buffer := r.2 } }

/-- A join response is put in the holder (`mr_queue_set_join_response`). -/
def mr_queue_set_join_response (q : queue_vars_t) (node_id assigned_cell_id device_id
    network_id : Nat) : queue_vars_t :=
  let r := mr_build_packet_join_response q.join_packet.buffer node_id device_id network_id
  let len := r.1 % 256
  { q with
      join_packet :=
        { length := (len + 1) % 256, buffer := r.2.set len (assigned_cell_id % 256) } }

def mr_queue_has_join_packet (q : queue_vars_t) : Bool :=
  q.join_packet.length > 0

/-- The holder is copied out and emptied (`mr_queue_get_join_packet`): the length, the
caller's buffer and the queue after the call. -/
def mr_queue_get_join_packet (q : queue_vars_t) (packet : List Nat) :
    Nat × List Nat × queue_vars_t :=
  (q.join_packet.length,
   memcpy packet q.join_packet.buffer q.join_packet.length,
   { q with join_packet := { q.join_packet with length := 0 } })

/-- Values read from the device, the MAC and the drivers during one call: the device
role (`mari_get_node_type`) and id (`mr_device_id`), the MAC's ASN, synced gateway and
synced network id, the timer (`now_ts`, and `now_ts_state` for the read made by
`mr_assoc_set_state`) and the RSSI of the last frame (`mr_radio_rssi`). -/
structure mari_env_t where
  node_type : mr_node_type_t
  device_id : Nat
  asn : Nat
  synced_gateway : Nat
  synced_network_id : Nat
  now_ts : Nat
  now_ts_state : Nat
  radio_rssi : Int
  deriving DecidableEq, Repr

/-- The frame to send in the coming slot (`mr_queue_next_packet`): the length returned,
the caller's buffer, the queue and the association state after the call.  The
scheduler and bloom states are only read. -/
def mr_queue_next_packet (env : mari_env_t) (st : schedule_vars_t) (bv : bloom_vars_t)
    (q : queue_vars_t) (av : assoc_vars_t) (slot_type : slot_type_t) (packet : List Nat) :
    Nat × List Nat × queue_vars_t × assoc_vars_t :=
  if env.node_type = MARI_GATEWAY then
    if slot_type = SLOT_TYPE_BEACON then
      let r := mr_build_packet_beacon packet
        (mr_assoc_get_network_id env.node_type av env.synced_network_id) env.asn
        (mr_scheduler_gateway_remaining_capacity st) (mr_scheduler_get_active_schedule_id st)
        env.device_id bv.bloom
      (r.1 % 256, r.2, q, av)
    else if slot_type = SLOT_TYPE_DOWNLINK then
      if mr_queue_has_join_packet q then
        let r := mr_queue_get_join_packet q packet
        (r.1, r.2.1, r.2.2, av)
      else
        let r := mr_queue_next_packet_ring q packet
        (r.1, r.2.1, r.2.2, av)
    else (0, packet, q, av)
  else
    if slot_type = SLOT_TYPE_SHARED_UPLINK then
      if mr_assoc_node_ready_to_join av then
        let av1 := mr_assoc_node_start_joining av env.now_ts env.now_ts_state
        let r := mr_queue_get_join_packet q packet
        (r.1, r.2.1, r.2.2, av1)
      else (0, packet, q, av)
    else if slot_type = SLOT_TYPE_UPLINK then
      let r := mr_queue_next_packet_ring q packet
      if r.1 ≠ 0 then (r.1, r.2.1, r.2.2, av)
      else if MARI_AUTO_UPLINK_KEEPALIVE ≠ 0 then
        let k := mr_build_packet_keepalive r.2.1 env.synced_gateway env.device_id
          (mr_assoc_get_network_id env.node_type av env.synced_network_id)
        (k.1 % 256, k.2, r.2.2, av)
      else (r.1, r.2.1, r.2.2, av)
    else (0, packet, q, av)

/-! ## association.c: leaving, joining, beacons -/

/-- Has the gateway been lost (`mr_assoc_node_should_leave`)?  The ASN is a `uint32_t`
here.  Returns the flag and the association state after the call. -/
def mr_assoc_node_should_leave (av : assoc_vars_t) (st : schedule_vars_t) (asn : Nat) :
    Bool × assoc_vars_t :=
  if av.state ≠ JOIN_STATE_JOINED then
    (false, av)
  else if av.is_pending_disconnect ≠ mr_event_tag_t.MARI_NONE then
    (true, av)
  else
    let gateway_is_lost : Bool :=
      u32_sub asn av.last_received_from_gateway_asn >
        mr_scheduler_get_active_schedule_slot_count st * MARI_MAX_SLOTFRAMES_NO_RX_LEAVE
    if gateway_is_lost then
      (true, { av with is_pending_disconnect := mr_event_tag_t.MARI_PEER_LOST_TIMEOUT })
    else
      (false, av)

/-- The node leaves the gateway for the recorded reason
(`mr_assoc_node_handle_pending_disconnect`): the association and scheduler states after
the call and the events raised. -/
def mr_assoc_node_handle_pending_disconnect (env : mari_env_t) (av : assoc_vars_t)
    (st : schedule_vars_t) :
    assoc_vars_t × schedule_vars_t × List (mr_event_t × mr_event_data_t) :=
  let av1 := mr_assoc_set_state av JOIN_STATE_IDLE env.now_ts
  let st1 := mr_scheduler_node_deassign_myself_from_schedule st env.device_id
  (av1, st1,
   [(mr_event_t.MARI_DISCONNECTED,
     { node_id := env.synced_gateway, tag := av1.is_pending_disconnect })])

/-- The node leaves the gateway at once (`mr_assoc_node_handle_immediate_disconnect`). -/
def mr_assoc_node_handle_immediate_disconnect (env : mari_env_t) (av : assoc_vars_t)
    (st : schedule_vars_t) (tag : mr_event_tag_t) :
    assoc_vars_t × schedule_vars_t × List (mr_event_t × mr_event_data_t) :=
  let av1 := mr_assoc_set_state av JOIN_STATE_IDLE env.now_ts
  let st1 := mr_scheduler_node_deassign_myself_from_schedule st env.device_id
  (av1, st1, [(mr_event_t.MARI_DISCONNECTED, { node_id := env.synced_gateway, tag := tag })])

/-- The node synchronised to a gateway (`mr_assoc_node_handle_synced`). -/
def mr_assoc_node_handle_synced (env : mari_env_t) (av : assoc_vars_t) (q : queue_vars_t)
    (random_number : Nat) : assoc_vars_t × queue_vars_t :=
  let av1 := mr_assoc_set_state av JOIN_STATE_SYNCED env.now_ts
  let av2 := mr_assoc_node_init_backoff av1 random_number
  (av2,
   mr_queue_set_join_request q env.synced_gateway env.device_id
     (mr_assoc_get_network_id env.node_type av2 env.synced_network_id))

/-- The join response arrived (`mr_assoc_node_handle_joined`). -/
def mr_assoc_node_handle_joined (env : mari_env_t) (av : assoc_vars_t) (q : queue_vars_t)
    (gateway_id : Nat) : assoc_vars_t × queue_vars_t × List (mr_event_t × mr_event_data_t) :=
  let av1 := mr_assoc_set_state av JOIN_STATE_JOINED env.now_ts
  let q1 := mr_queue_reset q
  let av2 := { av1 with is_pending_disconnect := mr_event_tag_t.MARI_NONE }
  let av3 := mr_assoc_node_keep_gateway_alive av2 env.asn
  (mr_assoc_node_reset_backoff av3, q1,
   [(mr_event_t.MARI_CONNECTED, { node_id := gateway_id, tag := mr_event_tag_t.MARI_NONE })])

/-- The join procedure is abandoned (`mr_assoc_node_handle_give_up_joining`). -/
def mr_assoc_node_handle_give_up_joining (env : mari_env_t) (av : assoc_vars_t) :
    assoc_vars_t :=
  mr_assoc_node_reset_backoff (mr_assoc_set_state av JOIN_STATE_IDLE env.now_ts)

/-- No join response arrived in time (`mr_assoc_node_handle_failed_join`). -/
def mr_assoc_node_handle_failed_join (env : mari_env_t) (av : assoc_vars_t) (q : queue_vars_t)
    (random_number : Nat) : Bool × assoc_vars_t × queue_vars_t :=
  if av.synced_gateway_remaining_capacity > 0 then
    let av1 := mr_assoc_set_state av JOIN_STATE_SYNCED env.now_ts
    let av2 := mr_assoc_node_register_collision_backoff av1 random_number
    (true, av2,
     mr_queue_set_join_request q env.synced_gateway env.device_id
       (mr_assoc_get_network_id env.node_type av2 env.synced_network_id))
  else
    (false, mr_assoc_node_handle_give_up_joining env av, q)

def mr_assoc_node_too_long_waiting_for_join_response (env : mari_env_t) (av : assoc_vars_t) :
    Bool :=
  if av.state ≠ JOIN_STATE_JOINING then false
  else env.now_ts > av.join_response_timeout_ts

/-- A beacon was received (`mr_assoc_handle_beacon`): the association state and the scan
table after the call.  `packet` is the frame, `ts` the timestamp given by the caller; the
`length` argument, which the C function does not read, is left out. -/
def mr_assoc_handle_beacon (env : mari_env_t) (av : assoc_vars_t) (sv : scan_vars_t)
    (packet : List Nat) (channel ts : Nat) : assoc_vars_t × scan_vars_t :=
  if packet.getD 1 0 ≠ MARI_PACKET_BEACON then
    (av, sv)
  else
    let beacon := mr_beacon_packet_header_t.of_bytes packet
    if beacon.version ≠ MARI_PROTOCOL_VERSION then
      (av, sv)
    else if ¬ mr_assoc_node_matches_network_id av beacon.network_id then
      (av, sv)
    else
      let from_my_gateway : Bool := beacon.src = env.synced_gateway
      if from_my_gateway ∧ mr_assoc_is_joined av ∧
          ¬ mr_bloom_node_contains env.device_id beacon.bloom_filter then
        ({ av with is_pending_disconnect := mr_event_tag_t.MARI_PEER_LOST_BLOOM }, sv)
      else
        let av1 :=
          if from_my_gateway ∧ mr_assoc_is_joined av then
            mr_assoc_node_keep_gateway_alive av env.asn
          else av
        let av2 :=
          if from_my_gateway ∧ av1.state.val ≥ JOIN_STATE_SYNCED.val then
            { av1 with synced_gateway_remaining_capacity := beacon.remaining_capacity }
          else av1
        if beacon.remaining_capacity = 0 then
          (av2, sv)
        else
          (av2, mr_scan_add sv beacon env.radio_rssi channel ts 0)

/-! ## association.c: gateway bookkeeping -/

/-- Is the node assigned to an Uplink cell (`mr_assoc_gateway_node_is_joined`)? -/
def mr_assoc_gateway_node_is_joined (st : schedule_vars_t) (node_id : Nat) : Bool :=
  st.active_schedule.cells.any
    (fun cell => cell.type = SLOT_TYPE_UPLINK ∧ cell.assigned_node_id = node_id)

/-- The ASN of the last frame of a node is recorded
(`mr_assoc_gateway_keep_node_alive`). -/
def mr_assoc_gateway_keep_node_alive (st : schedule_vars_t) (node_id asn : Nat) :
    schedule_vars_t :=
  { st with
      active_schedule :=
        { st.active_schedule with
            cells := st.active_schedule.cells.map
              (fun cell =>
                if cell.type = SLOT_TYPE_UPLINK ∧ cell.assigned_node_id = node_id then
                  { cell with last_received_asn := asn }
                else cell) } }

/-! ## mari.c: handling of a received frame -/

def MARI_BROADCAST_ADDRESS : Nat := 0xFFFFFFFFFFFFFFFF

/-- The state of the stateful modules. -/
structure mari_state_t where
  assoc : assoc_vars_t
  sched : schedule_vars_t
  scan : scan_vars_t
  queue : queue_vars_t
  bloom : bloom_vars_t
  deriving DecidableEq, Repr

/-- The gateway branch of `mr_handle_packet`, after the destination test. -/
def mr_handle_packet_gateway (env : mari_env_t) (s : mari_state_t) (packet : List Nat)
    (length : Nat) : Bool × mari_state_t × List (mr_event_t × mr_event_data_t) :=
  let header := mr_packet_header_t.of_bytes packet
  if header.network_id ≠ mr_assoc_get_network_id env.node_type s.assoc env.synced_network_id then
    (false, s, [])
  else
    let from_joined_node := mr_assoc_gateway_node_is_joined s.sched header.src
    if header.type = MARI_PACKET_JOIN_REQUEST then
      let r := mr_scheduler_gateway_assign_next_available_uplink_cell s.sched header.src env.asn
      if r.1 ≥ 0 then
        (true,
         { s with
             sched := r.2
             queue := mr_queue_set_join_response s.queue header.src (uint8_wrap r.1)
               env.device_id
               (mr_assoc_get_network_id env.node_type s.assoc env.synced_network_id)
             bloom := { s.bloom with is_dirty := true } },
         [(mr_event_t.MARI_NODE_JOINED,
           { node_id := header.src, tag := mr_event_tag_t.MARI_NONE })])
      else
        (true, { s with sched := r.2 },
         [(mr_event_t.MARI_ERROR, { node_id := 0, tag := mr_event_tag_t.MARI_GATEWAY_FULL })])
    else if header.type = MARI_PACKET_DATA then
      if ¬ from_joined_node then
        (false, s, [])
      else
        (true, { s with sched := mr_assoc_gateway_keep_node_alive s.sched header.src env.asn },
         [(mr_event_t.MARI_NEW_PACKET,
           { node_id := 0, tag := mr_event_tag_t.MARI_NONE, new_packet := packet.take length })])
    else if header.type = MARI_PACKET_KEEPALIVE then
      if ¬ from_joined_node then
        (false, s, [])
      else
        (true, { s with sched := mr_assoc_gateway_keep_node_alive s.sched header.src env.asn },
         [(mr_event_t.MARI_KEEPALIVE,
           { node_id := header.src, tag := mr_event_tag_t.MARI_NONE })])
    else
      (true, s, [])

/-- The node branch of `mr_handle_packet`, after the destination test. -/
def mr_handle_packet_node (env : mari_env_t) (s : mari_state_t) (packet : List Nat)
    (length : Nat) : Bool × mari_state_t × List (mr_event_t × mr_event_data_t) :=
  let header := mr_packet_header_t.of_bytes packet
  if ¬ mr_assoc_node_matches_network_id s.assoc header.network_id then
    (false, s, [])
  else
    let from_my_joined_gateway : Bool :=
      header.src = env.synced_gateway ∧ mr_assoc_get_state s.assoc = JOIN_STATE_JOINED
    if header.type = MARI_PACKET_BEACON then
      let r := mr_assoc_handle_beacon env s.assoc s.scan packet MARI_FIXED_SCAN_CHANNEL
        (env.asn % 2 ^ 32)
      (true, { s with assoc := r.1, scan := r.2 }, [])
    else if header.type = MARI_PACKET_JOIN_RESPONSE then
      if mr_assoc_get_state s.assoc ≠ JOIN_STATE_JOINING then
        (false, s, [])
      else if header.dst ≠ env.device_id then
        (false, s, [])
      else
        let cell_id := packet.getD sizeof_mr_packet_header_t 0
        let a := mr_scheduler_node_assign_myself_to_cell s.sched env.device_id cell_id
        if a.1 then
          let j := mr_assoc_node_handle_joined env s.assoc s.queue header.src
          (true, { s with sched := a.2, assoc := j.1, queue := j.2.1 }, j.2.2)
        else
          (true, { s with sched := a.2 },
           [(mr_event_t.MARI_ERROR, { node_id := 0, tag := mr_event_tag_t.MARI_NONE })])
    else if header.type = MARI_PACKET_DATA then
      if ¬ from_my_joined_gateway then
        (false, s, [])
      else
        (true, { s with assoc := mr_assoc_node_keep_gateway_alive s.assoc env.asn },
         [(mr_event_t.MARI_NEW_PACKET,
           { node_id := 0, tag := mr_event_tag_t.MARI_NONE, new_packet := packet.take length })])
    else if header.type = MARI_PACKET_KEEPALIVE then
      if ¬ from_my_joined_gateway then
        (false, s, [])
      else
        (true, { s with assoc := mr_assoc_node_keep_gateway_alive s.assoc env.asn }, [])
    else
      (true, s, [])

/-- A frame was received (`mr_handle_packet`): the returned flag, the state after the
call and the events passed to the application callback. -/
def mr_handle_packet (env : mari_env_t) (s : mari_state_t) (packet : List Nat) (length : Nat) :
    Bool × mari_state_t × List (mr_event_t × mr_event_data_t) :=
  let header := mr_packet_header_t.of_bytes packet
  let wrong_destination : Bool :=
    header.dst ≠ env.device_id ∧ header.dst ≠ MARI_BROADCAST_ADDRESS
  let not_a_beacon : Bool := header.type ≠ MARI_PACKET_BEACON
  if wrong_destination ∧ not_a_beacon then
    (false, s, [])
  else if env.node_type = MARI_GATEWAY then
    mr_handle_packet_gateway env s packet length
  else
    mr_handle_packet_node env s packet length

/-- Association state of a node that has just been initialised with network id 1. -/
def example_assoc : assoc_vars_t :=
  { state := JOIN_STATE_IDLE
    last_state_change_ts := 0
    network_id := 1
    last_received_from_gateway_asn := 0
    backoff_n := -1
    backoff_random_time := 0
    join_response_timeout_ts := 0
    synced_gateway_remaining_capacity := 0
    is_pending_disconnect := mr_event_tag_t.MARI_NONE }

/-- The test by which the sweep `mr_assoc_gateway_clear_old_nodes` releases a cell, with
the `uint64_t` subtraction of the code. -/
def cell_expired (asn max_asn_old : Nat) (c : cell_t) : Bool :=
  c.type = SLOT_TYPE_UPLINK ∧ c.assigned_node_id ≠ 0 ∧
    u64_sub asn c.last_received_asn > max_asn_old

/-- An Uplink cell whose node has not been heard for more than five slotframes:
`asn - last_received_asn > n_cells * 5`, in exact arithmetic. -/
def cell_timed_out (asn n_cells : Nat) (c : cell_t) : Bool :=
  c.type = SLOT_TYPE_UPLINK ∧ c.assigned_node_id ≠ 0 ∧
    asn - c.last_received_asn > n_cells * 5

/-- A cell after its release: node id and last ASN zeroed, the other fields kept. -/
def released_cell (c : cell_t) : cell_t :=
  { c with assigned_node_id := 0, last_received_asn := 0 }

/-- The event the sweep raises for a released cell. -/
def node_left_event (c : cell_t) : mr_event_t × mr_event_data_t :=
  (mr_event_t.MARI_NODE_LEFT,
   { node_id := c.assigned_node_id, tag := mr_event_tag_t.MARI_PEER_LOST_TIMEOUT })

/-- The backoff state after entering Synced with random byte `r0` and then registering
one collision per random byte of `rs`, first byte first. -/
def backoff_run (av : assoc_vars_t) (r0 : Nat) (rs : List Nat) : assoc_vars_t :=
  rs.foldl mr_assoc_node_register_collision_backoff (mr_assoc_node_init_backoff av r0)

/-- Environment of node 7, synced to gateway 1 on network 1, at ASN 10 and time 5000. -/
def example_node_env : mari_env_t :=
  { node_type := MARI_NODE
    device_id := 7
    asn := 10
    synced_gateway := 1
    synced_network_id := 1
    now_ts := 5000
    now_ts_state := 5001
    radio_rssi := -50 }

/-- Association state of the example node in state Synced with an expired backoff. -/
def example_assoc_synced : assoc_vars_t :=
  { example_assoc with
      state := JOIN_STATE_SYNCED, backoff_n := 4, backoff_random_time := 0,
      synced_gateway_remaining_capacity := 1 }

/-- The example queue with a join request to gateway 1 in the holder. -/
def example_queue_join : queue_vars_t :=
  mr_queue_set_join_request example_queue 1 7 1

/-- An empty Gateway bloom state. -/
def example_bloom : bloom_vars_t :=
  { is_dirty := false, is_available := false, bloom := List.replicate 128 0 }

/-- The beacon frame gateway 1 sends at ASN 10 on network `net_id` with the given
filter, remaining capacity 1 and schedule id 1. -/
def example_beacon_frame (net_id : Nat) (bloom : List Nat) : List Nat :=
  (mr_build_packet_beacon [] net_id 10 1 1 1 bloom).2

/-- Association state of the example node in state Joined, last heard at ASN 3. -/
def example_assoc_joined : assoc_vars_t :=
  { example_assoc with
      state := JOIN_STATE_JOINED, last_received_from_gateway_asn := 3,
      synced_gateway_remaining_capacity := 1 }

/-- Module states of the example node in state Joined. -/
def example_node_state : mari_state_t :=
  { assoc := example_assoc_joined
    sched := example_gateway
    scan := example_scan_tie
    queue := example_queue
    bloom := example_bloom }

/-- A scan-table entry after a new sample was written at channel index
`channel % MARI_N_BLE_REGULAR_CHANNELS`: the gateway id and the other samples are kept. -/
def saved_entry (e : mr_gateway_scan_t) (beacon : mr_beacon_packet_header_t) (rssi : Int)
    (channel ts_scan asn_scan : Nat) : mr_gateway_scan_t :=
  { e with
      channel_info := e.channel_info.set (channel % MARI_N_BLE_REGULAR_CHANNELS)
        (scan_sample beacon rssi ts_scan asn_scan) }

/-- A beacon header of gateway `src` with an empty bloom filter. -/
def example_beacon (src : Nat) : mr_beacon_packet_header_t :=
  { version := 2, type := 1, network_id := 0, asn := 0, src := src, remaining_capacity := 1,
    active_schedule_id := 0, bloom_filter := [] }

/-- A full scan table recorded shortly before the 32-bit microsecond timer wraps:
gateways 1 to 5, each heard once; gateway 2 (entry 1) has the oldest sample and gateway
1 (entry 0) the most recent one. -/
def example_scan_full : scan_vars_t :=
  { scans :=
      [{ gateway_id := 1
         channel_info := [example_sample (-50) 4294960000 1, channel_info_zero, channel_info_zero] },
       { gateway_id := 2
         channel_info := [example_sample (-50) 4294900000 2, channel_info_zero, channel_info_zero] },
       { gateway_id := 3
         channel_info := [example_sample (-50) 4294910000 3, channel_info_zero, channel_info_zero] },
       { gateway_id := 4
         channel_info := [example_sample (-50) 4294920000 4, channel_info_zero, channel_info_zero] },
       { gateway_id := 5
         channel_info := [example_sample (-50) 4294930000 5, channel_info_zero, channel_info_zero] }] }

/-! ## scheduler.c: choice of the active schedule -/

/-- The schedules the entries of `available_schedules` point to, as they are now: the
entry `active_schedule_ptr` is equal to is the active schedule. -/
def schedule_vars_t.schedules (st : schedule_vars_t) : List schedule_t :=
  match st.active_schedule_idx with
  | some k => st.available_schedules.set k st.active_schedule
  | none => st.available_schedules

/-- The loop of `mr_scheduler_set_schedule`, entered at index `i` with the schedules
from `i` on: the index of the first schedule with the given id. -/
def set_schedule_loop (schedule_id : Nat) : Nat → List schedule_t → Option Nat
  | _, [] => none
  | i, s :: rest =>
    if s.id = schedule_id then some i else set_schedule_loop schedule_id (i + 1) rest

/-- Activation of the schedule with the given id (`mr_scheduler_set_schedule`).  The
list `available_schedules` stands for the `MARI_N_SCHEDULES` entries of the array. -/
def mr_scheduler_set_schedule (st : schedule_vars_t) (schedule_id : Nat) :
    Bool × schedule_vars_t :=
  match set_schedule_loop schedule_id 0 st.schedules with
  | some i =>
    (true,
     { st with
         available_schedules := st.schedules
         active_schedule := st.schedules.getD i st.active_schedule
         active_schedule_idx := some i })
  | none => (false, st)

/-! ## mr_timer_hf.c: compare channels of the high-frequency timer -/

/-- The functions the MAC registers as timer callbacks. -/
inductive timer_hf_cb_t where
  | new_slot_synced
  | end_scan
  | end_background_scan
  | activity_scan_dispatch_new_schedule
  | mr_radio_rx
  | activity_ti2
  | activity_tie1
  | activity_ri2
  | activity_rie1
  | activity_rie2
  deriving DecidableEq, Repr

/-- Software side of one compare channel (`timer_hf_callback_t`). -/
structure timer_hf_callback_t where
  period_us : Nat
  one_shot : Bool
  callback : Option timer_hf_cb_t
  deriving DecidableEq, Repr

/-- One timer device: the compare registers `CC`, the compare interrupt enable bits,
the compare event flags, and the callback table of `timer_hf_vars_t`, each indexed by
channel. -/
structure timer_hf_dev_t where
  cc : List Nat
  inten : List Bool
  events_compare : List Bool
  timer_callback : List timer_hf_callback_t
  deriving DecidableEq, Repr

def MARI_TIMER_INTER_SLOT_CHANNEL : Nat := 0
def MARI_TIMER_CHANNEL_1 : Nat := 1
def MARI_TIMER_CHANNEL_2 : Nat := 2
def MARI_TIMER_CHANNEL_3 : Nat := 3

/-- Conversion of an `int` value to `uint32_t`. -/
def uint32_wrap (x : Int) : Nat := (x % 2 ^ 32).toNat

/-- Conversion of a `uint32_t` value to `int32_t`. -/
def int32_wrap (x : Int) : Int := (x + 2 ^ 31) % 2 ^ 32 - 2 ^ 31

/-- Shift of the compare value of a channel (`mr_timer_hf_adjust_periodic_us`):
`CC[channel] += adjust_us` on the 32-bit register, `adjust_us` being an `int32_t`. -/
def mr_timer_hf_adjust_periodic_us (tm : timer_hf_dev_t) (channel : Nat) (adjust_us : Int) :
    timer_hf_dev_t :=
  { tm with cc := tm.cc.set channel (uint32_wrap ((tm.cc.getD channel 0 : Int) + adjust_us)) }

/-- The common part of the functions that arm a channel: the callback entry is written,
the interrupt enabled, the counter (`now`) captured into `CC[channel]` and the period
added to it. -/
def timer_hf_arm (tm : timer_hf_dev_t) (channel period_us : Nat) (one_shot : Bool)
    (cb : timer_hf_cb_t) (now : Nat) : timer_hf_dev_t :=
  { tm with
      timer_callback := tm.timer_callback.set channel
        { period_us := period_us, one_shot := one_shot, callback := some cb }
      inten := tm.inten.set channel true
      cc := tm.cc.set channel ((now + period_us) % 2 ^ 32) }

def mr_timer_hf_set_periodic_us (tm : timer_hf_dev_t) (channel us : Nat) (cb : timer_hf_cb_t)
    (now : Nat) : timer_hf_dev_t :=
  timer_hf_arm tm channel us false cb now

def mr_timer_hf_set_oneshot_us (tm : timer_hf_dev_t) (channel us : Nat) (cb : timer_hf_cb_t)
    (now : Nat) : timer_hf_dev_t :=
  timer_hf_arm tm channel us true cb now

/-- One-shot relative to a past reference (`mr_timer_hf_set_oneshot_with_ref_us`): the
period is `us + (now - base_us)` on 32 bits, where `now` is the value returned by
`mr_timer_hf_now`; `captured` is the value the later `TASKS_CAPTURE[channel]` puts in the
compare register before the period is added to it. -/
def mr_timer_hf_set_oneshot_with_ref_us (tm : timer_hf_dev_t) (channel base_us us : Nat)
    (cb : timer_hf_cb_t) (now captured : Nat) : timer_hf_dev_t :=
  timer_hf_arm tm channel ((us + u32_sub now base_us) % 2 ^ 32) true cb captured

def mr_timer_hf_cancel (tm : timer_hf_dev_t) (channel : Nat) : timer_hf_dev_t :=
  { timer_callback := tm.timer_callback.set channel
      { period_us := 0, one_shot := (tm.timer_callback.getD channel
          { period_us := 0, one_shot := false, callback := none }).one_shot, callback := none }
    inten := tm.inten.set channel false
    events_compare := tm.events_compare.set channel false
    cc := tm.cc.set channel 0 }

/-! ## mac.h / mac.c: synchronisation of a node -/

def MARI_SCAN_MAX_SLOTS : Nat := MARI_N_CELLS_MAX
def MARI_SCAN_MAX_DURATION : Nat := MARI_SCAN_MAX_SLOTS * MARI_WHOLE_SLOT_DURATION
def MARI_HANDOVER_RSSI_HYSTERESIS : Int := 24
def MARI_HANDOVER_MIN_INTERVAL : Nat := 1000 * 1000 * 5

/-- Durations of the sections of a slot (`mr_slot_durations_t`). -/
structure mr_slot_durations_t where
  tx_offset : Nat
  tx_max : Nat
  rx_guard : Nat
  rx_offset : Nat
  rx_max : Nat
  end_guard : Nat
  whole_slot : Nat
  deriving DecidableEq, Repr

/-- The slot durations the MAC is compiled with (`slot_durations`). -/
def slot_durations : mr_slot_durations_t :=
  { tx_offset := MARI_TS_TX_OFFSET
    tx_max := MARI_PACKET_TOA_WITH_PADDING
    rx_guard := MARI_RX_GUARD_TIME
    rx_offset := MARI_TS_TX_OFFSET - MARI_RX_GUARD_TIME
    rx_max := MARI_RX_GUARD_TIME + MARI_PACKET_TOA_WITH_PADDING
    end_guard := MARI_END_GUARD_TIME
    whole_slot := MARI_WHOLE_SLOT_DURATION }

/-- State of the MAC within a slot (`mr_mac_state_t`). -/
inductive mr_mac_state_t where
  | STATE_SLEEP
  | STATE_TX_OFFSET
  | STATE_TX_DATA
  | STATE_RX_OFFSET
  | STATE_RX_DATA_LISTEN
  | STATE_RX_DATA
  deriving DecidableEq, Repr

open mr_mac_state_t

/-- Last received frame (`mr_received_packet_t`). -/
structure mr_received_packet_t where
  channel : Nat
  rssi : Int
  start_ts : Nat
  end_ts : Nat
  asn : Nat
  to_me : Bool
  packet : List Nat
  packet_len : Nat
  deriving DecidableEq, Repr

/-- File-scope MAC state (`mac_vars_t`), without the callback pointer. -/
structure mac_vars_t where
  device_id : Nat
  state : mr_mac_state_t
  start_slot_ts : Nat
  asn : Nat
  current_slot_info : mr_slot_info_t
  received_packet : mr_received_packet_t
  is_scanning : Bool
  scan_started_ts : Nat
  scan_expected_end_ts : Nat
  current_scan_item_ts : Nat
  is_bg_scanning : Bool
  bg_scan_sleep_next_slot : Bool
  full_bg_scan_started_ts : Nat
  full_bg_scan_expected_end_ts : Nat
  synced_gateway : Nat
  synced_network_id : Nat
  synced_ts : Nat
  deriving DecidableEq, Repr

/-- Calls to the radio driver. -/
inductive mr_radio_call_t where
  | mr_radio_disable
  | mr_radio_set_channel (channel : Nat)
  | mr_radio_rx
  | mr_radio_tx_prepare (tx_buffer : List Nat) (length : Nat)
  deriving DecidableEq, Repr

/-- Everything the MAC functions below read and write: the MAC, association,
scheduler and scan states, the timer device `MARI_TIMER_DEV`, the calls made to the
radio driver (oldest first) and the events passed to the event callback (oldest
first). -/
structure mac_ctx_t where
  mac : mac_vars_t
  assoc : assoc_vars_t
  sched : schedule_vars_t
  scan : scan_vars_t
  timer : timer_hf_dev_t
  radio : List mr_radio_call_t
  events : List (mr_event_t × mr_event_data_t)
  deriving DecidableEq, Repr

def mr_mac_node_is_synced (mv : mac_vars_t) : Bool := mv.synced_gateway ≠ 0

def set_slot_state (c : mac_ctx_t) (state : mr_mac_state_t) : mac_ctx_t :=
  { c with mac := { c.mac with state := state } }

def disable_radio_and_intra_slot_timers (c : mac_ctx_t) : mac_ctx_t :=
  { c with
      radio := c.radio ++ [mr_radio_call_t.mr_radio_disable]
      timer :=
        mr_timer_hf_cancel
          (mr_timer_hf_cancel (mr_timer_hf_cancel c.timer MARI_TIMER_CHANNEL_1)
            MARI_TIMER_CHANNEL_2)
          MARI_TIMER_CHANNEL_3 }

def end_slot (node_type : mr_node_type_t) (c : mac_ctx_t) : mac_ctx_t :=
  if node_type = MARI_NODE ∧ ¬ mr_mac_node_is_synced c.mac then c
  else disable_radio_and_intra_slot_timers c

/-- A scan begins (`start_scan`).  The call is taken as instantaneous: each read of the
free-running counter in it returns `now`. -/
def start_scan (c : mac_ctx_t) (now : Nat) : mac_ctx_t :=
  let c1 : mac_ctx_t :=
    { c with
        mac :=
          { c.mac with
              scan_started_ts := now
              scan_expected_end_ts := (now + MARI_SCAN_MAX_DURATION) % 2 ^ 32
              is_scanning := true }
        assoc := mr_assoc_set_state c.assoc JOIN_STATE_SCANNING now }
  let c2 : mac_ctx_t :=
    { c1 with
        timer := mr_timer_hf_set_oneshot_with_ref_us c1.timer MARI_TIMER_INTER_SLOT_CHANNEL
          c1.mac.scan_started_ts MARI_SCAN_MAX_DURATION timer_hf_cb_t.end_scan now now }
  let c3 := set_slot_state c2 STATE_RX_DATA_LISTEN
  { c3 with
      radio := c3.radio ++
        [mr_radio_call_t.mr_radio_disable,
         mr_radio_call_t.mr_radio_set_channel MARI_FIXED_SCAN_CHANNEL,
         mr_radio_call_t.mr_radio_rx] }

/-- The drift `fix_drift` computes for a frame that started at `ts`: the difference to
the expected start `start_slot_ts + tx_offset + 59`, as an `int32_t`. -/
def clock_drift (mv : mac_vars_t) (ts : Nat) : Int :=
  let time_cpu_periph := 59
  let expected_ts := (mv.start_slot_ts + slot_durations.tx_offset + time_cpu_periph) % 2 ^ 32
  int32_wrap (u32_sub ts expected_ts : Nat)

/-- Correction of the slot reference after a frame of the synced gateway (`fix_drift`).
`node_type` is `mari_get_node_type()`; the call is taken as instantaneous: each read of
the free-running counter in it returns `now`. -/
def fix_drift (node_type : mr_node_type_t) (c : mac_ctx_t) (ts now : Nat) : mac_ctx_t :=
  let abs_clock_drift := uint32_wrap ((clock_drift c.mac ts).natAbs : Int)
  if abs_clock_drift < 100 then
    { c with
        timer := mr_timer_hf_adjust_periodic_us c.timer MARI_TIMER_INTER_SLOT_CHANNEL
          (clock_drift c.mac ts) }
  else
    let event_data : mr_event_data_t :=
      { node_id := c.mac.synced_gateway, tag := mr_event_tag_t.MARI_OUT_OF_SYNC }
    let c1 : mac_ctx_t :=
      { c with events := c.events ++ [(mr_event_t.MARI_DISCONNECTED, event_data)] }
    let c2 : mac_ctx_t := { c1 with assoc := mr_assoc_set_state c1.assoc JOIN_STATE_IDLE now }
    let c3 := set_slot_state c2 STATE_SLEEP
    let c4 := end_slot node_type c3
    start_scan c4 now

/-- Is the gateway found by the background scan worth a handover
(`select_gateway_for_handover`)?  Returns the flag and the contents of
`*selected_gateway` after the call. -/
def select_gateway_for_handover (c : mac_ctx_t) (now_ts : Nat) : Bool × mr_channel_info_t :=
  let r := mr_scan_select c.scan c.mac.scan_started_ts now_ts
  if ¬ r.1 then (false, r.2)
  else if r.2.beacon.src = c.mac.synced_gateway then (false, r.2)
  else if r.2.rssi < c.mac.received_packet.rssi + MARI_HANDOVER_RSSI_HYSTERESIS then (false, r.2)
  else if u32_sub now_ts c.mac.synced_ts < MARI_HANDOVER_MIN_INTERVAL then (false, r.2)
  else (true, r.2)

/-- Synchronisation to the selected gateway (`sync_to_gateway`).  `now` is the value of
the counter when the one-shot timer is armed. -/
def sync_to_gateway (c : mac_ctx_t) (now_ts : Nat) (selected_gateway : mr_channel_info_t)
    (handover_time_correction_us now : Nat) : Bool × mac_ctx_t :=
  let r := mr_scheduler_set_schedule c.sched selected_gateway.beacon.active_schedule_id
  if ¬ r.1 then
    (false, { c with sched := r.2 })
  else
    let time_since_beacon := u32_sub now_ts selected_gateway.timestamp
    let asn_count_since_beacon := time_since_beacon / slot_durations.whole_slot + 1
    let time_into_gateway_slot := time_since_beacon % slot_durations.whole_slot
    let skip : Nat × Nat :=
      if time_into_gateway_slot > slot_durations.whole_slot / 2 then
        (asn_count_since_beacon + 1, slot_durations.whole_slot)
      else (asn_count_since_beacon, 0)
    let time_cpu_and_toa := (541 + handover_time_correction_us) % 2 ^ 64
    let time_dispatch_new_schedule :=
      (u64_sub ((slot_durations.whole_slot - time_into_gateway_slot) + skip.2)
        time_cpu_and_toa) % 2 ^ 32
    (true,
     { c with
         sched := r.2
         mac :=
           { c.mac with
               synced_gateway := selected_gateway.beacon.src
               synced_network_id := selected_gateway.beacon.network_id % 2 ^ 16
               synced_ts := now_ts
               asn := (selected_gateway.beacon.asn + skip.1) % 2 ^ 64 }
         timer := mr_timer_hf_set_oneshot_us c.timer MARI_TIMER_CHANNEL_1
           time_dispatch_new_schedule timer_hf_cb_t.activity_scan_dispatch_new_schedule now })

/-- A data frame (`mr_build_packet_data`): the length returned and the buffer. -/
def mr_build_packet_data (buffer : List Nat) (dst : Nat) (data : List Nat) (data_len device_id
    network_id : Nat) : Nat × List Nat :=
  let r := _set_header buffer dst MARI_PACKET_DATA device_id network_id
  (r.1 + data_len, r.2.take r.1 ++ memcpy (r.2.drop r.1) data data_len)

/-- A timer device with six idle channels; the inter-slot channel fires next at 2780. -/
def example_timer : timer_hf_dev_t :=
  { cc := [2780, 0, 0, 0, 0, 0]
    inten := [true, false, false, false, false, false]
    events_compare := List.replicate 6 false
    timer_callback :=
      { period_us := 1780, one_shot := false, callback := some timer_hf_cb_t.new_slot_synced } ::
        List.replicate 5 { period_us := 0, one_shot := false, callback := none } }

/-- MAC state of node 7 in a slot that started at time 1000, synced to gateway 1 since
time 0, whose last frame was received at -70 dBm. -/
def example_mac : mac_vars_t :=
  { device_id := 7
    state := STATE_RX_DATA
    start_slot_ts := 1000
    asn := 10
    current_slot_info :=
      { radio_action := MARI_RADIO_ACTION_RX, channel := 10, type := SLOT_TYPE_DOWNLINK }
    received_packet :=
      { channel := 10, rssi := -70, start_ts := 1460, end_ts := 0, asn := 10, to_me := true,
        packet := [], packet_len := 0 }
    is_scanning := false
    scan_started_ts := 1
    scan_expected_end_ts := 0
    current_scan_item_ts := 0
    is_bg_scanning := false
    bg_scan_sleep_next_slot := false
    full_bg_scan_started_ts := 0
    full_bg_scan_expected_end_ts := 0
    synced_gateway := 1
    synced_network_id := 1
    synced_ts := 0 }

/-- The example node, Joined to gateway 1, with the scan table `example_scan_tie`. -/
def example_mac_ctx : mac_ctx_t :=
  { mac := example_mac
    assoc := example_assoc_joined
    sched := example_gateway
    scan := example_scan_tie
    timer := example_timer
    radio := []
    events := [] }

/-- Environment of gateway 1 at ASN 10. -/
def example_gateway_env : mari_env_t :=
  { node_type := MARI_GATEWAY
    device_id := 1
    asn := 10
    synced_gateway := 0
    synced_network_id := 0
    now_ts := 5000
    now_ts_state := 5001
    radio_rssi := -50 }

/-- Module states of gateway 1 on network 1, just booted on the example schedule. -/
def example_gateway_state : mari_state_t :=
  { assoc := { example_assoc with state := JOIN_STATE_JOINED }
    sched := example_gateway
    scan := example_scan_tie
    queue := example_queue
    bloom := example_bloom }

/-- The join request node 7 sends to gateway 1 on network 1. -/
def example_join_request_frame : List Nat :=
  (mr_build_packet_join_request [] 1 7 1).2

/-- The frame a gateway with id `device_id` on network `network_id` sends after
`mr_queue_set_join_response q node_id cell`: the contents of the caller's buffer `out`
after `mr_queue_get_join_packet`. -/
def join_response_frame (q : queue_vars_t) (node_id cell device_id network_id : Nat)
    (out : List Nat) : List Nat :=
  (mr_queue_get_join_packet
    (mr_queue_set_join_response q node_id cell device_id network_id) out).2.1

/-- Module states of the example node while it waits for a join response. -/
def example_node_state_joining : mari_state_t :=
  { example_node_state with
      assoc := { example_assoc_synced with state := JOIN_STATE_JOINING } }

/-- A keepalive frame from node 9 to gateway 3 on network 1. -/
def example_foreign_frame : List Nat :=
  (mr_build_packet_keepalive [] 3 9 1).2

/-- The example queue after `mr_queue_add(p, 0)` followed by `mr_queue_add([5], 1)`: the
ring holds two frames (`current = 0`, `last = 2`), the older one of length 0. -/
def example_queue_zero_head : queue_vars_t :=
  (queue_add_all example_queue [[], [5]]).getD example_queue

/-- The beacon frame gateway 1 sends at ASN 10 on network 1 when it has no free cell:
remaining capacity 0, schedule id 1, an empty filter. -/
def example_beacon_frame_full : List Nat :=
  (mr_build_packet_beacon [] 1 10 0 1 1 (List.replicate 128 0)).2

/-- The example node with the example schedule among its available schedules, as
`mr_scheduler_init` leaves it. -/
def example_sync_ctx : mac_ctx_t :=
  { example_mac_ctx with
      sched := { example_gateway with available_schedules := [example_schedule] } }

/-- A sample of a beacon of gateway 2 (network 1, ASN 40, schedule 1) received at
time 3000. -/
def example_selected : mr_channel_info_t :=
  { rssi := -50
    timestamp := 3000
    captured_asn := 0
    beacon :=
      { version := 2, type := 1, network_id := 1, asn := 40, src := 2,
        remaining_capacity := 1, active_schedule_id := 1 } }

/-! ## scheduler.c: usage statistics -/

def MARI_STATS_SCHED_USAGE_SIZE : Nat := 4

/-- File-scope usage statistics (`schedule_stats_t`): `MARI_STATS_SCHED_USAGE_SIZE`
words of 64 bits. -/
structure schedule_stats_t where
  sched_usage : List Nat
  deriving DecidableEq, Repr

/-- The word written by `mr_scheduler_stats_register_used_slot`: the bit at
`bit_position` is cleared (`word &= ~((uint64_t)1 << bit_position)`), then set to
`encoded_action` (`word |= (uint64_t)encoded_action << bit_position`). -/
def stats_register_word (word bit_position encoded_action : Nat) : Nat :=
  (word &&& (2 ^ 64 - 1 - (1 <<< bit_position) % 2 ^ 64)) |||
    ((encoded_action <<< bit_position) % 2 ^ 64)

/-- The slot of the current cell was used or not
(`mr_scheduler_stats_register_used_slot`).  `cell_index` is a `uint8_t` copy of the
scheduler's `current_cell_index`. -/
def mr_scheduler_stats_register_used_slot (st : schedule_vars_t) (stats : schedule_stats_t)
    (used : Bool) : schedule_stats_t :=
  let encoded_action : Nat := if used then 1 else 0
  let cell_index := st.current_cell_index % 256
  let array_index := cell_index / 64
  let bit_position := cell_index % 64
  if array_index < MARI_STATS_SCHED_USAGE_SIZE then
    { stats with
        sched_usage := stats.sched_usage.set array_index
          (stats_register_word (stats.sched_usage.getD array_index 0) bit_position
            encoded_action) }
  else stats

/-- Bit `j` of word `w` of the usage bitmap. -/
def usage_bit (stats : schedule_stats_t) (w j : Nat) : Bool :=
  (stats.sched_usage.getD w 0).testBit j

/-- Usage statistics with bits 0 and 5 of word 0 and bit 1 of word 1 set. -/
def example_stats : schedule_stats_t :=
  { sched_usage := [33, 2, 0, 0] }

/-! ## mac.c: the activities at the start of a slot -/

def MARI_ENABLE_BACKGROUND_SCAN : Nat := 1

def MARI_BG_SCAN_DURATION : Nat := MARI_WHOLE_SLOT_DURATION - MARI_END_GUARD_TIME * 2

/-- One-shot at a time after a past reference
(`mr_timer_hf_set_oneshot_with_ref_diff_us`): the period is `us - (now - base_us)` on
32 bits, where `now` is the value returned by `mr_timer_hf_now`; `captured` is the value
the later `TASKS_CAPTURE[channel]` puts in the compare register before the period is added
to it. -/
def mr_timer_hf_set_oneshot_with_ref_diff_us (tm : timer_hf_dev_t) (channel base_us us : Nat)
    (cb : timer_hf_cb_t) (now captured : Nat) : timer_hf_dev_t :=
  timer_hf_arm tm channel (u32_sub us (u32_sub now base_us)) true cb captured

/-- Duration of a slotframe (`mr_scheduler_get_duration_us`), a `uint32_t`. -/
def mr_scheduler_get_duration_us (st : schedule_vars_t) : Nat :=
  (MARI_WHOLE_SLOT_DURATION * st.active_schedule.n_cells) % 2 ^ 32

/-- The cell of a given ASN (`mr_scheduler_node_peek_slot`). -/
def mr_scheduler_node_peek_slot (st : schedule_vars_t) (asn : Nat) : cell_t :=
  st.cell (asn % st.active_schedule.n_cells)

/-- A slot without a frame to send is used for the background scan
(`start_or_continue_background_scan`).  `device_id` is `mr_device_id()`; `now` and
`captured` are the counter values read and captured when the one-shot is armed. -/
def start_or_continue_background_scan (c : mac_ctx_t) (device_id now captured : Nat) :
    mac_ctx_t :=
  let mv1 : mac_vars_t :=
    if ¬ c.mac.is_bg_scanning then
      { c.mac with
          scan_started_ts := c.mac.start_slot_ts
          scan_expected_end_ts := (c.mac.start_slot_ts + MARI_BG_SCAN_DURATION) % 2 ^ 32 }
    else c.mac
  let mv2 : mac_vars_t :=
    if mv1.full_bg_scan_started_ts = 0 then
      { mv1 with
          full_bg_scan_started_ts := mv1.start_slot_ts
          full_bg_scan_expected_end_ts :=
            (mv1.start_slot_ts + mr_scheduler_get_duration_us c.sched) % 2 ^ 32 }
    else mv1
  let next_slot := mr_scheduler_node_peek_slot c.sched mv2.asn
  let next_uplink_is_sleep_slot : Bool :=
    next_slot.type = SLOT_TYPE_UPLINK ∧ next_slot.assigned_node_id ≠ device_id
  let next_slot_is_shared_uplink : Bool := next_slot.type = SLOT_TYPE_SHARED_UPLINK
  let mv3 : mac_vars_t :=
    { mv2 with bg_scan_sleep_next_slot := next_uplink_is_sleep_slot || next_slot_is_shared_uplink }
  let c1 : mac_ctx_t :=
    { c with
        mac := mv3
        timer := mr_timer_hf_set_oneshot_with_ref_us c.timer MARI_TIMER_CHANNEL_1
          mv3.start_slot_ts MARI_BG_SCAN_DURATION timer_hf_cb_t.end_background_scan now
          captured }
  let c2 : mac_ctx_t :=
    if ¬ c1.mac.is_bg_scanning then
      let c3 := set_slot_state c1 STATE_RX_DATA_LISTEN
      { c3 with
          radio := c3.radio ++
            [mr_radio_call_t.mr_radio_disable,
             mr_radio_call_t.mr_radio_set_channel MARI_FIXED_SCAN_CHANNEL,
             mr_radio_call_t.mr_radio_rx] }
    else c1
  { c2 with mac := { c2.mac with is_bg_scanning := true } }

/-- Start of a transmit slot (`activity_ti1`).  `env` gives the device role and id and
the timer values read by the queue; the ASN, synced gateway and synced network id the
queue asks the MAC for are those of `c.mac`.  `packet` is the contents of the local
buffer before the call.  Each call that arms a one-shot reads the counter and, later,
captures it: `now1` and `captured1` are the two values in the first of these calls, `now2`
and `captured2` in the second.  Returns the MAC context, the queue and the usage
statistics after the call. -/
def activity_ti1 (env : mari_env_t) (c : mac_ctx_t) (q : queue_vars_t) (bv : bloom_vars_t)
    (stats : schedule_stats_t) (packet : List Nat) (now1 captured1 now2 captured2 : Nat) :
    mac_ctx_t × queue_vars_t × schedule_stats_t :=
  let c1 := set_slot_state c STATE_TX_OFFSET
  let r := mr_queue_next_packet
    { env with
        asn := c1.mac.asn
        synced_gateway := c1.mac.synced_gateway
        synced_network_id := c1.mac.synced_network_id }
    c1.sched bv q c1.assoc c1.mac.current_slot_info.type packet
  let packet_len := r.1
  let c2 : mac_ctx_t := { c1 with assoc := r.2.2.2 }
  if packet_len = 0 then
    let stats1 := mr_scheduler_stats_register_used_slot c2.sched stats false
    if MARI_ENABLE_BACKGROUND_SCAN ≠ 0 ∧ env.node_type = MARI_NODE ∧ mr_assoc_is_joined c2.assoc then
      (start_or_continue_background_scan c2 env.device_id now1 captured1, r.2.2.1, stats1)
    else
      (end_slot env.node_type (set_slot_state c2 STATE_SLEEP), r.2.2.1, stats1)
  else
    let stats1 := mr_scheduler_stats_register_used_slot c2.sched stats true
    let t1 := mr_timer_hf_set_oneshot_with_ref_diff_us c2.timer MARI_TIMER_CHANNEL_1
      c2.mac.start_slot_ts slot_durations.tx_offset timer_hf_cb_t.activity_ti2 now1 captured1
    let t2 := mr_timer_hf_set_oneshot_with_ref_diff_us t1 MARI_TIMER_CHANNEL_2
      c2.mac.start_slot_ts (slot_durations.tx_offset + slot_durations.tx_max)
      timer_hf_cb_t.activity_tie1 now2 captured2
    ({ c2 with
         timer := t2
         radio := c2.radio ++
           [mr_radio_call_t.mr_radio_disable,
            mr_radio_call_t.mr_radio_set_channel c2.mac.current_slot_info.channel,
            mr_radio_call_t.mr_radio_tx_prepare r.2.1 packet_len] },
     r.2.2.1, stats1)

/-- Start of a receive slot (`activity_ri1`).  Each of the three calls that arm a
one-shot reads the counter and, later, captures it: `now1` and `captured1` are the two
values in the first call, and so on. -/
def activity_ri1 (c : mac_ctx_t) (now1 captured1 now2 captured2 now3 captured3 : Nat) :
    mac_ctx_t :=
  let c1 := set_slot_state c STATE_RX_OFFSET
  let t1 := mr_timer_hf_set_oneshot_with_ref_diff_us c1.timer MARI_TIMER_CHANNEL_1
    c1.mac.start_slot_ts slot_durations.rx_offset timer_hf_cb_t.activity_ri2 now1 captured1
  let t2 := mr_timer_hf_set_oneshot_with_ref_diff_us t1 MARI_TIMER_CHANNEL_2
    c1.mac.start_slot_ts (slot_durations.tx_offset + slot_durations.rx_guard)
    timer_hf_cb_t.activity_rie1 now2 captured2
  let t3 := mr_timer_hf_set_oneshot_with_ref_diff_us t2 MARI_TIMER_CHANNEL_3
    c1.mac.start_slot_ts (slot_durations.rx_offset + slot_durations.rx_max)
    timer_hf_cb_t.activity_rie2 now3 captured3
  { c1 with timer := t3 }

/-- The compare register of a timer channel. -/
def timer_hf_dev_t.compare (tm : timer_hf_dev_t) (channel : Nat) : Nat :=
  tm.cc.getD channel 0

/-- The callback registered on a timer channel. -/
def timer_hf_dev_t.cb (tm : timer_hf_dev_t) (channel : Nat) : Option timer_hf_cb_t :=
  (tm.timer_callback.getD channel { period_us := 0, one_shot := false, callback := none }).callback

/-- The period registered on a timer channel: the time from the capture of the counter
to the compare event. -/
def timer_hf_dev_t.period (tm : timer_hf_dev_t) (channel : Nat) : Nat :=
  (tm.timer_callback.getD channel { period_us := 0, one_shot := false, callback := none }).period_us

/-- The example node at the start of its Uplink slot. -/
def example_uplink_slot_ctx : mac_ctx_t :=
  { example_mac_ctx with
      mac :=
        { example_mac with
            current_slot_info :=
              { radio_action := MARI_RADIO_ACTION_TX, channel := 10, type := SLOT_TYPE_UPLINK } } }

/-! ## bloom.c: the dirty flag -/

def mr_bloom_gateway_set_clean (bv : bloom_vars_t) : bloom_vars_t :=
  { bv with is_dirty := false }

def mr_bloom_gateway_is_dirty (bv : bloom_vars_t) : Bool := bv.is_dirty

/-- The filter is rebuilt when something changed (`mr_bloom_gateway_event_loop`). -/
def mr_bloom_gateway_event_loop (bv : bloom_vars_t) (st : schedule_vars_t) : bloom_vars_t :=
  if mr_bloom_gateway_is_dirty bv then
    mr_bloom_gateway_set_clean (mr_bloom_gateway_compute bv st)
  else bv

/-- Bit index `j` is one of the two positions `(h1 + k * h2) mod 1024`, `k = 0, 1`, of
the cached hashes of an Uplink cell with a non-zero node id. -/
def bloom_position_of (cells : List cell_t) (j : Nat) : Prop :=
  ∃ c ∈ cells, c.type = SLOT_TYPE_UPLINK ∧ c.assigned_node_id ≠ 0 ∧
    ∃ k, k < 2 ∧ j = (c.bloom_h1 + k * c.bloom_h2) % 1024

/-- Number of Uplink cells with a non-zero `assigned_node_id`. -/
def assigned_uplink_count (cells : List cell_t) : Nat :=
  cells.countP (fun c => c.type = SLOT_TYPE_UPLINK ∧ c.assigned_node_id ≠ 0)

/-- Number of Uplink cells with `assigned_node_id` zero. -/
def free_uplink_count (cells : List cell_t) : Nat :=
  cells.countP (fun c => c.type = SLOT_TYPE_UPLINK ∧ c.assigned_node_id = 0)

/-- Number of Uplink cells. -/
def uplink_count (cells : List cell_t) : Nat :=
  cells.countP (fun c => c.type = SLOT_TYPE_UPLINK)

/-- A join request carries a non-zero node id; a sweep has no condition. -/
def gateway_op.node_id_nonzero : gateway_op → Prop
  | .assign node_id _ => node_id ≠ 0
  | .sweep _ => True

instance (op : gateway_op) : Decidable op.node_id_nonzero :=
  match op with
  | .assign node_id _ => inferInstanceAs (Decidable (node_id ≠ 0))
  | .sweep _ => inferInstanceAs (Decidable True)

/-- The time after the start of the slot at which a one-shot fires whose compare register
was captured at counter value `captured` and then advanced by `period`, the compare event
coming `period` microseconds after the capture: the time from the start of the slot to the
capture (on 32 bits), plus the period. -/
def expiry_offset (start_slot_ts captured period : Nat) : Nat :=
  u32_sub captured start_slot_ts + period

/-- What `mr_timer_hf_set_oneshot_with_ref_diff_us (channel, start_slot_ts, offset, cb)`
leaves on a channel when it read the counter at `now` and captured it at `captured`.  The
callback is `cb` and the compare register is `start_slot_ts + offset` plus the advance of
the counter between the read and the capture.  When the read is earlier than the
offset, the period is the rest of the offset; when moreover the advance is below
`MARI_END_GUARD_TIME`, the one-shot fires at the offset plus the advance after the start
of the slot, which is before the end of the slot. -/
def armed_within_slot (tm : timer_hf_dev_t) (channel : Nat) (cb : timer_hf_cb_t)
    (start_slot_ts offset now captured : Nat) : Prop :=
  tm.cb channel = some cb ∧
  tm.compare channel = (start_slot_ts + offset + u32_sub captured now) % 2 ^ 32 ∧
  (u32_sub now start_slot_ts < offset →
    tm.period channel = offset - u32_sub now start_slot_ts ∧
    (u32_sub captured now < MARI_END_GUARD_TIME →
      expiry_offset start_slot_ts captured (tm.period channel) =
          offset + u32_sub captured now ∧
        expiry_offset start_slot_ts captured (tm.period channel) <
          slot_durations.whole_slot))

/-! ## mac.c: the end of a received frame -/

/-- End of a frame received in a slot (`activity_ri4`).  `pending_rx_read`, `pdu_payload`
and `pdu_length` are the state of the radio driver read by `mr_radio_pending_rx_read` and
`mr_radio_get_rx_packet`; `env.radio_rssi` is the value of `mr_radio_rssi()`; `ts` is the
time of the end of the frame and `now` the counter value read if `fix_drift` starts a
scan.  The ASN, synced gateway and synced network id `mr_handle_packet` asks the MAC for
are those of the MAC state.  Returns the MAC context, the queue and bloom states and the
events raised by `mr_handle_packet`. -/
def activity_ri4 (env : mari_env_t) (c : mac_ctx_t) (q : queue_vars_t) (bv : bloom_vars_t)
    (pending_rx_read : Bool) (pdu_payload : List Nat) (pdu_length : Nat) (ts now : Nat) :
    mac_ctx_t × queue_vars_t × bloom_vars_t × List (mr_event_t × mr_event_data_t) :=
  let c1 := set_slot_state c STATE_SLEEP
  let c2 : mac_ctx_t := { c1 with timer := mr_timer_hf_cancel c1.timer MARI_TIMER_CHANNEL_3 }
  if ¬ pending_rx_read then
    (end_slot env.node_type c2, q, bv, [])
  else
    let c3 : mac_ctx_t :=
      { c2 with
          mac :=
            { c2.mac with
                received_packet :=
                  { c2.mac.received_packet with
                      packet := memcpy c2.mac.received_packet.packet pdu_payload pdu_length
                      packet_len := pdu_length } } }
    let header := mr_packet_header_t.of_bytes c3.mac.received_packet.packet
    if header.version ≠ MARI_PROTOCOL_VERSION then
      (end_slot env.node_type c3, q, bv, [])
    else
      let c4 : mac_ctx_t :=
        if env.node_type = MARI_NODE ∧ mr_assoc_is_joined c3.assoc ∧
            header.src = c3.mac.synced_gateway then
          fix_drift env.node_type c3 c3.mac.received_packet.start_ts now
        else c3
      let c5 : mac_ctx_t :=
        { c4 with
            mac :=
              { c4.mac with
                  received_packet :=
                    { c4.mac.received_packet with
                        channel := c4.mac.current_slot_info.channel
                        rssi := env.radio_rssi
                        end_ts := ts
                        asn := c4.mac.asn
                        packet := c4.mac.received_packet.packet.set (1 + sizeof_enum + 2 + 8 + 8)
                          (uint8_wrap env.radio_rssi) } } }
      let r := mr_handle_packet
        { env with
            asn := c5.mac.asn
            synced_gateway := c5.mac.synced_gateway
            synced_network_id := c5.mac.synced_network_id }
        { assoc := c5.assoc, sched := c5.sched, scan := c5.scan, queue := q, bloom := bv }
        c5.mac.received_packet.packet c5.mac.received_packet.packet_len
      let c6 : mac_ctx_t :=
        { c5 with assoc := r.2.1.assoc, sched := r.2.1.sched, scan := r.2.1.scan }
      (end_slot env.node_type c6, r.2.1.queue, r.2.1.bloom, r.2.2)

/-- A scan table with five empty entries. -/
def example_scan_empty : scan_vars_t :=
  { scans := List.replicate 5 example_empty_entry }

/-- The example node, Synced to gateway 1 and not yet Joined, listening in a Beacon slot
with an empty scan table and a zeroed 255-byte receive buffer. -/
def example_beacon_slot_ctx : mac_ctx_t :=
  { example_mac_ctx with
      assoc := example_assoc_synced
      scan := example_scan_empty
      mac :=
        { example_mac with
            current_slot_info :=
              { radio_action := MARI_RADIO_ACTION_RX, channel := 37, type := SLOT_TYPE_BEACON }
            received_packet :=
              { example_mac.received_packet with packet := List.replicate 255 0 } } }

/-- The example queue after `mr_queue_add([5], 1)`: the ring holds the one frame `[5]`
(`current = 0`, `last = 1`). -/
def example_queue_one : queue_vars_t :=
  (queue_add_all example_queue [[5]]).getD example_queue

/-! ## Theorems: uplink cell assignment -/

theorem assign_loop_first_free (node_id asn : Nat) (cells : List cell_t) :
    ∀ (i cnt : Nat),
      (∀ c ∈ cells, c.type = SLOT_TYPE_UPLINK → c.assigned_node_id ≠ node_id) →
      (∃ c ∈ cells, c.type = SLOT_TYPE_UPLINK ∧ c.assigned_node_id = 0) →
      ∃ (k : Nat) (c : cell_t),
        cells[k]? = some c ∧ c.type = SLOT_TYPE_UPLINK ∧ c.assigned_node_id = 0 ∧
        (∀ j, j < k → ∀ cj, cells[j]? = some cj →
          ¬ (cj.type = SLOT_TYPE_UPLINK ∧ cj.assigned_node_id = 0)) ∧
        assign_loop node_id asn i cnt cells =
          (((i + k : Nat) : Int), cells.set k (assigned_cell c node_id asn), (cnt + 1) % 256) := by
  induction cells with
  | nil =>
    intro i cnt _ hfree
    obtain ⟨c, hc, _⟩ := hfree
    cases hc
  | cons a rest ih =>
    intro i cnt hnew hfree
    by_cases ha : a.type = SLOT_TYPE_UPLINK ∧ a.assigned_node_id = 0
    · refine ⟨0, a, by simp, ha.1, ha.2, ?_, ?_⟩
      · intro j hj
        omega
      · simp [assign_loop, ha, assigned_cell]
    · have hne : ¬ (a.type = SLOT_TYPE_UPLINK ∧ a.assigned_node_id = node_id) :=
        fun h => hnew a (List.mem_cons_self a rest) h.1 h.2
      have hfree' : ∃ c ∈ rest, c.type = SLOT_TYPE_UPLINK ∧ c.assigned_node_id = 0 := by
        obtain ⟨c, hc, hc'⟩ := hfree
        rcases List.mem_cons.mp hc with rfl | hmem
        · exact absurd hc' ha
        · exact ⟨c, hmem, hc'⟩
      obtain ⟨k, c, hk, hty, hz, hmin, hrun⟩ :=
        ih (i + 1) cnt (fun c hc => hnew c (List.mem_cons_of_mem a hc)) hfree'
      refine ⟨k + 1, c, by simpa using hk, hty, hz, ?_, ?_⟩
      · intro j hj cj hcj
        cases j with
        | zero =>
          simp at hcj
          subst hcj
          exact ha
        | succ j =>
          simp at hcj
          exact hmin j (by omega) cj hcj
      · rw [assign_loop, if_neg ha, if_neg hne, hrun]
        simp
        omega

theorem assign_loop_none_free (node_id asn : Nat) (cells : List cell_t) :
    ∀ (i cnt : Nat),
      (∀ c ∈ cells, c.type = SLOT_TYPE_UPLINK →
        c.assigned_node_id ≠ 0 ∧ c.assigned_node_id ≠ node_id) →
      assign_loop node_id asn i cnt cells = (-1, cells, cnt) := by
  induction cells with
  | nil =>
    intro i cnt _
    rfl
  | cons a rest ih =>
    intro i cnt h
    have h1 : ¬ (a.type = SLOT_TYPE_UPLINK ∧ a.assigned_node_id = 0) :=
      fun hh => (h a (List.mem_cons_self a rest) hh.1).1 hh.2
    have h2 : ¬ (a.type = SLOT_TYPE_UPLINK ∧ a.assigned_node_id = node_id) :=
      fun hh => (h a (List.mem_cons_self a rest) hh.1).2 hh.2
    rw [assign_loop, if_neg h1, if_neg h2,
      ih (i + 1) cnt (fun c hc => h c (List.mem_cons_of_mem a hc))]

/-- C1: for a non-zero `node_id` that no cell carries, when some Uplink cell is free,
the gateway assignment returns the smallest index of a free Uplink cell, writes
`node_id`, `asn` and the two hashes of `node_id` into that cell, increments the
(8-bit) assigned-nodes counter by one and leaves every other cell, and the rest of
the scheduler state, unchanged. -/
theorem C1_assign_takes_first_free_uplink_cell
    (st : schedule_vars_t) (node_id asn : Nat)
    (hid : node_id ≠ 0)
    (hnew : ∀ c ∈ st.active_schedule.cells, c.assigned_node_id ≠ node_id)
    (hfree : ∃ c ∈ st.active_schedule.cells,
      c.type = SLOT_TYPE_UPLINK ∧ c.assigned_node_id = 0) :
    ∃ (i : Nat) (c : cell_t),
      st.active_schedule.cells[i]? = some c ∧
      c.type = SLOT_TYPE_UPLINK ∧ c.assigned_node_id = 0 ∧
      (∀ j, j < i → ∀ cj, st.active_schedule.cells[j]? = some cj →
        ¬ (cj.type = SLOT_TYPE_UPLINK ∧ cj.assigned_node_id = 0)) ∧
      (mr_scheduler_gateway_assign_next_available_uplink_cell st node_id asn).1 = (i : Int) ∧
      (mr_scheduler_gateway_assign_next_available_uplink_cell st node_id asn).2 =
        { st with
            active_schedule :=
              { st.active_schedule with
                  cells := st.active_schedule.cells.set i
                    { type := c.type
                      channel_offset := c.channel_offset
                      assigned_node_id := node_id
                      last_received_asn := asn
                      bloom_h1 := mr_bloom_hash_fnv1a64 node_id
                      bloom_h2 := mr_bloom_hash_fnv1a64 (node_id ^^^ 0x5bd1e995) } }
            num_assigned_uplink_nodes := (st.num_assigned_uplink_nodes + 1) % 256 } ∧
      (st.num_assigned_uplink_nodes < 255 →
        (mr_scheduler_gateway_assign_next_available_uplink_cell st node_id asn).2.num_assigned_uplink_nodes
          = st.num_assigned_uplink_nodes + 1) ∧
      (∀ j, j ≠ i →
        (mr_scheduler_gateway_assign_next_available_uplink_cell st node_id asn).2.active_schedule.cells[j]?
          = st.active_schedule.cells[j]?) := by
  have _ := hid
  obtain ⟨k, c, hk, hty, hz, hmin, hrun⟩ :=
    assign_loop_first_free node_id asn st.active_schedule.cells 0
      st.num_assigned_uplink_nodes (fun c hc _ => hnew c hc) hfree
  refine ⟨k, c, hk, hty, hz, hmin, ?_, ?_, ?_, ?_⟩
  · simp [mr_scheduler_gateway_assign_next_available_uplink_cell, hrun]
  · simp [mr_scheduler_gateway_assign_next_available_uplink_cell, hrun, assigned_cell,
      MARI_BLOOM_FNV1A_H2_SALT]
  · intro hlt
    simp [mr_scheduler_gateway_assign_next_available_uplink_cell, hrun]
    omega
  · intro j hj
    simp [mr_scheduler_gateway_assign_next_available_uplink_cell, hrun, List.getElem?_set,
      Ne.symm hj]

/-- C4: when every Uplink cell carries a non-zero node id different from `node_id`
(in particular when the schedule has no Uplink cell), the gateway assignment returns
-1 and changes neither a cell nor the assigned-nodes counter. -/
theorem C4_assign_full_returns_minus_one
    (st : schedule_vars_t) (node_id asn : Nat)
    (hfull : ∀ c ∈ st.active_schedule.cells, c.type = SLOT_TYPE_UPLINK →
      c.assigned_node_id ≠ 0 ∧ c.assigned_node_id ≠ node_id) :
    mr_scheduler_gateway_assign_next_available_uplink_cell st node_id asn = (-1, st) := by
  simp [mr_scheduler_gateway_assign_next_available_uplink_cell,
    assign_loop_none_free node_id asn st.active_schedule.cells 0
      st.num_assigned_uplink_nodes hfull]

/-- Witness for C1: on the freshly booted example gateway node 3 gets a cell and the
counter goes from 0 to 1. -/
theorem C1_assign_takes_first_free_uplink_cell_witness :
    (mr_scheduler_gateway_assign_next_available_uplink_cell example_gateway 3 0).2.num_assigned_uplink_nodes
      = example_gateway.num_assigned_uplink_nodes + 1 := by
  obtain ⟨_, _, _, _, _, _, _, _, hcnt, _⟩ :=
    C1_assign_takes_first_free_uplink_cell example_gateway 3 0 (by decide) (by decide) (by decide)
  exact hcnt (by decide)

/-- Witness for C4: with both Uplink cells held by nodes 3 and 7, node 9 is refused. -/
theorem C4_assign_full_returns_minus_one_witness :
    mr_scheduler_gateway_assign_next_available_uplink_cell example_gateway_full 9 200
      = (-1, example_gateway_full) :=
  C4_assign_full_returns_minus_one example_gateway_full 9 200 (by decide)

/-- C2 (the code at the failing input): node 7 holds Uplink cell 6 and Uplink cell 5
is free; a second join request of node 7 returns 5, gives node 7 cell 5 as well and
raises the counter from 1 to 2, where the claim asks for 6, no second cell and an
unchanged counter. -/
theorem C2_rejoin_behind_free_cell_takes_second_cell :
    example_gateway_after_sweep.active_schedule.cells.map (fun c => c.assigned_node_id)
      = [0, 0, 0, 0, 0, 0, 7] ∧
    example_gateway_after_sweep.num_assigned_uplink_nodes = 1 ∧
    (mr_scheduler_gateway_assign_next_available_uplink_cell example_gateway_after_sweep 7 101).1 = 5 ∧
    (mr_scheduler_gateway_assign_next_available_uplink_cell
      example_gateway_after_sweep 7 101).2.active_schedule.cells.map (fun c => c.assigned_node_id)
      = [0, 0, 0, 0, 0, 7, 7] ∧
    (mr_scheduler_gateway_assign_next_available_uplink_cell
      example_gateway_after_sweep 7 101).2.num_assigned_uplink_nodes = 2 := by
  decide

/-- C3 (the code at the failing input): from a schedule with no assigned cell, the
joins of nodes 3 and 7, a sweep that evicts node 3 and a second join request of
node 7 leave node 7 in two cells (5 and 6). -/
theorem C3_node_id_in_two_cells_after_rejoin :
    example_gateway.active_schedule.cells.map (fun c => c.assigned_node_id)
      = [0, 0, 0, 0, 0, 0, 0] ∧
    (gateway_run example_gateway
      [.assign 3 0, .assign 7 100, .sweep 100, .assign 7 101]).active_schedule.cells.map
        (fun c => (c.type, c.assigned_node_id))
      = [(SLOT_TYPE_BEACON, 0), (SLOT_TYPE_BEACON, 0), (SLOT_TYPE_BEACON, 0),
         (SLOT_TYPE_SHARED_UPLINK, 0), (SLOT_TYPE_DOWNLINK, 0),
         (SLOT_TYPE_UPLINK, 7), (SLOT_TYPE_UPLINK, 7)] := by
  decide

/-! ## Theorems: bloom filter -/

theorem getD_set_eq {α : Type} (l : List α) (i j : Nat) (a d : α) :
    (l.set i a).getD j d = if i = j ∧ i < l.length then a else l.getD j d := by
  simp only [List.getD_eq_getElem?_getD, List.getElem?_set]
  by_cases hij : i = j
  · subst hij
    by_cases hlen : i < l.length
    · simp [hlen]
    · have hnone : l[i]? = none := List.getElem?_eq_none (by omega)
      simp [hlen, hnone]
  · simp [hij]

theorem bloom_idx_lt (h1 h2 k : Nat) : bloom_idx h1 h2 k < 1024 := by
  unfold bloom_idx MARI_BLOOM_M_BITS
  exact Nat.lt_succ_of_le Nat.and_le_right

theorem bloom_set_bit_length (bloom : List Nat) (idx : Nat) :
    (bloom_set_bit bloom idx).length = bloom.length := by
  simp [bloom_set_bit]

theorem bloom_set_bit_self (bloom : List Nat) (idx : Nat) (h : idx / 8 < bloom.length) :
    bloom_bit (bloom_set_bit bloom idx) idx = true := by
  unfold bloom_bit bloom_set_bit
  rw [getD_set_eq, if_pos ⟨rfl, h⟩, Nat.testBit_lor, Nat.one_shiftLeft, Nat.testBit_two_pow_self]
  simp

theorem bloom_set_bit_mono (bloom : List Nat) (idx j : Nat)
    (hj : bloom_bit bloom j = true) : bloom_bit (bloom_set_bit bloom idx) j = true := by
  unfold bloom_bit bloom_set_bit at *
  rw [getD_set_eq]
  split
  · rename_i h
    rw [Nat.testBit_lor, h.1, hj]
    rfl
  · exact hj

theorem bloom_set_hashes_length (bloom : List Nat) (h1 h2 : Nat) :
    (bloom_set_hashes bloom h1 h2).length = bloom.length := by
  simp [bloom_set_hashes, MARI_BLOOM_K_HASHES, List.range_succ, bloom_set_bit_length]

theorem bloom_set_hashes_mono (bloom : List Nat) (h1 h2 j : Nat)
    (hj : bloom_bit bloom j = true) : bloom_bit (bloom_set_hashes bloom h1 h2) j = true := by
  simp only [bloom_set_hashes, MARI_BLOOM_K_HASHES, List.range_succ, List.range_zero,
    List.nil_append, List.cons_append, List.foldl_cons, List.foldl_nil]
  exact bloom_set_bit_mono _ _ _ (bloom_set_bit_mono _ _ _ hj)

theorem bloom_set_hashes_sets (bloom : List Nat) (h1 h2 k : Nat)
    (hlen : bloom.length = 128) (hk : k < 2) :
    bloom_bit (bloom_set_hashes bloom h1 h2) (bloom_idx h1 h2 k) = true := by
  simp only [bloom_set_hashes, MARI_BLOOM_K_HASHES, List.range_succ, List.range_zero,
    List.nil_append, List.cons_append, List.foldl_cons, List.foldl_nil]
  have hlt0 := bloom_idx_lt h1 h2 0
  have hlt1 := bloom_idx_lt h1 h2 1
  have hk' : k = 0 ∨ k = 1 := by omega
  rcases hk' with rfl | rfl
  · apply bloom_set_bit_mono
    apply bloom_set_bit_self
    omega
  · apply bloom_set_bit_self
    rw [bloom_set_bit_length]
    omega

theorem bloom_compute_loop_length (cells : List cell_t) :
    ∀ bloom : List Nat, (bloom_compute_loop cells bloom).length = bloom.length := by
  induction cells with
  | nil => intro bloom; rfl
  | cons a rest ih =>
    intro bloom
    unfold bloom_compute_loop
    split
    · exact ih bloom
    · split
      · exact ih bloom
      · rw [ih, bloom_set_hashes_length]

theorem bloom_compute_loop_mono (cells : List cell_t) :
    ∀ (bloom : List Nat) (j : Nat), bloom_bit bloom j = true →
      bloom_bit (bloom_compute_loop cells bloom) j = true := by
  induction cells with
  | nil => intro bloom j hj; exact hj
  | cons a rest ih =>
    intro bloom j hj
    unfold bloom_compute_loop
    split
    · exact ih bloom j hj
    · split
      · exact ih bloom j hj
      · exact ih _ j (bloom_set_hashes_mono bloom _ _ j hj)

theorem bloom_compute_loop_sets (cells : List cell_t) :
    ∀ (bloom : List Nat), bloom.length = 128 →
      ∀ c ∈ cells, c.type = SLOT_TYPE_UPLINK → c.assigned_node_id ≠ 0 →
        ∀ k, k < 2 →
          bloom_bit (bloom_compute_loop cells bloom) (bloom_idx c.bloom_h1 c.bloom_h2 k) = true := by
  induction cells with
  | nil => intro bloom _ c hc; cases hc
  | cons a rest ih =>
    intro bloom hlen c hc hty hid k hk
    rcases List.mem_cons.mp hc with rfl | hmem
    · rw [bloom_compute_loop, if_neg (by simp [hty]), if_neg hid]
      exact bloom_compute_loop_mono rest _ _ (bloom_set_hashes_sets bloom _ _ k hlen hk)
    · unfold bloom_compute_loop
      split
      · exact ih bloom hlen c hmem hty hid k hk
      · split
        · exact ih bloom hlen c hmem hty hid k hk
        · exact ih _ (by rw [bloom_set_hashes_length]; exact hlen) c hmem hty hid k hk

theorem mr_bloom_node_contains_of_bits (node_id : Nat) (bloom : List Nat)
    (h : ∀ k, k < 2 →
      bloom_bit bloom (bloom_idx (mr_bloom_hash_fnv1a64 node_id)
        (mr_bloom_hash_fnv1a64 (node_id ^^^ MARI_BLOOM_FNV1A_H2_SALT)) k) = true) :
    mr_bloom_node_contains node_id bloom = true := by
  unfold mr_bloom_node_contains
  simp only [MARI_BLOOM_K_HASHES, List.all_eq_true, List.mem_range]
  intro k hk
  have hb := h k hk
  unfold bloom_bit at hb
  simp only [Nat.one_shiftLeft, Nat.and_two_pow, hb]
  simp

theorem hashes_cached_cons (a : cell_t) (rest : List cell_t) :
    hashes_cached (a :: rest) ↔
      (a.type = SLOT_TYPE_UPLINK → a.assigned_node_id ≠ 0 →
        a.bloom_h1 = mr_bloom_hash_fnv1a64 a.assigned_node_id ∧
        a.bloom_h2 = mr_bloom_hash_fnv1a64 (a.assigned_node_id ^^^ MARI_BLOOM_FNV1A_H2_SALT)) ∧
      hashes_cached rest := by
  simp [hashes_cached]

theorem assign_loop_hashes_cached (node_id asn : Nat) (cells : List cell_t) :
    ∀ (i cnt : Nat), hashes_cached cells →
      hashes_cached (assign_loop node_id asn i cnt cells).2.1 := by
  induction cells with
  | nil => intro i cnt h; exact h
  | cons a rest ih =>
    intro i cnt h
    rw [hashes_cached_cons] at h
    unfold assign_loop
    split
    · rw [hashes_cached_cons]
      exact ⟨fun _ _ => ⟨rfl, rfl⟩, h.2⟩
    · split
      · rw [hashes_cached_cons]
        exact ⟨h.1, h.2⟩
      · rw [hashes_cached_cons]
        exact ⟨h.1, ih (i + 1) cnt h.2⟩

theorem clear_old_loop_hashes_cached (asn max_asn_old : Nat) (cells : List cell_t) :
    ∀ (cnt : Nat), hashes_cached cells →
      hashes_cached (clear_old_loop asn max_asn_old cnt cells).1 := by
  induction cells with
  | nil => intro cnt h; exact h
  | cons a rest ih =>
    intro cnt h
    rw [hashes_cached_cons] at h
    unfold clear_old_loop
    split
    · rw [hashes_cached_cons]
      exact ⟨h.1, ih cnt h.2⟩
    · split
      · rw [hashes_cached_cons]
        exact ⟨fun _ hne => absurd rfl hne, ih _ h.2⟩
      · rw [hashes_cached_cons]
        exact ⟨h.1, ih cnt h.2⟩

theorem gateway_step_hashes_cached (st : schedule_vars_t) (op : gateway_op)
    (h : hashes_cached st.active_schedule.cells) :
    hashes_cached (gateway_step st op).active_schedule.cells := by
  cases op with
  | assign node_id asn =>
    exact assign_loop_hashes_cached node_id asn _ 0 _ h
  | sweep asn =>
    exact clear_old_loop_hashes_cached asn _ _ _ h

theorem gateway_run_hashes_cached (ops : List gateway_op) :
    ∀ (st : schedule_vars_t), hashes_cached st.active_schedule.cells →
      hashes_cached (gateway_run st ops).active_schedule.cells := by
  induction ops with
  | nil => intro st h; exact h
  | cons op rest ih =>
    intro st h
    exact ih (gateway_step st op) (gateway_step_hashes_cached st op h)

/-- C5: the bloom filter has no false negatives.  Starting from a schedule with no
assigned cell, after any sequence of gateway assignments and timeout sweeps, the
filter rebuilt by `mr_bloom_gateway_compute` has 128 bytes and
`mr_bloom_node_contains` accepts the node id of every assigned Uplink cell. -/
theorem C5_bloom_no_false_negative
    (st : schedule_vars_t) (ops : List gateway_op) (bv : bloom_vars_t)
    (hinit : ∀ c ∈ st.active_schedule.cells, c.assigned_node_id = 0) :
    (mr_bloom_gateway_compute bv (gateway_run st ops)).bloom.length = 128 ∧
    ∀ c ∈ (gateway_run st ops).active_schedule.cells,
      c.type = SLOT_TYPE_UPLINK → c.assigned_node_id ≠ 0 →
        mr_bloom_node_contains c.assigned_node_id
          (mr_bloom_gateway_compute bv (gateway_run st ops)).bloom = true := by
  have hinv : hashes_cached (gateway_run st ops).active_schedule.cells :=
    gateway_run_hashes_cached ops st (fun c hc _ hne => absurd (hinit c hc) hne)
  have hlen : (List.replicate MARI_BLOOM_M_BYTES 0).length = 128 := by
    simp [MARI_BLOOM_M_BYTES, MARI_BLOOM_M_BITS]
  refine ⟨?_, ?_⟩
  · simp only [mr_bloom_gateway_compute]
    rw [bloom_compute_loop_length, hlen]
  · intro c hc hty hid
    apply mr_bloom_node_contains_of_bits
    intro k hk
    obtain ⟨e1, e2⟩ := hinv c hc hty hid
    have hset := bloom_compute_loop_sets (gateway_run st ops).active_schedule.cells
      (List.replicate MARI_BLOOM_M_BYTES 0) hlen c hc hty hid k hk
    rw [e1, e2] at hset
    exact hset

/-- Witness for C5: after nodes 3 and 7 joined the example gateway, the rebuilt filter
contains node 7. -/
theorem C5_bloom_no_false_negative_witness :
    mr_bloom_node_contains 7
      (mr_bloom_gateway_compute { is_dirty := true, is_available := false, bloom := [] }
        (gateway_run example_gateway [.assign 3 0, .assign 7 100])).bloom = true :=
  (C5_bloom_no_false_negative example_gateway [.assign 3 0, .assign 7 100]
    { is_dirty := true, is_available := false, bloom := [] } (by decide)).2
    (assigned_cell (free_cell SLOT_TYPE_UPLINK) 7 100) (by decide) (by decide) (by decide)

/-! ## Theorems: transmit queue -/

theorem memcpy_take (dst src : List Nat) (n : Nat) (h : n ≤ src.length) :
    (memcpy dst src n).take n = src.take n := by
  unfold memcpy
  rw [List.take_append_of_le_length (by simp; omega)]
  simp

theorem queue_add_all_spec (frames : List (List Nat)) :
    ∀ (q : queue_vars_t), q.queue_locked = false →
      q.packet_queue.packets.length = 32 →
      q.packet_queue.last + frames.length ≤ 31 →
      ∃ q1, queue_add_all q frames = some q1 ∧
        q1.queue_locked = false ∧
        q1.packet_queue.current = q.packet_queue.current ∧
        q1.packet_queue.last = q.packet_queue.last + frames.length ∧
        q1.packet_queue.packets.length = 32 ∧
        q1.join_packet = q.join_packet ∧
        (∀ j, j < q.packet_queue.last → q1.slot j = q.slot j) ∧
        (∀ k f, frames[k]? = some f → slot_holds (q1.slot (q.packet_queue.last + k)) f) := by
  induction frames with
  | nil =>
    intro q hl hlen _
    exact ⟨q, rfl, hl, rfl, rfl, hlen, rfl, fun _ _ => rfl, fun k f h => by simp at h⟩
  | cons f rest ih =>
    intro q hl hlen hroom
    simp only [List.length_cons] at hroom
    have hlast : q.packet_queue.last < 32 := by omega
    obtain ⟨q1, h1, h2, h3, h4, h5, h6, h7, h8⟩ :=
      ih { q with
            packet_queue :=
              { q.packet_queue with
                  packets := q.packet_queue.packets.set q.packet_queue.last
                    { length := f.length
                      buffer := memcpy (q.slot q.packet_queue.last).buffer f f.length }
                  last := (q.packet_queue.last + 1) % MARI_PACKET_QUEUE_SIZE }
            queue_locked := false }
        rfl (by simp [hlen])
        (by simp only [MARI_PACKET_QUEUE_SIZE]; omega)
    have hmod : (q.packet_queue.last + 1) % MARI_PACKET_QUEUE_SIZE = q.packet_queue.last + 1 := by
      simp only [MARI_PACKET_QUEUE_SIZE]; omega
    simp only [hmod] at h1 h2 h3 h4 h5 h6 h7 h8
    refine ⟨q1, ?_, h2, h3, ?_, h5, h6, ?_, ?_⟩
    · simp only [queue_add_all, mr_queue_add, hl, hmod]
      simpa [queue_vars_t.slot] using h1
    · simp only [List.length_cons]; rw [h4]; omega
    · intro j hj
      rw [h7 j (by omega)]
      simp only [queue_vars_t.slot]
      rw [getD_set_eq, if_neg (by omega)]
    · intro k g hk
      cases k with
      | zero =>
        simp at hk
        subst hk
        rw [Nat.add_zero, h7 _ (by omega)]
        simp only [queue_vars_t.slot]
        rw [getD_set_eq, if_pos ⟨rfl, by omega⟩]
        refine ⟨rfl, ?_⟩
        simp only []
        rw [memcpy_take _ _ _ (Nat.le_refl _)]
        simp
      | succ k =>
        simp at hk
        have := h8 k g hk
        rw [show q.packet_queue.last + (k + 1) = q.packet_queue.last + 1 + k by omega]
        exact this

theorem mr_queue_pop_nonempty (q : queue_vars_t) (hl : q.queue_locked = false)
    (hne : q.packet_queue.current ≠ q.packet_queue.last) (hcur : q.packet_queue.current < 31) :
    mr_queue_pop q =
      (true, { q with packet_queue :=
        { q.packet_queue with current := q.packet_queue.current + 1 } }) := by
  have hmod : (q.packet_queue.current + 1) % MARI_PACKET_QUEUE_SIZE
      = q.packet_queue.current + 1 := by
    simp only [MARI_PACKET_QUEUE_SIZE]; omega
  unfold mr_queue_pop
  rw [if_neg (by simp [hl]), if_neg hne, hmod]

theorem mr_queue_peek_nonempty (q : queue_vars_t) (out : List Nat) (hl : q.queue_locked = false)
    (hne : q.packet_queue.current ≠ q.packet_queue.last) :
    mr_queue_peek q out =
      ((q.slot q.packet_queue.current).length,
       memcpy out (q.slot q.packet_queue.current).buffer (q.slot q.packet_queue.current).length) := by
  unfold mr_queue_peek
  rw [if_neg (by simp [hl]), if_neg hne]
  rfl

theorem queue_drain_spec (frames : List (List Nat)) :
    ∀ (q : queue_vars_t) (out : List Nat), q.queue_locked = false →
      q.packet_queue.last = q.packet_queue.current + frames.length →
      q.packet_queue.last ≤ 31 →
      (∀ f ∈ frames, 0 < f.length) →
      (∀ k f, frames[k]? = some f → slot_holds (q.slot (q.packet_queue.current + k)) f) →
      queue_drain frames.length q out = frames.map (fun f => (f.length, f)) := by
  induction frames with
  | nil =>
    intro q out _ _ _ _ _
    rfl
  | cons f rest ih =>
    intro q out hl hlast hle hpos hslots
    simp only [List.length_cons] at hlast
    have hne : q.packet_queue.current ≠ q.packet_queue.last := by omega
    have hf := hslots 0 f (by simp)
    rw [Nat.add_zero] at hf
    have hfpos : 0 < f.length := hpos f (List.mem_cons_self f rest)
    have hbuf : f.length ≤ (q.slot q.packet_queue.current).buffer.length := by
      have := congrArg List.length hf.2
      rw [List.length_take] at this
      omega
    have hpeek := mr_queue_peek_nonempty q out hl hne
    rw [hf.1] at hpeek
    have hpop := mr_queue_pop_nonempty q hl hne (by omega)
    have hstep : mr_queue_next_packet_ring q out =
        (f.length, memcpy out (q.slot q.packet_queue.current).buffer f.length,
         { q with packet_queue :=
            { q.packet_queue with current := q.packet_queue.current + 1 } }) := by
      unfold mr_queue_next_packet_ring
      rw [hpeek, hpop]
      rw [if_pos (by simpa using Nat.pos_iff_ne_zero.mp hfpos)]
    have hrest := ih
      { q with packet_queue := { q.packet_queue with current := q.packet_queue.current + 1 } }
      (memcpy out (q.slot q.packet_queue.current).buffer f.length)
      hl (by simp only []; omega) hle
      (fun g hg => hpos g (List.mem_cons_of_mem f hg))
      (by
        intro k g hk
        have := hslots (k + 1) g (by simpa using hk)
        rw [show q.packet_queue.current + (k + 1) = q.packet_queue.current + 1 + k by omega]
          at this
        exact this)
    show queue_drain (rest.length + 1) q out = _
    rw [queue_drain, hstep]
    simp only [List.map_cons]
    rw [memcpy_take _ _ _ hbuf, hf.2, hrest]

/-- C6: the queue is FIFO.  After a reset, adding at most 31 non-empty frames (each of
at most 255 bytes) succeeds, and the next dequeues, as many as frames were added,
return the frames in insertion order, each with its length and its bytes. -/
theorem C6_queue_fifo (q0 : queue_vars_t) (frames : List (List Nat)) (out : List Nat)
    (hsize : q0.packet_queue.packets.length = MARI_PACKET_QUEUE_SIZE)
    (hk : frames.length ≤ 31)
    (hframes : ∀ f ∈ frames, 0 < f.length ∧ f.length ≤ MARI_PACKET_MAX_SIZE) :
    ∃ q1, queue_add_all (mr_queue_reset q0) frames = some q1 ∧
      queue_drain frames.length q1 out = frames.map (fun f => (f.length, f)) := by
  obtain ⟨q1, h1, h2, h3, h4, _, _, _, h8⟩ :=
    queue_add_all_spec frames (mr_queue_reset q0) rfl (by simpa [mr_queue_reset] using hsize)
      (by simp [mr_queue_reset]; omega)
  have hcur : (mr_queue_reset q0).packet_queue.current = 0 := rfl
  have hlast : (mr_queue_reset q0).packet_queue.last = 0 := rfl
  rw [hcur] at h3
  rw [hlast] at h4 h8
  refine ⟨q1, h1, ?_⟩
  apply queue_drain_spec frames q1 out h2
  · rw [h4, h3]
  · rw [h4]; omega
  · intro f hf; exact (hframes f hf).1
  · intro k f hkf
    rw [h3]
    exact h8 k f hkf

/-- Witness for C6: three frames queued on a reset example queue come back in order. -/
theorem C6_queue_fifo_witness :
    ∃ q1, queue_add_all (mr_queue_reset example_queue) [[1, 2], [3], [4, 5, 6]] = some q1 ∧
      queue_drain 3 q1 [] = [(2, [1, 2]), (1, [3]), (3, [4, 5, 6])] :=
  C6_queue_fifo example_queue [[1, 2], [3], [4, 5, 6]] [] (by decide) (by decide) (by decide)

theorem mr_queue_add_on_full_ring (q : queue_vars_t) (packet : List Nat) (length : Nat)
    (hl : q.queue_locked = false)
    (hfull : (q.packet_queue.last + 1) % MARI_PACKET_QUEUE_SIZE = q.packet_queue.current) :
    ∃ q1, mr_queue_add q packet length = some q1 ∧
      q1.packet_queue.current = q1.packet_queue.last ∧
      ∀ out, mr_queue_next_packet_ring q1 out = (0, out, q1) := by
  refine ⟨_, by simp only [mr_queue_add, hl]; rfl, ?_, ?_⟩
  · exact hfull.symm
  · intro out
    simp [mr_queue_next_packet_ring, mr_queue_peek, hfull]

/-- C7 (the code at the failing input): with 31 frames queued on a reset queue the ring
is full; one more `mr_queue_add` is not dropped but stored, `last` wraps onto `current`,
and every following dequeue returns length 0: the 31 queued frames are lost. -/
theorem C7_add_on_full_ring_empties_queue :
    (queue_add_all (mr_queue_reset example_queue) example_frames_31).map
        (fun q => (q.packet_queue.current, q.packet_queue.last,
          (queue_drain 31 q []).map (fun r => r.2)))
      = some (0, 31, example_frames_31) ∧
    ((queue_add_all (mr_queue_reset example_queue) example_frames_31).bind
        (fun q => mr_queue_add q [32] 1)).map
        (fun q => (q.packet_queue.current, q.packet_queue.last,
          (q.slot 31).length, (q.slot 31).buffer.take 1, queue_drain 31 q []))
      = some (0, 0, 1, [32], List.replicate 31 (0, [])) := by
  constructor <;> rfl

/-- C7 (amended): on an unlocked ring that already holds 31 frames, `mr_queue_add`
returns and stores the new frame in slot `last`; `current` is unchanged and `last`
wraps onto it, so that every following ring dequeue returns length 0 and leaves both
the caller's buffer and the queue as they are. -/
theorem C7_add_on_full_ring_wraps (q : queue_vars_t) (packet : List Nat) (length : Nat)
    (hl : q.queue_locked = false)
    (hsize : q.packet_queue.packets.length = MARI_PACKET_QUEUE_SIZE)
    (hlast : q.packet_queue.last < MARI_PACKET_QUEUE_SIZE)
    (hfull : (q.packet_queue.last + 1) % MARI_PACKET_QUEUE_SIZE = q.packet_queue.current) :
    ∃ q1, mr_queue_add q packet length = some q1 ∧
      q1.packet_queue.current = q.packet_queue.current ∧
      q1.packet_queue.last = q.packet_queue.current ∧
      (q1.slot q.packet_queue.last).length = length ∧
      (∀ i, i ≠ q.packet_queue.last → q1.slot i = q.slot i) ∧
      ∀ out, mr_queue_next_packet_ring q1 out = (0, out, q1) := by
  have hadd : mr_queue_add q packet length = some
      { q with
          packet_queue :=
            { q.packet_queue with
                packets := q.packet_queue.packets.set q.packet_queue.last
                  { length := length
                    buffer := memcpy (q.packet_queue.packets.getD q.packet_queue.last
                      { length := 0, buffer := [] }).buffer packet length }
                last := (q.packet_queue.last + 1) % MARI_PACKET_QUEUE_SIZE }
          queue_locked := false } := by
    simp only [mr_queue_add, hl]; rfl
  refine ⟨_, hadd, rfl, hfull, ?_, ?_, ?_⟩
  · simp only [queue_vars_t.slot]
    rw [getD_set_eq, if_pos ⟨rfl, by rw [hsize]; exact hlast⟩]
  · intro i hi
    simp only [queue_vars_t.slot]
    rw [getD_set_eq, if_neg (fun h => hi h.1.symm)]
  · intro out
    simp [mr_queue_next_packet_ring, mr_queue_peek, hfull]

/-- Witness for C7 (amended): the full example queue. -/
theorem C7_add_on_full_ring_wraps_witness :
    ∃ q1, mr_queue_add example_queue_full [32] 1 = some q1 ∧
      q1.packet_queue.current = example_queue_full.packet_queue.current ∧
      q1.packet_queue.last = example_queue_full.packet_queue.current ∧
      (q1.slot example_queue_full.packet_queue.last).length = 1 ∧
      (∀ i, i ≠ example_queue_full.packet_queue.last → q1.slot i = example_queue_full.slot i) ∧
      ∀ out, mr_queue_next_packet_ring q1 out = (0, out, q1) :=
  C7_add_on_full_ring_wraps example_queue_full [32] 1 rfl rfl (by decide) rfl

/-! ## Theorems: gateway selection -/

theorem range_three : List.range MARI_N_BLE_ADVERTISING_CHANNELS = [0, 1, 2] := rfl

theorem range_five : List.range MARI_MAX_SCAN_LIST_SIZE = [0, 1, 2, 3, 4] := rfl

theorem sample_stale_skipped (s e ts : Nat) (he : e < 2 ^ 32) (h : sample_stale s e ts) :
    sample_skipped s e ts := by
  unfold sample_stale at h
  unfold sample_skipped
  rcases h with h | h | h
  · exact Or.inl h
  · exact Or.inr (Or.inl h)
  · right; right
    unfold u32_sub MARI_SCAN_OLD_US at *
    have h1 : ts < 2 ^ 32 := by omega
    rw [Nat.mod_eq_of_lt he, Nat.mod_eq_of_lt h1]
    omega

theorem scan_sum_loop_eq (scan : mr_gateway_scan_t) (s e : Nat) :
    scan_sum_loop scan s e =
      scan_sum_step scan s e (scan_sum_step scan s e (scan_sum_step scan s e (0, 0) 0) 1) 2 := rfl

theorem scan_sum_step_skip (scan : mr_gateway_scan_t) (s e : Nat) (acc : Int × Int) (j : Nat)
    (h : sample_skipped s e (scan.info j).timestamp) : scan_sum_step scan s e acc j = acc := by
  unfold scan_sum_step
  unfold sample_skipped at h
  split_ifs with h1 h2 h3
  · rfl
  · rfl
  · rfl
  · exfalso
    rcases h with h | h | h
    · exact h1 h
    · exact h2 h
    · exact h3 h

theorem int8_wrap_small (x : Int) (h1 : -128 ≤ x) (h2 : x ≤ 127) : int8_wrap x = x := by
  unfold int8_wrap
  omega

theorem scan_sum_step_count (scan : mr_gateway_scan_t) (s e : Nat) (acc : Int × Int) (j : Nat)
    (h : ¬ sample_skipped s e (scan.info j).timestamp) (h0 : 0 ≤ acc.2) (h1 : acc.2 ≤ 100) :
    (scan_sum_step scan s e acc j).2 = acc.2 + 1 := by
  unfold sample_skipped at h
  have h1' : ¬ (scan.info j).timestamp = 0 := fun x => h (Or.inl x)
  have h2' : ¬ (scan.info j).timestamp < s := fun x => h (Or.inr (Or.inl x))
  have h3' : ¬ u32_sub e (scan.info j).timestamp > MARI_SCAN_OLD_US :=
    fun x => h (Or.inr (Or.inr x))
  unfold scan_sum_step
  rw [if_neg h1', if_neg h2', if_neg h3']
  exact int8_wrap_small _ (by omega) (by omega)

theorem scan_sum_step_count_bounds (scan : mr_gateway_scan_t) (s e : Nat) (acc : Int × Int)
    (j : Nat) (h0 : 0 ≤ acc.2) (h1 : acc.2 ≤ 100) :
    acc.2 ≤ (scan_sum_step scan s e acc j).2 ∧ (scan_sum_step scan s e acc j).2 ≤ acc.2 + 1 := by
  by_cases h : sample_skipped s e (scan.info j).timestamp
  · rw [scan_sum_step_skip scan s e acc j h]; omega
  · rw [scan_sum_step_count scan s e acc j h h0 h1]; omega

theorem scan_sum_loop_zero_of_skipped (scan : mr_gateway_scan_t) (s e : Nat)
    (h : ∀ j, j < 3 → sample_skipped s e (scan.info j).timestamp) :
    (scan_sum_loop scan s e).2 = 0 := by
  rw [scan_sum_loop_eq]
  rw [scan_sum_step_skip _ _ _ _ _ (h 2 (by omega)), scan_sum_step_skip _ _ _ _ _ (h 1 (by omega)),
    scan_sum_step_skip _ _ _ _ _ (h 0 (by omega))]

theorem scan_select_step_eq (sv : scan_vars_t) (s e : Nat) (best : Int × Int) (i : Nat) :
    scan_select_step sv s e best i =
      match scan_avg sv s e i with
      | none => best
      | some a => if a > best.2 then (int8_wrap (i : Int), a) else best := by
  unfold scan_select_step scan_avg
  by_cases h1 : (sv.entry i).gateway_id = 0
  · simp [h1]
  · by_cases h2 : (scan_sum_loop (sv.entry i) s e).2 = 0
    · simp [h1, h2]
    · simp [h1, h2]

/-- Invariant of the outer loop of `mr_scan_select` run over the indices `l` from the
pair `b`: either no index improved on `b`, or the result is the last index that did,
its average exceeds every earlier one and is at least every later one. -/
theorem scan_select_foldl_spec (sv : scan_vars_t) (s e : Nat) (l : List Nat) :
    ∀ b : Int × Int,
      (l.foldl (scan_select_step sv s e) b = b ∧
        ∀ j ∈ l, ∀ c, scan_avg sv s e j = some c → c ≤ b.2) ∨
      ∃ l1 i l2 a, l = l1 ++ i :: l2 ∧ scan_avg sv s e i = some a ∧
        l.foldl (scan_select_step sv s e) b = (int8_wrap (i : Int), a) ∧ b.2 < a ∧
        (∀ j ∈ l1, ∀ c, scan_avg sv s e j = some c → c < a) ∧
        (∀ j ∈ l2, ∀ c, scan_avg sv s e j = some c → c ≤ a) := by
  induction l with
  | nil => intro b; left; exact ⟨rfl, by simp⟩
  | cons x rest ih =>
    intro b
    rw [List.foldl_cons]
    have hstep := scan_select_step_eq sv s e b x
    rcases ih (scan_select_step sv s e b x) with ⟨hr, hle⟩ | ⟨l1, i, l2, a, hl, hav, hr, hlt, hbef, haft⟩
    · -- nothing in the rest improved
      cases hx : scan_avg sv s e x with
      | none =>
        rw [hx] at hstep
        simp only at hstep
        left
        refine ⟨by rw [hr, hstep], ?_⟩
        intro j hj c hc
        rcases List.mem_cons.1 hj with rfl | hj
        · rw [hx] at hc; cases hc
        · have := hle j hj c hc
          rw [hstep] at this; exact this
      | some ax =>
        rw [hx] at hstep
        simp only at hstep
        by_cases hgt : ax > b.2
        · rw [if_pos hgt] at hstep
          right
          refine ⟨[], x, rest, ax, rfl, hx, by rw [hr, hstep], hgt, by simp, ?_⟩
          intro j hj c hc
          have := hle j hj c hc
          rw [hstep] at this; exact this
        · rw [if_neg hgt] at hstep
          left
          refine ⟨by rw [hr, hstep], ?_⟩
          intro j hj c hc
          rcases List.mem_cons.1 hj with rfl | hj
          · rw [hx] at hc
            cases hc
            omega
          · have := hle j hj c hc
            rw [hstep] at this; exact this
    · right
      have hb : b.2 ≤ (scan_select_step sv s e b x).2 ∧
          ∀ c, scan_avg sv s e x = some c → c ≤ (scan_select_step sv s e b x).2 := by
        cases hx : scan_avg sv s e x with
        | none =>
          rw [hx] at hstep
          simp only at hstep
          rw [hstep]
          exact ⟨le_refl _, by intro c hc; cases hc⟩
        | some ax =>
          rw [hx] at hstep
          simp only at hstep
          by_cases hgt : ax > b.2
          · rw [if_pos hgt] at hstep
            rw [hstep]
            refine ⟨by simp only; omega, ?_⟩
            intro c hc; cases hc; exact le_refl _
          · rw [if_neg hgt] at hstep
            rw [hstep]
            refine ⟨le_refl _, ?_⟩
            intro c hc; cases hc; omega
      refine ⟨x :: l1, i, l2, a, by rw [hl]; rfl, hav, hr, by omega, ?_, haft⟩
      intro j hj c hc
      rcases List.mem_cons.1 hj with rfl | hj
      · have := hb.2 c hc
        omega
      · exact hbef j hj c hc

theorem scan_select_loop_cases (sv : scan_vars_t) (s e : Nat) :
    (scan_select_loop sv s e = (-1, -128) ∧
      ∀ j, j < 5 → ∀ c, scan_avg sv s e j = some c → c ≤ -128) ∨
    ∃ i a, i < 5 ∧ scan_avg sv s e i = some a ∧ scan_select_loop sv s e = ((i : Int), a) ∧
      -128 < a ∧ (∀ j, j < i → ∀ c, scan_avg sv s e j = some c → c < a) ∧
      (∀ j, j < 5 → ∀ c, scan_avg sv s e j = some c → c ≤ a) := by
  have hmem : ∀ j, j ∈ List.range MARI_MAX_SCAN_LIST_SIZE ↔ j < 5 := by
    intro j; rw [List.mem_range]; rfl
  rcases scan_select_foldl_spec sv s e (List.range MARI_MAX_SCAN_LIST_SIZE) (-1, -128) with
    ⟨hr, hle⟩ | ⟨l1, i, l2, a, hl, hav, hr, hlt, hbef, haft⟩
  · left
    exact ⟨hr, fun j hj c hc => hle j ((hmem j).2 hj) c hc⟩
  · right
    have hsorted : List.Pairwise (fun a b : Nat => a < b) (l1 ++ i :: l2) := by
      rw [← hl]; exact List.pairwise_lt_range _
    rw [List.pairwise_append] at hsorted
    obtain ⟨_, hs2, hs3⟩ := hsorted
    rw [List.pairwise_cons] at hs2
    have hi : i < 5 := (hmem i).1 (by rw [hl]; simp)
    have hsplit : ∀ j, j < 5 → j ∈ l1 ∨ j = i ∨ j ∈ l2 := by
      intro j hj
      have := (hmem j).2 hj
      rw [hl] at this
      simpa using this
    refine ⟨i, a, hi, hav, ?_, hlt, ?_, ?_⟩
    · show List.foldl _ _ _ = _
      rw [hr, int8_wrap_small _ (by omega) (by omega)]
    · intro j hj c hc
      rcases hsplit j (by omega) with h | h | h
      · exact hbef j h c hc
      · omega
      · have := hs2.1 j h; omega
    · intro j hj c hc
      rcases hsplit j hj with h | h | h
      · exact le_of_lt (hbef j h c hc)
      · subst h; rw [hav] at hc; cases hc; exact le_refl _
      · exact haft j h c hc

/-- C8 (the code at the failing input): gateway 1 was heard twice at -70 dBm and gateway
2 once at -40 dBm, all inside the freshness window.  The exact in-window averages are
-70 and -40, but the `int8_t` sum -140 wraps to 116, the code's average for gateway 1 is
58, and `mr_scan_select` returns the sample of gateway 1. -/
theorem C8_select_overflow_picks_weaker_gateway :
    in_window_average (example_scan_overflow.entry 0) 1 100 = some (-70) ∧
    in_window_average (example_scan_overflow.entry 1) 1 100 = some (-40) ∧
    scan_avg example_scan_overflow 1 100 0 = some 58 ∧
    scan_avg example_scan_overflow 1 100 1 = some (-40) ∧
    mr_scan_select example_scan_overflow 1 100 = (true, example_sample (-70) 20 1) := by
  decide

/-- C9 (the code at the failing input): gateways 1 and 2 tie at -50 dBm and the latest
sample of gateway 2 (timestamp 20) is more recent than that of gateway 1 (timestamp 10),
yet `mr_scan_select` returns the sample of gateway 1, the entry with the lower index. -/
theorem C9_tie_returns_lower_index_not_latest :
    scan_avg example_scan_tie 1 100 0 = some (-50) ∧
    scan_avg example_scan_tie 1 100 1 = some (-50) ∧
    _get_ts_latest (example_scan_tie.entry 0) = 10 ∧
    _get_ts_latest (example_scan_tie.entry 1) = 20 ∧
    mr_scan_select example_scan_tie 1 100 = (true, example_sample (-50) 10 1) := by
  decide

/-- C9 (amended): when entry `i` has the highest average the code computes, above
`INT8_MIN`, and every entry with a lower index has a strictly lower average, then
`mr_scan_select` returns true with the latest sample of entry `i`: among entries that
share the highest average the one with the lowest table index is returned. -/
theorem C9_tie_goes_to_lowest_index (sv : scan_vars_t) (s e i : Nat) (a : Int)
    (hi : i < MARI_MAX_SCAN_LIST_SIZE)
    (hav : scan_avg sv s e i = some a)
    (hmin : -128 < a)
    (hmax : ∀ j, j < MARI_MAX_SCAN_LIST_SIZE → ∀ c, scan_avg sv s e j = some c → c ≤ a)
    (hfirst : ∀ j, j < i → ∀ c, scan_avg sv s e j = some c → c < a) :
    mr_scan_select sv s e = (true, _get_channel_info_latest (sv.entry i)) := by
  have hi5 : i < 5 := hi
  rcases scan_select_loop_cases sv s e with ⟨_, hle⟩ | ⟨k, b, hk, hkav, hr, _, hbef, hall⟩
  · have := hle i hi5 a hav
    omega
  · have hki : k = i := by
      rcases Nat.lt_trichotomy k i with h | h | h
      · have h1 := hfirst k h b hkav
        have h2 := hall i hi5 a hav
        omega
      · exact h
      · have h1 := hbef i h a hav
        have h2 := hmax k hk b hkav
        omega
    subst hki
    unfold mr_scan_select
    simp only [hr]
    rw [if_neg (by omega)]
    simp

/-- Witness for C9 (amended): the tie of `example_scan_tie` goes to entry 0. -/
theorem C9_tie_goes_to_lowest_index_witness :
    mr_scan_select example_scan_tie 1 100 =
      (true, _get_channel_info_latest (example_scan_tie.entry 0)) :=
  C9_tie_goes_to_lowest_index example_scan_tie 1 100 0 (-50) (by decide) (by decide) (by decide)
    (by decide) (by decide)

/-- C10: with a 32-bit `ts_scan_ended`, (1) a stale sample (timestamp 0, earlier than
`ts_scan_started`, or more than 500000 microseconds before `ts_scan_ended`) leaves the
accumulators of the averaging loop unchanged, (2) an entry whose three samples are all
stale gets no average and its index is never the selected one, and (3) when the samples
of all five entries are stale, `mr_scan_select` returns false with the output zeroed. -/
theorem C10_stale_samples_ignored (sv : scan_vars_t) (s e : Nat) (he : e < 2 ^ 32) :
    MARI_SCAN_OLD_US = 500000 ∧
    (∀ i j acc, sample_stale s e ((sv.entry i).info j).timestamp →
      scan_sum_step (sv.entry i) s e acc j = acc) ∧
    (∀ i, i < MARI_MAX_SCAN_LIST_SIZE →
      (∀ j, j < MARI_N_BLE_ADVERTISING_CHANNELS →
        sample_stale s e ((sv.entry i).info j).timestamp) →
      scan_avg sv s e i = none ∧ (scan_select_loop sv s e).1 ≠ (i : Int)) ∧
    ((∀ i, i < MARI_MAX_SCAN_LIST_SIZE → ∀ j, j < MARI_N_BLE_ADVERTISING_CHANNELS →
        sample_stale s e ((sv.entry i).info j).timestamp) →
      mr_scan_select sv s e = (false, channel_info_zero)) := by
  have hnone : ∀ i, (∀ j, j < MARI_N_BLE_ADVERTISING_CHANNELS →
      sample_stale s e ((sv.entry i).info j).timestamp) → scan_avg sv s e i = none := by
    intro i hst
    have hz := scan_sum_loop_zero_of_skipped (sv.entry i) s e
      (fun j hj => sample_stale_skipped s e _ he (hst j hj))
    unfold scan_avg
    rw [if_pos hz]
    simp
  refine ⟨rfl, ?_, ?_, ?_⟩
  · intro i j acc hst
    exact scan_sum_step_skip _ _ _ _ _ (sample_stale_skipped s e _ he hst)
  · intro i hi hst
    refine ⟨hnone i hst, ?_⟩
    rcases scan_select_loop_cases sv s e with ⟨hr, _⟩ | ⟨k, b, hk, hkav, hr, _, _, _⟩
    · rw [hr]; simp only; omega
    · rw [hr]
      simp only
      intro hki
      have : k = i := by omega
      subst this
      rw [hnone k hst] at hkav
      cases hkav
  · intro hst
    rcases scan_select_loop_cases sv s e with ⟨hr, _⟩ | ⟨k, b, hk, hkav, hr, _, _, _⟩
    · unfold mr_scan_select
      simp only [hr]
      rfl
    · rw [hnone k (hst k hk)] at hkav
      cases hkav

/-- Witness for C10: a scan started at timestamp 100 finds only samples taken at 10 and
20 in `example_scan_tie`, so nothing is selected. -/
theorem C10_stale_samples_ignored_witness :
    (200 : Nat) < 2 ^ 32 ∧
    scan_avg example_scan_tie 100 200 0 = none ∧
    mr_scan_select example_scan_tie 100 200 = (false, channel_info_zero) :=
  ⟨by decide,
   ((C10_stale_samples_ignored example_scan_tie 100 200 (by decide)).2.2.1 0 (by decide)
      (by decide)).1,
   (C10_stale_samples_ignored example_scan_tie 100 200 (by decide)).2.2.2 (by decide)⟩

/-! ## Theorems: slot selection -/

theorem compute_gateway_action_frame (cell : cell_t) (slot_info : mr_slot_info_t) :
    (_compute_gateway_action cell slot_info).type = slot_info.type ∧
    (_compute_gateway_action cell slot_info).channel = slot_info.channel := by
  unfold _compute_gateway_action
  cases cell.type <;> exact ⟨rfl, rfl⟩

theorem compute_node_action_frame (cell : cell_t) (slot_info : mr_slot_info_t) (device_id : Nat) :
    (_compute_node_action cell slot_info device_id).type = slot_info.type ∧
    (_compute_node_action cell slot_info device_id).channel = slot_info.channel := by
  unfold _compute_node_action
  cases cell.type
  · exact ⟨rfl, rfl⟩
  · exact ⟨rfl, rfl⟩
  · exact ⟨rfl, rfl⟩
  · by_cases h : cell.assigned_node_id = device_id
    · rw [if_pos h]; exact ⟨rfl, rfl⟩
    · rw [if_neg h]; exact ⟨rfl, rfl⟩

theorem mr_scheduler_tick_action (st : schedule_vars_t) (av : assoc_vars_t)
    (node_type : mr_node_type_t) (device_id asn : Nat) :
    (mr_scheduler_tick st av node_type device_id asn).1 =
      if node_type = MARI_GATEWAY then
        _compute_gateway_action (st.cell (asn % st.active_schedule.n_cells))
          { radio_action := MARI_RADIO_ACTION_SLEEP
            channel := mr_scheduler_get_channel (st.cell (asn % st.active_schedule.n_cells)).type
              asn (st.cell (asn % st.active_schedule.n_cells)).channel_offset
            type := (st.cell (asn % st.active_schedule.n_cells)).type }
      else
        _compute_node_action (st.cell (asn % st.active_schedule.n_cells))
          { radio_action := MARI_RADIO_ACTION_SLEEP
            channel := mr_scheduler_get_channel (st.cell (asn % st.active_schedule.n_cells)).type
              asn (st.cell (asn % st.active_schedule.n_cells)).channel_offset
            type := (st.cell (asn % st.active_schedule.n_cells)).type } device_id := by
  have hcell : ∀ c, ({ st with current_cell_index := c } : schedule_vars_t).cell
      (asn % st.active_schedule.n_cells) = st.cell (asn % st.active_schedule.n_cells) :=
    fun _ => rfl
  unfold mr_scheduler_tick
  simp only [hcell]
  by_cases hg : node_type = MARI_GATEWAY
  · simp only [hg, if_true]
  · simp only [hg, if_false]

theorem mr_scheduler_tick_slot (st : schedule_vars_t) (av : assoc_vars_t)
    (node_type : mr_node_type_t) (device_id asn : Nat) :
    (mr_scheduler_tick st av node_type device_id asn).1.type =
      (st.cell (asn % st.active_schedule.n_cells)).type ∧
    (mr_scheduler_tick st av node_type device_id asn).1.channel =
      mr_scheduler_get_channel (st.cell (asn % st.active_schedule.n_cells)).type asn
        (st.cell (asn % st.active_schedule.n_cells)).channel_offset := by
  rw [mr_scheduler_tick_action]
  by_cases hg : node_type = MARI_GATEWAY
  · simp only [hg, if_true]
    exact compute_gateway_action_frame _ _
  · simp only [hg, if_false]
    exact compute_node_action_frame _ _ _

/-- C13: with `MARI_FIXED_CHANNEL = 0` and a schedule with at least one cell,
`mr_scheduler_tick` returns the type of cell `asn mod n_cells`; for a cell that is not a
Beacon the channel is `(asn + channel_offset) mod 37` computed on 64 bits, which is
`(asn + channel_offset) mod 37` whenever the sum does not overflow 64 bits; for a
Beacon cell the channel is 37, one of the advertising channels 37, 38, 39. -/
theorem C13_tick_type_and_channel (st : schedule_vars_t) (av : assoc_vars_t)
    (node_type : mr_node_type_t) (device_id asn : Nat)
    (hn : 0 < st.active_schedule.n_cells) :
    MARI_FIXED_CHANNEL = 0 ∧
    asn % st.active_schedule.n_cells < st.active_schedule.cells.length ∧
    (mr_scheduler_tick st av node_type device_id asn).1.type =
      (st.cell (asn % st.active_schedule.n_cells)).type ∧
    ((st.cell (asn % st.active_schedule.n_cells)).type ≠ SLOT_TYPE_BEACON →
      (mr_scheduler_tick st av node_type device_id asn).1.channel =
          ((asn + (st.cell (asn % st.active_schedule.n_cells)).channel_offset) % 2 ^ 64) % 37 ∧
        (asn + (st.cell (asn % st.active_schedule.n_cells)).channel_offset < 2 ^ 64 →
          (mr_scheduler_tick st av node_type device_id asn).1.channel =
            (asn + (st.cell (asn % st.active_schedule.n_cells)).channel_offset) % 37)) ∧
    ((st.cell (asn % st.active_schedule.n_cells)).type = SLOT_TYPE_BEACON →
      (mr_scheduler_tick st av node_type device_id asn).1.channel = 37) := by
  have htype := (mr_scheduler_tick_slot st av node_type device_id asn).1
  have hchan := (mr_scheduler_tick_slot st av node_type device_id asn).2
  refine ⟨rfl, Nat.mod_lt _ hn, htype, ?_, ?_⟩
  · intro hnb
    have h1 : (mr_scheduler_tick st av node_type device_id asn).1.channel =
        ((asn + (st.cell (asn % st.active_schedule.n_cells)).channel_offset) % 2 ^ 64) % 37 := by
      rw [hchan]
      unfold mr_scheduler_get_channel MARI_FIXED_CHANNEL MARI_N_BLE_REGULAR_CHANNELS
      rw [if_neg (by decide), if_neg hnb]
      omega
    refine ⟨h1, ?_⟩
    intro hlt
    rw [h1, Nat.mod_eq_of_lt hlt]
  · intro hb
    rw [hchan, hb]
    rfl

/-- Witness for C13: at ASN 10 a node on the seven-cell example schedule is in cell 3, a
SharedUplink cell with channel offset 0, and uses channel 10. -/
theorem C13_tick_type_and_channel_witness :
    0 < example_gateway.active_schedule.n_cells ∧
    (mr_scheduler_tick example_gateway example_assoc MARI_NODE 7 10).1.type =
      SLOT_TYPE_SHARED_UPLINK ∧
    (mr_scheduler_tick example_gateway example_assoc MARI_NODE 7 10).1.channel = 10 :=
  ⟨by decide,
   (C13_tick_type_and_channel example_gateway example_assoc MARI_NODE 7 10 (by decide)).2.2.1,
   ((C13_tick_type_and_channel example_gateway example_assoc MARI_NODE 7 10
      (by decide)).2.2.2.1 (by decide)).1⟩

/-- C14: the radio action returned by `mr_scheduler_tick` for the cell `asn mod n_cells`
follows the role table.  Gateway: Tx on Beacon and Downlink cells, Rx on SharedUplink
and Uplink cells.  Node: Rx on Beacon and Downlink cells, Tx on SharedUplink cells, and
on an Uplink cell Tx when the cell is assigned to the node's own id and Sleep
otherwise. -/
theorem C14_radio_action_role_table (st : schedule_vars_t) (av : assoc_vars_t)
    (device_id asn : Nat) :
    (mr_scheduler_tick st av MARI_GATEWAY device_id asn).1.radio_action =
      (match (st.cell (asn % st.active_schedule.n_cells)).type with
        | SLOT_TYPE_BEACON => MARI_RADIO_ACTION_TX
        | SLOT_TYPE_DOWNLINK => MARI_RADIO_ACTION_TX
        | SLOT_TYPE_SHARED_UPLINK => MARI_RADIO_ACTION_RX
        | SLOT_TYPE_UPLINK => MARI_RADIO_ACTION_RX) ∧
    (mr_scheduler_tick st av MARI_NODE device_id asn).1.radio_action =
      (match (st.cell (asn % st.active_schedule.n_cells)).type with
        | SLOT_TYPE_BEACON => MARI_RADIO_ACTION_RX
        | SLOT_TYPE_DOWNLINK => MARI_RADIO_ACTION_RX
        | SLOT_TYPE_SHARED_UPLINK => MARI_RADIO_ACTION_TX
        | SLOT_TYPE_UPLINK =>
          if (st.cell (asn % st.active_schedule.n_cells)).assigned_node_id = device_id then
            MARI_RADIO_ACTION_TX
          else MARI_RADIO_ACTION_SLEEP) ∧
    ((st.cell (asn % st.active_schedule.n_cells)).type = SLOT_TYPE_UPLINK →
      ((mr_scheduler_tick st av MARI_NODE device_id asn).1.radio_action = MARI_RADIO_ACTION_TX ↔
        (st.cell (asn % st.active_schedule.n_cells)).assigned_node_id = device_id)) := by
  have hnode : (mr_scheduler_tick st av MARI_NODE device_id asn).1.radio_action =
      (match (st.cell (asn % st.active_schedule.n_cells)).type with
        | SLOT_TYPE_BEACON => MARI_RADIO_ACTION_RX
        | SLOT_TYPE_DOWNLINK => MARI_RADIO_ACTION_RX
        | SLOT_TYPE_SHARED_UPLINK => MARI_RADIO_ACTION_TX
        | SLOT_TYPE_UPLINK =>
          if (st.cell (asn % st.active_schedule.n_cells)).assigned_node_id = device_id then
            MARI_RADIO_ACTION_TX
          else MARI_RADIO_ACTION_SLEEP) := by
    rw [mr_scheduler_tick_action, if_neg (by decide)]
    unfold _compute_node_action
    cases (st.cell (asn % st.active_schedule.n_cells)).type
    · rfl
    · rfl
    · rfl
    · simp only []
      by_cases h : (st.cell (asn % st.active_schedule.n_cells)).assigned_node_id = device_id
      · simp only [h, if_true]
      · simp only [h, if_false]
  refine ⟨?_, hnode, ?_⟩
  · rw [mr_scheduler_tick_action, if_pos rfl]
    unfold _compute_gateway_action
    cases (st.cell (asn % st.active_schedule.n_cells)).type <;> rfl
  · intro hu
    rw [hnode, hu]
    simp only []
    by_cases h : (st.cell (asn % st.active_schedule.n_cells)).assigned_node_id = device_id
    · simp [h]
    · simp [h]

/-! ## Theorems: release of cells -/

theorem clear_old_loop_spec (asn max_asn_old : Nat) (cells : List cell_t) :
    ∀ cnt, clear_old_loop asn max_asn_old cnt cells =
      (cells.map (fun c => if cell_expired asn max_asn_old c then released_cell c else c),
       Nat.iterate mr_scheduler_gateway_decrease_nodes_counter
         (cells.countP (cell_expired asn max_asn_old)) cnt,
       (cells.filter (cell_expired asn max_asn_old)).map node_left_event) := by
  induction cells with
  | nil => intro cnt; rfl
  | cons c rest ih =>
    intro cnt
    by_cases h1 : c.type ≠ SLOT_TYPE_UPLINK
    · have hne : cell_expired asn max_asn_old c = false := by
        simp [cell_expired, h1]
      rw [clear_old_loop, if_pos h1, ih]
      simp [hne]
    · by_cases h2 : c.assigned_node_id ≠ 0 ∧ u64_sub asn c.last_received_asn > max_asn_old
      · have he : cell_expired asn max_asn_old c = true := by
          have h1' : c.type = SLOT_TYPE_UPLINK := not_not.1 h1
          simp [cell_expired, h1', h2.1, h2.2]
        rw [clear_old_loop, if_neg h1, if_pos h2, ih]
        simp [he, released_cell, node_left_event]
      · have hne : cell_expired asn max_asn_old c = false := by
          have h1' : c.type = SLOT_TYPE_UPLINK := not_not.1 h1
          simp only [cell_expired, h1', true_and]
          simpa using h2
        rw [clear_old_loop, if_neg h1, if_neg h2, ih]
        simp [hne]

theorem decrease_nodes_counter_iterate (k : Nat) :
    ∀ cnt, k ≤ cnt → cnt < 256 →
      Nat.iterate mr_scheduler_gateway_decrease_nodes_counter k cnt = cnt - k := by
  induction k with
  | zero => intro cnt _ _; rfl
  | succ k ih =>
    intro cnt hk hc
    rw [Function.iterate_succ_apply]
    have hd : mr_scheduler_gateway_decrease_nodes_counter cnt = cnt - 1 := by
      unfold mr_scheduler_gateway_decrease_nodes_counter
      omega
    rw [hd, ih (cnt - 1) (by omega) (by omega)]
    omega

theorem node_deassign_loop_spec (device_id : Nat) (cells : List cell_t) :
    node_deassign_loop device_id cells =
      cells.map (fun c =>
        if c.type = SLOT_TYPE_UPLINK ∧ c.assigned_node_id = device_id then released_cell c
        else c) := by
  induction cells with
  | nil => rfl
  | cons c rest ih =>
    by_cases h : c.type = SLOT_TYPE_UPLINK ∧ c.assigned_node_id = device_id
    · rw [node_deassign_loop, if_pos h, ih]
      simp [h, released_cell]
    · rw [node_deassign_loop, if_neg h, ih]
      simp [h]

/-- C15: for a schedule of at most `MARI_N_CELLS_MAX` cells and a 64-bit ASN not earlier
than the last ASN recorded in any cell, the sweep releases exactly the Uplink cells with
a non-zero node id and `asn - last_received_asn > n_cells * 5` and leaves every other
cell as it is; the counter is decremented once per released cell (so it drops by their
number when it is at least that large), and one NodeLeft event with the node id and the
reason PeerLostTimeout is raised per released cell, in cell order. -/
theorem C15_sweep_releases_exactly_timed_out_cells (st : schedule_vars_t) (asn : Nat)
    (hn : st.active_schedule.n_cells ≤ MARI_N_CELLS_MAX)
    (hasn : asn < 2 ^ 64)
    (hlast : ∀ c ∈ st.active_schedule.cells, c.last_received_asn ≤ asn) :
    (mr_assoc_gateway_clear_old_nodes st asn).1.active_schedule.cells =
      st.active_schedule.cells.map
        (fun c => if cell_timed_out asn st.active_schedule.n_cells c then released_cell c
          else c) ∧
    (mr_assoc_gateway_clear_old_nodes st asn).1.num_assigned_uplink_nodes =
      Nat.iterate mr_scheduler_gateway_decrease_nodes_counter
        (st.active_schedule.cells.countP (cell_timed_out asn st.active_schedule.n_cells))
        st.num_assigned_uplink_nodes ∧
    (st.active_schedule.cells.countP (cell_timed_out asn st.active_schedule.n_cells) ≤
        st.num_assigned_uplink_nodes → st.num_assigned_uplink_nodes < 256 →
      (mr_assoc_gateway_clear_old_nodes st asn).1.num_assigned_uplink_nodes =
        st.num_assigned_uplink_nodes -
          st.active_schedule.cells.countP (cell_timed_out asn st.active_schedule.n_cells)) ∧
    (mr_assoc_gateway_clear_old_nodes st asn).2 =
      (st.active_schedule.cells.filter (cell_timed_out asn st.active_schedule.n_cells)).map
        (fun c => (mr_event_t.MARI_NODE_LEFT,
          { node_id := c.assigned_node_id, tag := mr_event_tag_t.MARI_PEER_LOST_TIMEOUT })) := by
  have hcount : mr_scheduler_get_active_schedule_slot_count st * MARI_MAX_SLOTFRAMES_NO_RX_LEAVE
      = st.active_schedule.n_cells * 5 := by
    unfold mr_scheduler_get_active_schedule_slot_count MARI_MAX_SLOTFRAMES_NO_RX_LEAVE
    unfold MARI_N_CELLS_MAX at hn
    rw [Nat.mod_eq_of_lt (by omega)]
  have hagree : ∀ c ∈ st.active_schedule.cells,
      cell_expired asn (st.active_schedule.n_cells * 5) c =
        cell_timed_out asn st.active_schedule.n_cells c := by
    intro c hc
    have hl := hlast c hc
    have hsub : u64_sub asn c.last_received_asn = asn - c.last_received_asn := by
      unfold u64_sub
      rw [Nat.mod_eq_of_lt hasn, Nat.mod_eq_of_lt (by omega : c.last_received_asn < 2 ^ 64)]
      omega
    unfold cell_expired cell_timed_out
    rw [hsub]
  have hmap : st.active_schedule.cells.map
      (fun c => if cell_expired asn (st.active_schedule.n_cells * 5) c then released_cell c
        else c) =
      st.active_schedule.cells.map
        (fun c => if cell_timed_out asn st.active_schedule.n_cells c then released_cell c
          else c) := by
    apply List.map_congr_left
    intro c hc
    rw [hagree c hc]
  have hcnt : st.active_schedule.cells.countP (cell_expired asn (st.active_schedule.n_cells * 5))
      = st.active_schedule.cells.countP (cell_timed_out asn st.active_schedule.n_cells) := by
    apply List.countP_congr
    intro c hc
    rw [hagree c hc]
  have hfil : st.active_schedule.cells.filter (cell_expired asn (st.active_schedule.n_cells * 5))
      = st.active_schedule.cells.filter (cell_timed_out asn st.active_schedule.n_cells) := by
    apply List.filter_congr
    intro c hc
    rw [hagree c hc]
  have hloop := clear_old_loop_spec asn (st.active_schedule.n_cells * 5)
    st.active_schedule.cells st.num_assigned_uplink_nodes
  rw [hmap, hcnt, hfil] at hloop
  have h1 : (mr_assoc_gateway_clear_old_nodes st asn).1.active_schedule.cells =
      (clear_old_loop asn (st.active_schedule.n_cells * 5) st.num_assigned_uplink_nodes
        st.active_schedule.cells).1 := by
    unfold mr_assoc_gateway_clear_old_nodes
    simp only [hcount]
  have h2 : (mr_assoc_gateway_clear_old_nodes st asn).1.num_assigned_uplink_nodes =
      (clear_old_loop asn (st.active_schedule.n_cells * 5) st.num_assigned_uplink_nodes
        st.active_schedule.cells).2.1 := by
    unfold mr_assoc_gateway_clear_old_nodes
    simp only [hcount]
  have h3 : (mr_assoc_gateway_clear_old_nodes st asn).2 =
      (clear_old_loop asn (st.active_schedule.n_cells * 5) st.num_assigned_uplink_nodes
        st.active_schedule.cells).2.2 := by
    unfold mr_assoc_gateway_clear_old_nodes
    simp only [hcount]
  rw [h1, h2, h3, hloop]
  refine ⟨rfl, rfl, ?_, rfl⟩
  intro hk hc
  exact decrease_nodes_counter_iterate _ _ hk hc

/-- Witness for C15: the sweep at ASN 100 on the example gateway, where node 3 was last
heard at ASN 0 and node 7 at ASN 100, releases the cell of node 3 only. -/
theorem C15_sweep_releases_exactly_timed_out_cells_witness :
    (mr_assoc_gateway_clear_old_nodes example_gateway_full 100).1.num_assigned_uplink_nodes =
      example_gateway_full.num_assigned_uplink_nodes -
        example_gateway_full.active_schedule.cells.countP
          (cell_timed_out 100 example_gateway_full.active_schedule.n_cells) ∧
    (mr_assoc_gateway_clear_old_nodes example_gateway_full 100).2 =
      (example_gateway_full.active_schedule.cells.filter
        (cell_timed_out 100 example_gateway_full.active_schedule.n_cells)).map
        (fun c => (mr_event_t.MARI_NODE_LEFT,
          { node_id := c.assigned_node_id, tag := mr_event_tag_t.MARI_PEER_LOST_TIMEOUT })) :=
  ⟨(C15_sweep_releases_exactly_timed_out_cells example_gateway_full 100 (by decide) (by decide)
      (by decide)).2.2.1 (by decide) (by decide),
   (C15_sweep_releases_exactly_timed_out_cells example_gateway_full 100 (by decide) (by decide)
      (by decide)).2.2.2⟩

/-- C16 (the code at the failing input): the sweep at ASN 100 releases cell 5 of the
example gateway (node 3), and a deassignment with device id 7 releases cell 6; both
zero the node id and the last ASN of the cell, and both leave in `bloom_h1` and
`bloom_h2` the non-zero hashes cached when the cell was assigned. -/
theorem C16_release_keeps_cached_hashes :
    ((mr_assoc_gateway_clear_old_nodes example_gateway_full 100).1.cell 5).assigned_node_id = 0 ∧
    ((mr_assoc_gateway_clear_old_nodes example_gateway_full 100).1.cell 5).last_received_asn = 0 ∧
    ((mr_assoc_gateway_clear_old_nodes example_gateway_full 100).1.cell 5).bloom_h1 =
      mr_bloom_hash_fnv1a64 3 ∧
    ((mr_assoc_gateway_clear_old_nodes example_gateway_full 100).1.cell 5).bloom_h2 =
      mr_bloom_hash_fnv1a64 (3 ^^^ MARI_BLOOM_FNV1A_H2_SALT) ∧
    mr_bloom_hash_fnv1a64 3 ≠ 0 ∧
    mr_bloom_hash_fnv1a64 (3 ^^^ MARI_BLOOM_FNV1A_H2_SALT) ≠ 0 ∧
    ((mr_scheduler_node_deassign_myself_from_schedule example_gateway_full 7).cell 6).assigned_node_id
      = 0 ∧
    ((mr_scheduler_node_deassign_myself_from_schedule example_gateway_full 7).cell 6).bloom_h1 =
      mr_bloom_hash_fnv1a64 7 ∧
    mr_bloom_hash_fnv1a64 7 ≠ 0 := by
  decide

/-- C16 (amended): both release paths map every released cell to the same cell with
`assigned_node_id` and `last_received_asn` zeroed and every other field, `bloom_h1` and
`bloom_h2` included, unchanged; the node path releases the Uplink cells assigned to the
device id, the gateway sweep the Uplink cells that pass its timeout test. -/
theorem C16_release_zeroes_id_and_asn_only (st : schedule_vars_t) (device_id asn : Nat) :
    (mr_scheduler_node_deassign_myself_from_schedule st device_id).active_schedule.cells =
      st.active_schedule.cells.map (fun c =>
        if c.type = SLOT_TYPE_UPLINK ∧ c.assigned_node_id = device_id then released_cell c
        else c) ∧
    (mr_assoc_gateway_clear_old_nodes st asn).1.active_schedule.cells =
      st.active_schedule.cells.map (fun c =>
        if cell_expired asn
            (mr_scheduler_get_active_schedule_slot_count st * MARI_MAX_SLOTFRAMES_NO_RX_LEAVE) c
        then released_cell c else c) ∧
    (∀ c : cell_t, (released_cell c).assigned_node_id = 0 ∧
      (released_cell c).last_received_asn = 0 ∧
      (released_cell c).bloom_h1 = c.bloom_h1 ∧ (released_cell c).bloom_h2 = c.bloom_h2 ∧
      (released_cell c).type = c.type ∧ (released_cell c).channel_offset = c.channel_offset) := by
  refine ⟨?_, ?_, fun c => ⟨rfl, rfl, rfl, rfl, rfl, rfl⟩⟩
  · unfold mr_scheduler_node_deassign_myself_from_schedule
    exact node_deassign_loop_spec device_id st.active_schedule.cells
  · unfold mr_assoc_gateway_clear_old_nodes
    simp only [clear_old_loop_spec]

/-! ## Theorems: join backoff -/

theorem compute_backoff_random_time_eq (n r : Nat) (hn : n ≤ 8) :
    mr_assoc_node_compute_backoff_random_time n r = (r % 256) % 2 ^ n := by
  unfold mr_assoc_node_compute_backoff_random_time
  have h : n = 0 ∨ n = 1 ∨ n = 2 ∨ n = 3 ∨ n = 4 ∨ n = 5 ∨ n = 6 ∨ n = 7 ∨ n = 8 := by omega
  rcases h with rfl | rfl | rfl | rfl | rfl | rfl | rfl | rfl | rfl <;> rfl

theorem register_collision_backoff_step (av : assoc_vars_t) (r : Nat)
    (h4 : 4 ≤ av.backoff_n) (h6 : av.backoff_n ≤ 6) :
    (mr_assoc_node_register_collision_backoff av r).backoff_n = min (av.backoff_n + 1) 6 ∧
    (mr_assoc_node_register_collision_backoff av r).backoff_random_time =
      (r % 256) % 2 ^ (mr_assoc_node_register_collision_backoff av r).backoff_n.toNat := by
  have h : av.backoff_n = 4 ∨ av.backoff_n = 5 ∨ av.backoff_n = 6 := by omega
  have hn : (mr_assoc_node_register_collision_backoff av r).backoff_n =
      min (av.backoff_n + 1) 6 := by
    unfold mr_assoc_node_register_collision_backoff
    rcases h with h | h | h <;> rw [h] <;> rfl
  refine ⟨hn, ?_⟩
  have hr : (mr_assoc_node_register_collision_backoff av r).backoff_random_time =
      mr_assoc_node_compute_backoff_random_time
        (uint8_wrap (mr_assoc_node_register_collision_backoff av r).backoff_n) r := rfl
  rw [hr, hn]
  rcases h with h | h | h <;> rw [h] <;> exact compute_backoff_random_time_eq _ r (by decide)

/-- C19: for every random byte `r0` and every sequence `rs` of random bytes: entering
Synced sets `backoff_n = 4` and the wait counter to `r0 mod 16`; a collision registered
with `4 ≤ backoff_n ≤ 6` sets `backoff_n` to `min (backoff_n + 1) 6` and the wait counter
to the random byte modulo `2 ^ backoff_n`; and after any number of collisions
`backoff_n` is in `[4, 6]` and the wait counter is below `2 ^ backoff_n`. -/
theorem C19_backoff_window (av : assoc_vars_t) (r0 : Nat) (rs : List Nat) :
    (mr_assoc_node_init_backoff av r0).backoff_n = 4 ∧
    (mr_assoc_node_init_backoff av r0).backoff_random_time = (r0 % 256) % 16 ∧
    (∀ (a : assoc_vars_t) (r : Nat), 4 ≤ a.backoff_n → a.backoff_n ≤ 6 →
      (mr_assoc_node_register_collision_backoff a r).backoff_n = min (a.backoff_n + 1) 6 ∧
      (mr_assoc_node_register_collision_backoff a r).backoff_random_time =
        (r % 256) % 2 ^ (mr_assoc_node_register_collision_backoff a r).backoff_n.toNat) ∧
    4 ≤ (backoff_run av r0 rs).backoff_n ∧ (backoff_run av r0 rs).backoff_n ≤ 6 ∧
    (backoff_run av r0 rs).backoff_random_time < 2 ^ (backoff_run av r0 rs).backoff_n.toNat ∧
    (backoff_run av r0 rs).backoff_n = min (4 + (rs.length : Int)) 6 := by
  have hinit1 : (mr_assoc_node_init_backoff av r0).backoff_n = 4 := rfl
  have hinit2 : (mr_assoc_node_init_backoff av r0).backoff_random_time = (r0 % 256) % 16 :=
    compute_backoff_random_time_eq 4 r0 (by decide)
  have hrun : ∀ (l : List Nat) (a : assoc_vars_t), 4 ≤ a.backoff_n → a.backoff_n ≤ 6 →
      a.backoff_random_time < 2 ^ a.backoff_n.toNat →
      4 ≤ (l.foldl mr_assoc_node_register_collision_backoff a).backoff_n ∧
      (l.foldl mr_assoc_node_register_collision_backoff a).backoff_n ≤ 6 ∧
      (l.foldl mr_assoc_node_register_collision_backoff a).backoff_random_time <
        2 ^ (l.foldl mr_assoc_node_register_collision_backoff a).backoff_n.toNat ∧
      (l.foldl mr_assoc_node_register_collision_backoff a).backoff_n =
        min (a.backoff_n + (l.length : Int)) 6 := by
    intro l
    induction l with
    | nil =>
      intro a h4 h6 hw
      refine ⟨h4, h6, hw, ?_⟩
      simp only [List.foldl_nil, List.length_nil]
      omega
    | cons r rest ih =>
      intro a h4 h6 _
      rw [List.foldl_cons]
      obtain ⟨hs1, hs2⟩ := register_collision_backoff_step a r h4 h6
      have h4' : 4 ≤ (mr_assoc_node_register_collision_backoff a r).backoff_n := by
        rw [hs1]; omega
      have h6' : (mr_assoc_node_register_collision_backoff a r).backoff_n ≤ 6 := by
        rw [hs1]; omega
      have hw' : (mr_assoc_node_register_collision_backoff a r).backoff_random_time <
          2 ^ (mr_assoc_node_register_collision_backoff a r).backoff_n.toNat := by
        rw [hs2]
        exact Nat.mod_lt _ (Nat.pow_pos (by decide))
      obtain ⟨i1, i2, i3, i4⟩ := ih _ h4' h6' hw'
      refine ⟨i1, i2, i3, ?_⟩
      rw [i4, hs1]
      simp only [List.length_cons]
      push_cast
      omega
  have hw0 : (mr_assoc_node_init_backoff av r0).backoff_random_time <
      2 ^ (mr_assoc_node_init_backoff av r0).backoff_n.toNat := by
    rw [hinit2, hinit1]
    exact Nat.mod_lt _ (by decide)
  obtain ⟨i1, i2, i3, i4⟩ := hrun rs (mr_assoc_node_init_backoff av r0)
    (by rw [hinit1]) (by rw [hinit1]; decide) hw0
  refine ⟨hinit1, hinit2, fun a r h4 h6 => register_collision_backoff_step a r h4 h6,
    i1, i2, i3, ?_⟩
  unfold backoff_run
  rw [i4, hinit1]

/-! ## Theorems: frames as bytes -/

theorem mr_packet_header_bytes_length (h : mr_packet_header_t) :
    h.bytes.length = sizeof_mr_packet_header_t := by
  simp [mr_packet_header_t.bytes, le_bytes, sizeof_mr_packet_header_t, sizeof_enum]

theorem mr_packet_header_of_bytes_bytes (h : mr_packet_header_t) (rest : List Nat) :
    mr_packet_header_t.of_bytes (h.bytes ++ rest) =
      { version := h.version % 256
        type := h.type % 2 ^ 32
        network_id := h.network_id % 2 ^ 16
        dst := h.dst % 2 ^ 64
        src := h.src % 2 ^ 64
        stats_rssi := h.stats_rssi % 256 } := by
  simp only [mr_packet_header_t.of_bytes, mr_packet_header_t.bytes, le_bytes, read_le,
    sizeof_enum, List.range, List.range.loop, List.map, List.foldr, List.cons_append,
    List.nil_append, List.getD_cons_zero, List.getD_cons_succ, Nat.add_zero, Nat.zero_add]
  simp only [mr_packet_header_t.mk.injEq]
  refine ⟨?_, ?_, ?_, ?_, ?_, ?_⟩ <;> omega

/-! ## Theorems: join request on a SharedUplink slot -/

theorem mr_queue_get_join_request (q0 : queue_vars_t) (q : queue_vars_t)
    (gateway device_id network_id : Nat) (packet : List Nat)
    (hq : q.join_packet =
      (mr_queue_set_join_request q0 gateway device_id network_id).join_packet) :
    (mr_queue_get_join_packet q packet).1 = sizeof_mr_packet_header_t ∧
    (mr_queue_get_join_packet q packet).2.1 =
      ({ version := MARI_PROTOCOL_VERSION, type := MARI_PACKET_JOIN_REQUEST,
         network_id := network_id, dst := gateway, src := device_id,
         stats_rssi := 0 } : mr_packet_header_t).bytes ++
        packet.drop sizeof_mr_packet_header_t ∧
    (mr_queue_get_join_packet q packet).2.2.join_packet.length = 0 ∧
    (mr_queue_get_join_packet q packet).2.2.packet_queue = q.packet_queue ∧
    (mr_queue_get_join_packet q packet).2.2.queue_locked = q.queue_locked := by
  have hlen := mr_packet_header_bytes_length
    { version := MARI_PROTOCOL_VERSION, type := MARI_PACKET_JOIN_REQUEST,
      network_id := network_id, dst := gateway, src := device_id, stats_rssi := 0 }
  have hjl : q.join_packet.length = sizeof_mr_packet_header_t := by
    rw [hq]; rfl
  have hjb : q.join_packet.buffer =
      ({ version := MARI_PROTOCOL_VERSION, type := MARI_PACKET_JOIN_REQUEST,
         network_id := network_id, dst := gateway, src := device_id,
         stats_rssi := 0 } : mr_packet_header_t).bytes ++
        q0.join_packet.buffer.drop sizeof_mr_packet_header_t := by
    rw [hq]
    show memcpy _ _ _ = _
    unfold memcpy
    rw [List.take_of_length_le (by rw [hlen])]
  refine ⟨hjl, ?_, rfl, rfl, rfl⟩
  show memcpy packet q.join_packet.buffer q.join_packet.length = _
  unfold memcpy
  rw [hjl, hjb, List.take_append_of_le_length (by rw [hlen]),
    List.take_of_length_le (by rw [hlen])]

/-- C20: on a node whose join holder contains the join request built for the synced
gateway, `mr_queue_next_packet` on a SharedUplink slot behaves as follows.  If the state
is Synced and the wait counter is 0, it returns the length of the common header (not
zero), the caller's buffer starts with a header of type JoinRequest whose destination is
the synced gateway, the state becomes Joining with deadline `now + 2670` (on 32 bits),
and the holder is emptied.  Otherwise it returns length 0 and leaves the caller's
buffer, the queue (the holder included) and the association state unchanged. -/
theorem C20_shared_uplink_sends_join_request (env : mari_env_t) (st : schedule_vars_t)
    (bv : bloom_vars_t) (q q0 : queue_vars_t) (av : assoc_vars_t) (packet : List Nat)
    (network_id : Nat)
    (hnode : env.node_type = MARI_NODE)
    (hq : q.join_packet =
      (mr_queue_set_join_request q0 env.synced_gateway env.device_id network_id).join_packet) :
    MARI_JOINING_STATE_TIMEOUT = 2670 ∧
    ((av.state = JOIN_STATE_SYNCED ∧ av.backoff_random_time = 0) →
      (mr_queue_next_packet env st bv q av SLOT_TYPE_SHARED_UPLINK packet).1 =
        sizeof_mr_packet_header_t ∧
      (mr_queue_next_packet env st bv q av SLOT_TYPE_SHARED_UPLINK packet).1 ≠ 0 ∧
      (mr_packet_header_t.of_bytes
        (mr_queue_next_packet env st bv q av SLOT_TYPE_SHARED_UPLINK packet).2.1).type =
          MARI_PACKET_JOIN_REQUEST ∧
      (mr_packet_header_t.of_bytes
        (mr_queue_next_packet env st bv q av SLOT_TYPE_SHARED_UPLINK packet).2.1).dst =
          env.synced_gateway % 2 ^ 64 ∧
      (mr_queue_next_packet env st bv q av SLOT_TYPE_SHARED_UPLINK packet).2.2.2.state =
        JOIN_STATE_JOINING ∧
      (mr_queue_next_packet env st bv q av SLOT_TYPE_SHARED_UPLINK packet).2.2.2.join_response_timeout_ts
        = (env.now_ts + 2670) % 2 ^ 32 ∧
      (mr_queue_next_packet env st bv q av SLOT_TYPE_SHARED_UPLINK packet).2.2.1.join_packet.length
        = 0) ∧
    (¬ (av.state = JOIN_STATE_SYNCED ∧ av.backoff_random_time = 0) →
      mr_queue_next_packet env st bv q av SLOT_TYPE_SHARED_UPLINK packet = (0, packet, q, av)) := by
  have hng : ¬ env.node_type = MARI_GATEWAY := by rw [hnode]; decide
  refine ⟨rfl, ?_, ?_⟩
  · intro hready
    have hr : mr_assoc_node_ready_to_join av = true := by
      simp [mr_assoc_node_ready_to_join, hready.1, hready.2]
    have hnext : mr_queue_next_packet env st bv q av SLOT_TYPE_SHARED_UPLINK packet =
        ((mr_queue_get_join_packet q packet).1, (mr_queue_get_join_packet q packet).2.1,
         (mr_queue_get_join_packet q packet).2.2,
         mr_assoc_node_start_joining av env.now_ts env.now_ts_state) := by
      unfold mr_queue_next_packet
      rw [if_neg hng, if_pos rfl, if_pos hr]
    obtain ⟨g1, g2, g3, _, _⟩ :=
      mr_queue_get_join_request q0 q env.synced_gateway env.device_id network_id packet hq
    rw [hnext]
    simp only []
    rw [g1, g2, mr_packet_header_of_bytes_bytes]
    exact ⟨rfl, by decide, rfl, rfl, rfl, rfl, g3⟩
  · intro hnot
    have hr : mr_assoc_node_ready_to_join av = false := by
      simp only [mr_assoc_node_ready_to_join, decide_eq_false_iff_not]
      exact hnot
    unfold mr_queue_next_packet
    rw [if_neg hng, if_pos rfl, hr]
    rfl

/-- Witness for C20: the example node in state Synced with wait 0 sends its join
request at time 5000 and waits for the response until 7670. -/
theorem C20_shared_uplink_sends_join_request_witness :
    (mr_queue_next_packet example_node_env example_gateway example_bloom example_queue_join
      example_assoc_synced SLOT_TYPE_SHARED_UPLINK []).1 = sizeof_mr_packet_header_t ∧
    (mr_queue_next_packet example_node_env example_gateway example_bloom example_queue_join
      example_assoc_synced SLOT_TYPE_SHARED_UPLINK []).2.2.2.join_response_timeout_ts =
        (example_node_env.now_ts + 2670) % 2 ^ 32 :=
  ⟨((C20_shared_uplink_sends_join_request example_node_env example_gateway example_bloom
      example_queue_join example_queue example_assoc_synced [] 1 rfl rfl).2.1
        ⟨rfl, rfl⟩).1,
   ((C20_shared_uplink_sends_join_request example_node_env example_gateway example_bloom
      example_queue_join example_queue example_assoc_synced [] 1 rfl rfl).2.1
        ⟨rfl, rfl⟩).2.2.2.2.2.1⟩

/-! ## Theorems: beacons at a node -/

theorem mr_assoc_handle_beacon_accepted (env : mari_env_t) (av : assoc_vars_t)
    (sv : scan_vars_t) (packet : List Nat) (channel ts : Nat)
    (htype : packet.getD 1 0 = MARI_PACKET_BEACON)
    (hver : (mr_beacon_packet_header_t.of_bytes packet).version = MARI_PROTOCOL_VERSION)
    (hnet : mr_assoc_node_matches_network_id av
      (mr_beacon_packet_header_t.of_bytes packet).network_id = true) :
    mr_assoc_handle_beacon env av sv packet channel ts =
      if (decide ((mr_beacon_packet_header_t.of_bytes packet).src = env.synced_gateway) = true) ∧
          mr_assoc_is_joined av = true ∧
          ¬ mr_bloom_node_contains env.device_id
            (mr_beacon_packet_header_t.of_bytes packet).bloom_filter = true then
        ({ av with is_pending_disconnect := mr_event_tag_t.MARI_PEER_LOST_BLOOM }, sv)
      else
        let av1 :=
          if (decide ((mr_beacon_packet_header_t.of_bytes packet).src = env.synced_gateway)
              = true) ∧ mr_assoc_is_joined av = true then
            mr_assoc_node_keep_gateway_alive av env.asn
          else av
        let av2 :=
          if (decide ((mr_beacon_packet_header_t.of_bytes packet).src = env.synced_gateway)
              = true) ∧ av1.state.val ≥ JOIN_STATE_SYNCED.val then
            { av1 with synced_gateway_remaining_capacity :=
                (mr_beacon_packet_header_t.of_bytes packet).remaining_capacity }
          else av1
        if (mr_beacon_packet_header_t.of_bytes packet).remaining_capacity = 0 then
          (av2, sv)
        else
          (av2, mr_scan_add sv (mr_beacon_packet_header_t.of_bytes packet) env.radio_rssi
            channel ts 0) := by
  unfold mr_assoc_handle_beacon
  rw [if_neg (by rw [htype]; exact fun h => h rfl)]
  simp only []
  rw [if_neg (by rw [hver]; exact fun h => h rfl), if_neg (by rw [hnet]; exact fun h => h rfl)]

/-- C17: a node in state Joined receives a beacon frame with the protocol version, a
network id it accepts, and its synced gateway as source.  If the bloom filter of the
beacon does not contain the node's id, the only change is that the pending-disconnect
reason becomes PeerLostBloom (the keep-alive ASN and the scan table are as before);
then `mr_assoc_node_should_leave` returns true for every ASN without changing the
state, and `mr_assoc_node_handle_pending_disconnect` raises exactly one Disconnected
event with the synced gateway and PeerLostBloom and sets the state to Idle.  If the
filter contains the id, the pending-disconnect reason and the state are as before and
the keep-alive ASN is the current ASN (stored on 32 bits). -/
theorem C17_bloom_miss_disconnects (env env2 : mari_env_t) (av : assoc_vars_t)
    (sv : scan_vars_t) (st : schedule_vars_t) (packet : List Nat) (channel ts : Nat)
    (hjoined : av.state = JOIN_STATE_JOINED)
    (htype : packet.getD 1 0 = MARI_PACKET_BEACON)
    (hver : (mr_beacon_packet_header_t.of_bytes packet).version = MARI_PROTOCOL_VERSION)
    (hnet : mr_assoc_node_matches_network_id av
      (mr_beacon_packet_header_t.of_bytes packet).network_id = true)
    (hsrc : (mr_beacon_packet_header_t.of_bytes packet).src = env.synced_gateway) :
    (mr_bloom_node_contains env.device_id
        (mr_beacon_packet_header_t.of_bytes packet).bloom_filter = false →
      mr_assoc_handle_beacon env av sv packet channel ts =
        ({ av with is_pending_disconnect := mr_event_tag_t.MARI_PEER_LOST_BLOOM }, sv) ∧
      (mr_assoc_handle_beacon env av sv packet channel ts).1.last_received_from_gateway_asn =
        av.last_received_from_gateway_asn ∧
      (∀ asn, mr_assoc_node_should_leave
          (mr_assoc_handle_beacon env av sv packet channel ts).1 st asn =
        (true, (mr_assoc_handle_beacon env av sv packet channel ts).1)) ∧
      (mr_assoc_node_handle_pending_disconnect env2
          (mr_assoc_handle_beacon env av sv packet channel ts).1 st).2.2 =
        [(mr_event_t.MARI_DISCONNECTED,
          { node_id := env2.synced_gateway, tag := mr_event_tag_t.MARI_PEER_LOST_BLOOM })] ∧
      (mr_assoc_node_handle_pending_disconnect env2
          (mr_assoc_handle_beacon env av sv packet channel ts).1 st).1.state =
        JOIN_STATE_IDLE) ∧
    (mr_bloom_node_contains env.device_id
        (mr_beacon_packet_header_t.of_bytes packet).bloom_filter = true →
      (mr_assoc_handle_beacon env av sv packet channel ts).1.is_pending_disconnect =
        av.is_pending_disconnect ∧
      (mr_assoc_handle_beacon env av sv packet channel ts).1.state = JOIN_STATE_JOINED ∧
      (mr_assoc_handle_beacon env av sv packet channel ts).1.last_received_from_gateway_asn =
        env.asn % 2 ^ 32) := by
  have hj : mr_assoc_is_joined av = true := by
    simp [mr_assoc_is_joined, hjoined]
  have hfrom : decide ((mr_beacon_packet_header_t.of_bytes packet).src = env.synced_gateway)
      = true := by
    simp [hsrc]
  rw [mr_assoc_handle_beacon_accepted env av sv packet channel ts htype hver hnet]
  constructor
  · intro hmiss
    rw [if_pos ⟨hfrom, hj, by rw [hmiss]; exact fun h => Bool.noConfusion h⟩]
    refine ⟨rfl, rfl, ?_, rfl, rfl⟩
    intro asn
    unfold mr_assoc_node_should_leave
    rw [if_neg (fun h => h hjoined), if_pos (by simp)]
  · intro hhit
    have hc2 : decide ((mr_beacon_packet_header_t.of_bytes packet).src = env.synced_gateway)
        = true ∧ mr_assoc_is_joined av = true := ⟨hfrom, hj⟩
    have hc3 : decide ((mr_beacon_packet_header_t.of_bytes packet).src = env.synced_gateway)
        = true ∧ (mr_assoc_node_keep_gateway_alive av env.asn).state.val ≥
          JOIN_STATE_SYNCED.val := by
      refine ⟨hfrom, ?_⟩
      show av.state.val ≥ JOIN_STATE_SYNCED.val
      rw [hjoined]; decide
    rw [if_neg (fun h => h.2.2 hhit)]
    simp only [if_pos hc2, if_pos hc3]
    split_ifs <;> exact ⟨rfl, hjoined, rfl⟩

/-- Witness for C17: the example node, Joined to gateway 1, receives a beacon of
gateway 1 with an all-zero filter. -/
theorem C17_bloom_miss_disconnects_witness :
    mr_assoc_handle_beacon example_node_env example_assoc_joined example_scan_tie
        (example_beacon_frame 1 (List.replicate 128 0)) 37 100 =
      ({ example_assoc_joined with is_pending_disconnect := mr_event_tag_t.MARI_PEER_LOST_BLOOM },
        example_scan_tie) ∧
    (mr_assoc_node_handle_pending_disconnect example_node_env
        (mr_assoc_handle_beacon example_node_env example_assoc_joined example_scan_tie
          (example_beacon_frame 1 (List.replicate 128 0)) 37 100).1 example_gateway).2.2 =
      [(mr_event_t.MARI_DISCONNECTED,
        { node_id := example_node_env.synced_gateway,
          tag := mr_event_tag_t.MARI_PEER_LOST_BLOOM })] :=
  ⟨((C17_bloom_miss_disconnects example_node_env example_node_env example_assoc_joined
      example_scan_tie example_gateway (example_beacon_frame 1 (List.replicate 128 0)) 37 100
      rfl rfl rfl rfl rfl).1 rfl).1,
   ((C17_bloom_miss_disconnects example_node_env example_node_env example_assoc_joined
      example_scan_tie example_gateway (example_beacon_frame 1 (List.replicate 128 0)) 37 100
      rfl rfl rfl rfl rfl).1 rfl).2.2.2.1⟩

/-- C18: on a node whose network id is neither 0 nor the network id of a received
frame, `mr_assoc_handle_beacon` returns the association state (state, pending reason,
keep-alive ASN, remaining capacity and all other fields) and the scan table unchanged,
and `mr_handle_packet` returns false, changes no module state and raises no event;
and a node whose network id is 0 accepts every network id. -/
theorem C18_foreign_network_beacon_ignored (env : mari_env_t) (s : mari_state_t)
    (packet : List Nat) (length channel ts : Nat)
    (hnode : env.node_type = MARI_NODE)
    (h0 : s.assoc.network_id ≠ MARI_NET_ID_PATTERN_ANY)
    (hne : s.assoc.network_id ≠ (mr_beacon_packet_header_t.of_bytes packet).network_id) :
    mr_assoc_handle_beacon env s.assoc s.scan packet channel ts = (s.assoc, s.scan) ∧
    mr_handle_packet env s packet length = (false, s, []) ∧
    (∀ (av : assoc_vars_t) (n : Nat), av.network_id = MARI_NET_ID_PATTERN_ANY →
      mr_assoc_node_matches_network_id av n = true) := by
  have hm : mr_assoc_node_matches_network_id s.assoc
      (mr_beacon_packet_header_t.of_bytes packet).network_id = false := by
    unfold mr_assoc_node_matches_network_id
    rw [if_neg h0]
    simp [hne]
  have hm2 : mr_assoc_node_matches_network_id s.assoc
      (mr_packet_header_t.of_bytes packet).network_id = false := hm
  refine ⟨?_, ?_, ?_⟩
  · unfold mr_assoc_handle_beacon
    by_cases h1 : packet.getD 1 0 ≠ MARI_PACKET_BEACON
    · rw [if_pos h1]
    · rw [if_neg h1]
      simp only []
      by_cases h2 : (mr_beacon_packet_header_t.of_bytes packet).version ≠ MARI_PROTOCOL_VERSION
      · rw [if_pos h2]
      · rw [if_neg h2, if_pos (by rw [hm]; exact fun h => Bool.noConfusion h)]
  · unfold mr_handle_packet
    simp only []
    split_ifs with h1 h2
    · rfl
    · exfalso; rw [hnode] at h2; exact mr_node_type_t.noConfusion h2
    · unfold mr_handle_packet_node
      simp only []
      rw [if_pos (by rw [hm2]; exact fun h => Bool.noConfusion h)]
  · intro av n h
    unfold mr_assoc_node_matches_network_id
    rw [if_pos h]

/-- Witness for C18: the example node on network 1 receives a beacon of network 2. -/
theorem C18_foreign_network_beacon_ignored_witness :
    mr_assoc_handle_beacon example_node_env example_node_state.assoc example_node_state.scan
        (example_beacon_frame 2 (List.replicate 128 0)) 37 100 =
      (example_node_state.assoc, example_node_state.scan) ∧
    mr_handle_packet example_node_env example_node_state
        (example_beacon_frame 2 (List.replicate 128 0)) 153 =
      (false, example_node_state, []) :=
  ⟨(C18_foreign_network_beacon_ignored example_node_env example_node_state
      (example_beacon_frame 2 (List.replicate 128 0)) 153 37 100 rfl (by decide) (by decide)).1,
   (C18_foreign_network_beacon_ignored example_node_env example_node_state
      (example_beacon_frame 2 (List.replicate 128 0)) 153 37 100 rfl (by decide) (by decide)).2.1⟩

/-! ## Theorems: insertion into the scan table -/

theorem save_rssi_length (sv : scan_vars_t) (idx : Nat) (beacon : mr_beacon_packet_header_t)
    (rssi : Int) (channel ts_scan asn_scan : Nat) :
    (_save_rssi sv idx beacon rssi channel ts_scan asn_scan).scans.length = sv.scans.length := by
  simp [_save_rssi]

theorem save_rssi_entry (sv : scan_vars_t) (idx : Nat) (beacon : mr_beacon_packet_header_t)
    (rssi : Int) (channel ts_scan asn_scan : Nat) (j : Nat) :
    (_save_rssi sv idx beacon rssi channel ts_scan asn_scan).entry j =
      if idx = j ∧ idx < sv.scans.length then
        saved_entry (sv.entry idx) beacon rssi channel ts_scan asn_scan
      else sv.entry j := by
  unfold _save_rssi scan_vars_t.entry
  simp only []
  rw [getD_set_eq]
  rfl

theorem scan_add_step_sv (beacon : mr_beacon_packet_header_t) (rssi : Int)
    (channel ts_scan asn_scan : Nat) (v : scan_add_vars_t) (i : Nat) :
    (scan_add_step beacon rssi channel ts_scan asn_scan v i).sv.scans.length =
      v.sv.scans.length ∧
    (∀ j, (scan_add_step beacon rssi channel ts_scan asn_scan v i).sv.entry j =
      if i = j ∧ i < v.sv.scans.length ∧ (v.sv.entry i).gateway_id = beacon.src then
        saved_entry (v.sv.entry i) beacon rssi channel ts_scan asn_scan
      else v.sv.entry j) ∧
    (scan_add_step beacon rssi channel ts_scan asn_scan v i).found =
      (v.found || decide ((v.sv.entry i).gateway_id = beacon.src)) := by
  unfold scan_add_step
  by_cases hm : (v.sv.entry i).gateway_id = beacon.src
  · rw [if_pos hm]
    refine ⟨save_rssi_length _ _ _ _ _ _ _, ?_, by simp [hm]⟩
    intro j
    rw [save_rssi_entry]
    by_cases h : i = j ∧ i < v.sv.scans.length
    · rw [if_pos h, if_pos ⟨h.1, h.2, hm⟩]
    · rw [if_neg h, if_neg (fun h' => h ⟨h'.1, h'.2.1⟩)]
  · rw [if_neg hm]
    have hsv : ∀ w : scan_add_vars_t, w.sv = v.sv → w.found = v.found →
        w.sv.scans.length = v.sv.scans.length ∧
        (∀ j, w.sv.entry j =
          if i = j ∧ i < v.sv.scans.length ∧ (v.sv.entry i).gateway_id = beacon.src then
            saved_entry (v.sv.entry i) beacon rssi channel ts_scan asn_scan
          else v.sv.entry j) ∧
        w.found = (v.found || decide ((v.sv.entry i).gateway_id = beacon.src)) := by
      intro w h1 h2
      refine ⟨by rw [h1], ?_, by simp [h2, hm]⟩
      intro j
      rw [if_neg (fun h' => hm h'.2.2), h1]
    apply hsv
    · simp only []
      split_ifs <;> rfl
    · simp only []
      split_ifs <;> rfl

theorem scan_add_fold_sv (beacon : mr_beacon_packet_header_t) (rssi : Int)
    (channel ts_scan asn_scan : Nat) (l : List Nat) :
    l.Nodup → ∀ v : scan_add_vars_t,
    (l.foldl (scan_add_step beacon rssi channel ts_scan asn_scan) v).sv.scans.length =
      v.sv.scans.length ∧
    (∀ j, (l.foldl (scan_add_step beacon rssi channel ts_scan asn_scan) v).sv.entry j =
      if j ∈ l ∧ j < v.sv.scans.length ∧ (v.sv.entry j).gateway_id = beacon.src then
        saved_entry (v.sv.entry j) beacon rssi channel ts_scan asn_scan
      else v.sv.entry j) ∧
    (l.foldl (scan_add_step beacon rssi channel ts_scan asn_scan) v).found =
      (v.found || l.any (fun i => decide ((v.sv.entry i).gateway_id = beacon.src))) := by
  induction l with
  | nil =>
    intro _ v
    refine ⟨rfl, ?_, by simp⟩
    intro j
    rw [if_neg (by simp)]
    rfl
  | cons x rest ih =>
    intro hnd v
    have hx : x ∉ rest := (List.nodup_cons.1 hnd).1
    obtain ⟨s1, s2, s3⟩ := scan_add_step_sv beacon rssi channel ts_scan asn_scan v x
    obtain ⟨i1, i2, i3⟩ := ih (List.nodup_cons.1 hnd).2
      (scan_add_step beacon rssi channel ts_scan asn_scan v x)
    rw [List.foldl_cons]
    have hgw : ∀ j, j ≠ x →
        (scan_add_step beacon rssi channel ts_scan asn_scan v x).sv.entry j = v.sv.entry j := by
      intro j hj
      rw [s2 j, if_neg (fun h => hj h.1.symm)]
    refine ⟨by rw [i1, s1], ?_, ?_⟩
    · intro j
      rw [i2 j]
      by_cases hj : j = x
      · subst hj
        rw [if_neg (fun h => hx h.1), s2 j]
        by_cases h : j < v.sv.scans.length ∧ (v.sv.entry j).gateway_id = beacon.src
        · rw [if_pos ⟨rfl, h.1, h.2⟩, if_pos ⟨List.mem_cons_self _ _, h.1, h.2⟩]
        · rw [if_neg (fun h' => h ⟨h'.2.1, h'.2.2⟩), if_neg (fun h' => h ⟨h'.2.1, h'.2.2⟩)]
      · rw [hgw j hj, s1]
        by_cases h : j ∈ rest ∧ j < v.sv.scans.length ∧ (v.sv.entry j).gateway_id = beacon.src
        · rw [if_pos h, if_pos ⟨List.mem_cons_of_mem _ h.1, h.2.1, h.2.2⟩]
        · rw [if_neg h, if_neg]
          intro h'
          rcases List.mem_cons.1 h'.1 with h1 | h1
          · exact hj h1
          · exact h ⟨h1, h'.2.1, h'.2.2⟩
    · rw [i3, s3]
      have hany : rest.any (fun i => decide
            (((scan_add_step beacon rssi channel ts_scan asn_scan v x).sv.entry i).gateway_id
              = beacon.src)) =
          rest.any (fun i => decide ((v.sv.entry i).gateway_id = beacon.src)) := by
        rw [Bool.eq_iff_iff]
        simp only [List.any_eq_true, decide_eq_true_eq]
        constructor
        · rintro ⟨i, hi, h⟩
          rw [hgw i (fun h => hx (h ▸ hi))] at h
          exact ⟨i, hi, h⟩
        · rintro ⟨i, hi, h⟩
          refine ⟨i, hi, ?_⟩
          rw [hgw i (fun h => hx (h ▸ hi))]
          exact h
      rw [hany, List.any_cons, Bool.or_assoc]

theorem mr_scan_add_found (sv : scan_vars_t) (beacon : mr_beacon_packet_header_t) (rssi : Int)
    (channel ts_scan asn_scan k : Nat)
    (hlen : sv.scans.length = MARI_MAX_SCAN_LIST_SIZE)
    (hk : k < MARI_MAX_SCAN_LIST_SIZE) (hgw : (sv.entry k).gateway_id = beacon.src) :
    (mr_scan_add sv beacon rssi channel ts_scan asn_scan).scans.length =
      MARI_MAX_SCAN_LIST_SIZE ∧
    ∀ i, i < MARI_MAX_SCAN_LIST_SIZE →
      (mr_scan_add sv beacon rssi channel ts_scan asn_scan).entry i =
        if (sv.entry i).gateway_id = beacon.src then
          saved_entry (sv.entry i) beacon rssi channel ts_scan asn_scan
        else sv.entry i := by
  obtain ⟨f1, f2, f3⟩ := scan_add_fold_sv beacon rssi channel ts_scan asn_scan
    (List.range MARI_MAX_SCAN_LIST_SIZE) (List.nodup_range _)
    { sv := sv, found := false, empty_spot_idx := -1, ts_oldest_all := ts_scan,
      ts_oldest_all_idx := 0 }
  have hfound : ((List.range MARI_MAX_SCAN_LIST_SIZE).foldl
      (scan_add_step beacon rssi channel ts_scan asn_scan)
      { sv := sv, found := false, empty_spot_idx := -1, ts_oldest_all := ts_scan,
        ts_oldest_all_idx := 0 }).found = true := by
    rw [f3]
    simp only [Bool.false_or, List.any_eq_true, decide_eq_true_eq]
    exact ⟨k, List.mem_range.2 hk, hgw⟩
  have hres : mr_scan_add sv beacon rssi channel ts_scan asn_scan =
      ((List.range MARI_MAX_SCAN_LIST_SIZE).foldl
        (scan_add_step beacon rssi channel ts_scan asn_scan)
        { sv := sv, found := false, empty_spot_idx := -1, ts_oldest_all := ts_scan,
          ts_oldest_all_idx := 0 }).sv := by
    unfold mr_scan_add
    exact if_pos hfound
  rw [hres]
  refine ⟨by rw [f1]; exact hlen, ?_⟩
  intro i hi
  rw [f2 i]
  simp only []
  by_cases h : (sv.entry i).gateway_id = beacon.src
  · rw [if_pos ⟨List.mem_range.2 hi, by rw [hlen]; exact hi, h⟩, if_pos h]
  · rw [if_neg (fun h' => h h'.2.2), if_neg h]

/-- C11: when the source of the beacon is the gateway id of entry `k` of the
five-entry scan table and the channel is 37, 38 or 39, `mr_scan_add` keeps the table at
five entries, leaves every entry with another gateway id as it is, and in an entry with
that gateway id replaces the sample at index `channel - 37` by the new RSSI, timestamp,
ASN and beacon header without bloom filter, keeping the gateway id and the samples at the
other indices; no gateway id of the table changes. -/
theorem C11_scan_add_known_gateway (sv : scan_vars_t) (beacon : mr_beacon_packet_header_t)
    (rssi : Int) (channel ts_scan asn_scan k : Nat)
    (hlen : sv.scans.length = MARI_MAX_SCAN_LIST_SIZE)
    (hk : k < MARI_MAX_SCAN_LIST_SIZE) (hgw : (sv.entry k).gateway_id = beacon.src)
    (hch : channel = 37 ∨ channel = 38 ∨ channel = 39) :
    (mr_scan_add sv beacon rssi channel ts_scan asn_scan).scans.length =
      MARI_MAX_SCAN_LIST_SIZE ∧
    (∀ i, i < MARI_MAX_SCAN_LIST_SIZE → (sv.entry i).gateway_id ≠ beacon.src →
      (mr_scan_add sv beacon rssi channel ts_scan asn_scan).entry i = sv.entry i) ∧
    (∀ i, i < MARI_MAX_SCAN_LIST_SIZE → (sv.entry i).gateway_id = beacon.src →
      (mr_scan_add sv beacon rssi channel ts_scan asn_scan).entry i =
        { sv.entry i with
            channel_info := (sv.entry i).channel_info.set (channel - 37)
              (scan_sample beacon rssi ts_scan asn_scan) }) ∧
    (∀ i, i < MARI_MAX_SCAN_LIST_SIZE →
      ((mr_scan_add sv beacon rssi channel ts_scan asn_scan).entry i).gateway_id =
        (sv.entry i).gateway_id) ∧
    (∀ j, j ≠ channel - 37 →
      ((mr_scan_add sv beacon rssi channel ts_scan asn_scan).entry k).info j =
        (sv.entry k).info j) ∧
    (channel - 37 < (sv.entry k).channel_info.length →
      ((mr_scan_add sv beacon rssi channel ts_scan asn_scan).entry k).info (channel - 37) =
        { rssi := rssi, timestamp := ts_scan, captured_asn := asn_scan,
          beacon :=
            { version := beacon.version, type := beacon.type, network_id := beacon.network_id,
              asn := beacon.asn, src := beacon.src,
              remaining_capacity := beacon.remaining_capacity,
              active_schedule_id := beacon.active_schedule_id } }) := by
  obtain ⟨h1, h2⟩ := mr_scan_add_found sv beacon rssi channel ts_scan asn_scan k hlen hk hgw
  have hidx : channel % MARI_N_BLE_REGULAR_CHANNELS = channel - 37 := by
    unfold MARI_N_BLE_REGULAR_CHANNELS
    rcases hch with h | h | h <;> rw [h]
  have hsaved : ∀ e : mr_gateway_scan_t,
      saved_entry e beacon rssi channel ts_scan asn_scan =
        { e with
            channel_info :=
              (e.channel_info.set (channel - 37) (scan_sample beacon rssi ts_scan asn_scan)) } := by
    intro e
    unfold saved_entry
    rw [hidx]
  have hkk := h2 k hk
  rw [if_pos hgw, hsaved] at hkk
  refine ⟨h1, ?_, ?_, ?_, ?_, ?_⟩
  · intro i hi hne
    rw [h2 i hi, if_neg hne]
  · intro i hi he
    rw [h2 i hi, if_pos he, hsaved]
  · intro i hi
    rw [h2 i hi]
    split_ifs
    · rw [hsaved]
    · rfl
  · intro j hj
    rw [hkk]
    unfold mr_gateway_scan_t.info
    simp only []
    rw [getD_set_eq, if_neg (fun h => hj h.1.symm)]
  · intro hlt
    rw [hkk]
    unfold mr_gateway_scan_t.info
    simp only []
    rw [getD_set_eq, if_pos ⟨rfl, hlt⟩]
    rfl

/-- Witness for C11: a new beacon of gateway 2 on channel 38 is added to
`example_scan_tie`, where gateway 2 is entry 1. -/
theorem C11_scan_add_known_gateway_witness :
    (mr_scan_add example_scan_tie (example_beacon 2) (-60) 38 50 0).entry 0 =
      example_scan_tie.entry 0 ∧
    (mr_scan_add example_scan_tie (example_beacon 2) (-60) 38 50 0).entry 1 =
      { example_scan_tie.entry 1 with
          channel_info := (example_scan_tie.entry 1).channel_info.set (38 - 37)
            (scan_sample (example_beacon 2) (-60) 50 0) } :=
  ⟨(C11_scan_add_known_gateway example_scan_tie (example_beacon 2) (-60) 38 50 0 1
      rfl (by decide) rfl (by decide)).2.1 0 (by decide) (by decide),
   (C11_scan_add_known_gateway example_scan_tie (example_beacon 2) (-60) 38 50 0 1
      rfl (by decide) rfl (by decide)).2.2.1 1 (by decide) rfl⟩

/-- C12 (the code at the failing input): the scan table is full and was filled shortly
before the 32-bit timer wrapped; the latest samples of its entries have timestamps
4294960000, 4294900000, 4294910000, 4294920000 and 4294930000, so entry 1 (gateway 2)
holds the oldest one.  A beacon of the unknown gateway 6 arrives at timestamp 5000.  No
stored timestamp is below 5000, the index of the oldest entry stays at its initial value
0, and the code replaces entry 0 (gateway 1, the most recent entry); entry 1 is kept. -/
theorem C12_full_table_replaces_entry_zero_not_oldest :
    (List.range 5).map (fun i => (example_scan_full.entry i).gateway_id) = [1, 2, 3, 4, 5] ∧
    (List.range 5).map (fun i => _get_ts_latest (example_scan_full.entry i)) =
      [4294960000, 4294900000, 4294910000, 4294920000, 4294930000] ∧
    (List.range 5).map
        (fun i => ((mr_scan_add example_scan_full (example_beacon 6) (-60) 37 5000 0).entry i).gateway_id)
      = [6, 2, 3, 4, 5] ∧
    (mr_scan_add example_scan_full (example_beacon 6) (-60) 37 5000 0).entry 0 =
      { gateway_id := 6
        channel_info :=
          [scan_sample (example_beacon 6) (-60) 5000 0, channel_info_zero, channel_info_zero] } ∧
    (mr_scan_add example_scan_full (example_beacon 6) (-60) 37 5000 0).entry 1 =
      example_scan_full.entry 1 := by
  decide

/-! ## Theorems: failed join and loss of the gateway -/

theorem mr_queue_set_join_request_holder (q : queue_vars_t) (node_id device_id network_id : Nat) :
    (mr_queue_set_join_request q node_id device_id network_id).join_packet.length =
      sizeof_mr_packet_header_t ∧
    (mr_queue_set_join_request q node_id device_id network_id).join_packet.buffer =
      ({ version := MARI_PROTOCOL_VERSION, type := MARI_PACKET_JOIN_REQUEST,
         network_id := network_id, dst := node_id, src := device_id,
         stats_rssi := 0 } : mr_packet_header_t).bytes ++
        q.join_packet.buffer.drop sizeof_mr_packet_header_t ∧
    (mr_queue_set_join_request q node_id device_id network_id).packet_queue = q.packet_queue ∧
    (mr_queue_set_join_request q node_id device_id network_id).queue_locked = q.queue_locked := by
  have hlen := mr_packet_header_bytes_length
    { version := MARI_PROTOCOL_VERSION, type := MARI_PACKET_JOIN_REQUEST,
      network_id := network_id, dst := node_id, src := device_id, stats_rssi := 0 }
  refine ⟨rfl, ?_, rfl, rfl⟩
  show memcpy _ _ _ = _
  unfold memcpy
  rw [List.take_of_length_le (by rw [hlen])]

/-- C21: `mr_assoc_node_handle_failed_join`.  With a remaining capacity above 0 it
returns true, the state is Synced, the association state is the one produced by the
collision backoff rule (so `backoff_n` becomes `min (backoff_n + 1) 6` when it was in
`[4, 6]`), and the join holder contains a frame of the length of the common header, of
type JoinRequest, addressed to the synced gateway; the ring is untouched.  With a
remaining capacity of 0 it returns false, the state is Idle, `backoff_n = -1`, the wait
counter is 0 and the queue is untouched. -/
theorem C21_failed_join_retries_or_gives_up (env : mari_env_t) (av : assoc_vars_t)
    (q : queue_vars_t) (r : Nat) :
    (av.synced_gateway_remaining_capacity > 0 →
      (mr_assoc_node_handle_failed_join env av q r).1 = true ∧
      (mr_assoc_node_handle_failed_join env av q r).2.1 =
        mr_assoc_node_register_collision_backoff
          (mr_assoc_set_state av JOIN_STATE_SYNCED env.now_ts) r ∧
      (mr_assoc_node_handle_failed_join env av q r).2.1.state = JOIN_STATE_SYNCED ∧
      (4 ≤ av.backoff_n → av.backoff_n ≤ 6 →
        (mr_assoc_node_handle_failed_join env av q r).2.1.backoff_n = min (av.backoff_n + 1) 6 ∧
        (mr_assoc_node_handle_failed_join env av q r).2.1.backoff_random_time =
          (r % 256) % 2 ^ (mr_assoc_node_handle_failed_join env av q r).2.1.backoff_n.toNat) ∧
      (mr_assoc_node_handle_failed_join env av q r).2.2.join_packet.length =
        sizeof_mr_packet_header_t ∧
      (mr_packet_header_t.of_bytes
        (mr_assoc_node_handle_failed_join env av q r).2.2.join_packet.buffer).type =
          MARI_PACKET_JOIN_REQUEST ∧
      (mr_packet_header_t.of_bytes
        (mr_assoc_node_handle_failed_join env av q r).2.2.join_packet.buffer).dst =
          env.synced_gateway % 2 ^ 64 ∧
      (mr_assoc_node_handle_failed_join env av q r).2.2.packet_queue = q.packet_queue) ∧
    (av.synced_gateway_remaining_capacity = 0 →
      (mr_assoc_node_handle_failed_join env av q r).1 = false ∧
      (mr_assoc_node_handle_failed_join env av q r).2.1.state = JOIN_STATE_IDLE ∧
      (mr_assoc_node_handle_failed_join env av q r).2.1.backoff_n = -1 ∧
      (mr_assoc_node_handle_failed_join env av q r).2.1.backoff_random_time = 0 ∧
      (mr_assoc_node_handle_failed_join env av q r).2.2 = q) := by
  constructor
  · intro hcap
    have hres : mr_assoc_node_handle_failed_join env av q r =
        (true,
         mr_assoc_node_register_collision_backoff
           (mr_assoc_set_state av JOIN_STATE_SYNCED env.now_ts) r,
         mr_queue_set_join_request q env.synced_gateway env.device_id
           (mr_assoc_get_network_id env.node_type
             (mr_assoc_node_register_collision_backoff
               (mr_assoc_set_state av JOIN_STATE_SYNCED env.now_ts) r)
             env.synced_network_id)) := by
      unfold mr_assoc_node_handle_failed_join
      rw [if_pos hcap]
    obtain ⟨h1, h2, h3, _⟩ := mr_queue_set_join_request_holder q env.synced_gateway
      env.device_id
      (mr_assoc_get_network_id env.node_type
        (mr_assoc_node_register_collision_backoff
          (mr_assoc_set_state av JOIN_STATE_SYNCED env.now_ts) r)
        env.synced_network_id)
    rw [hres]
    refine ⟨rfl, rfl, rfl, ?_, h1, ?_, ?_, h3⟩
    · intro h4 h6
      exact register_collision_backoff_step
        (mr_assoc_set_state av JOIN_STATE_SYNCED env.now_ts) r h4 h6
    · simp only []
      rw [h2, mr_packet_header_of_bytes_bytes]
      rfl
    · simp only []
      rw [h2, mr_packet_header_of_bytes_bytes]
  · intro hcap
    have hres : mr_assoc_node_handle_failed_join env av q r =
        (false, mr_assoc_node_handle_give_up_joining env av, q) := by
      unfold mr_assoc_node_handle_failed_join
      rw [if_neg (by omega)]
    rw [hres]
    exact ⟨rfl, rfl, rfl, rfl, rfl⟩

theorem u32_sub_exact (a b : Nat) (ha : a < 2 ^ 32) (hb : b ≤ a) : u32_sub a b = a - b := by
  unfold u32_sub
  rw [Nat.mod_eq_of_lt ha, Nat.mod_eq_of_lt (by omega : b < 2 ^ 32)]
  omega

/-- C22: `mr_assoc_node_should_leave` for a schedule of at most `MARI_N_CELLS_MAX` cells
and a 32-bit ASN not earlier than the keep-alive ASN.  It returns false and changes
nothing when the state is not Joined; in state Joined with a pending reason it returns
true and changes nothing; in state Joined with no pending reason it returns true exactly
when `asn - last_received_from_gateway_asn > n_cells * 5`, in which case the only
change is that the pending reason becomes PeerLostTimeout, and otherwise it changes
nothing. -/
theorem C22_should_leave (av : assoc_vars_t) (st : schedule_vars_t) (asn : Nat)
    (hn : st.active_schedule.n_cells ≤ MARI_N_CELLS_MAX)
    (hasn : asn < 2 ^ 32)
    (hlast : av.last_received_from_gateway_asn ≤ asn) :
    (av.state ≠ JOIN_STATE_JOINED → mr_assoc_node_should_leave av st asn = (false, av)) ∧
    (av.state = JOIN_STATE_JOINED → av.is_pending_disconnect ≠ mr_event_tag_t.MARI_NONE →
      mr_assoc_node_should_leave av st asn = (true, av)) ∧
    (av.state = JOIN_STATE_JOINED → av.is_pending_disconnect = mr_event_tag_t.MARI_NONE →
      ((mr_assoc_node_should_leave av st asn).1 = true ↔
        asn - av.last_received_from_gateway_asn > st.active_schedule.n_cells * 5) ∧
      (asn - av.last_received_from_gateway_asn > st.active_schedule.n_cells * 5 →
        mr_assoc_node_should_leave av st asn =
          (true, { av with is_pending_disconnect := mr_event_tag_t.MARI_PEER_LOST_TIMEOUT })) ∧
      (¬ asn - av.last_received_from_gateway_asn > st.active_schedule.n_cells * 5 →
        mr_assoc_node_should_leave av st asn = (false, av))) := by
  have hcount : mr_scheduler_get_active_schedule_slot_count st * MARI_MAX_SLOTFRAMES_NO_RX_LEAVE
      = st.active_schedule.n_cells * 5 := by
    unfold mr_scheduler_get_active_schedule_slot_count MARI_MAX_SLOTFRAMES_NO_RX_LEAVE
    unfold MARI_N_CELLS_MAX at hn
    rw [Nat.mod_eq_of_lt (by omega)]
  have hsub := u32_sub_exact asn av.last_received_from_gateway_asn hasn hlast
  refine ⟨?_, ?_, ?_⟩
  · intro hs
    unfold mr_assoc_node_should_leave
    rw [if_pos hs]
  · intro hs hp
    unfold mr_assoc_node_should_leave
    rw [if_neg (fun h => h hs), if_pos hp]
  · intro hs hp
    have hyes : asn - av.last_received_from_gateway_asn > st.active_schedule.n_cells * 5 →
        mr_assoc_node_should_leave av st asn =
          (true, { av with is_pending_disconnect := mr_event_tag_t.MARI_PEER_LOST_TIMEOUT }) := by
      intro hgt
      unfold mr_assoc_node_should_leave
      rw [if_neg (fun h => h hs), if_neg (fun h => h hp)]
      simp only [hcount, hsub]
      rw [if_pos (by simpa using hgt)]
    have hno : ¬ asn - av.last_received_from_gateway_asn > st.active_schedule.n_cells * 5 →
        mr_assoc_node_should_leave av st asn = (false, av) := by
      intro hgt
      unfold mr_assoc_node_should_leave
      rw [if_neg (fun h => h hs), if_neg (fun h => h hp)]
      simp only [hcount, hsub]
      rw [if_neg (by simpa using hgt)]
    refine ⟨?_, hyes, hno⟩
    by_cases hgt : asn - av.last_received_from_gateway_asn > st.active_schedule.n_cells * 5
    · rw [hyes hgt]
      exact ⟨fun _ => hgt, fun _ => rfl⟩
    · rw [hno hgt]
      exact ⟨fun h => Bool.noConfusion h, fun h => absurd h hgt⟩

/-- Witness for C22: the example node, Joined and last heard at ASN 3 on the seven-cell
schedule, must leave at ASN 39 (36 slots later) and not yet at ASN 38. -/
theorem C22_should_leave_witness :
    mr_assoc_node_should_leave example_assoc_joined example_gateway 39 =
      (true, { example_assoc_joined with
        is_pending_disconnect := mr_event_tag_t.MARI_PEER_LOST_TIMEOUT }) ∧
    mr_assoc_node_should_leave example_assoc_joined example_gateway 38 =
      (false, example_assoc_joined) :=
  ⟨((C22_should_leave example_assoc_joined example_gateway 39 (by decide) (by decide)
      (by decide)).2.2 rfl rfl).2.1 (by decide),
   ((C22_should_leave example_assoc_joined example_gateway 38 (by decide) (by decide)
      (by decide)).2.2 rfl rfl).2.2 (by decide)⟩

/-! ## Theorems: drift correction -/

theorem clock_drift_eq (mv : mac_vars_t) (ts : Nat) :
    clock_drift mv ts = int32_wrap ((ts : Int) - ((mv.start_slot_ts : Int) + 400 + 59)) := by
  unfold clock_drift int32_wrap u32_sub
  simp only [slot_durations, MARI_TS_TX_OFFSET]
  omega

theorem natAbs_int32_wrap_le (x : Int) : (int32_wrap x).natAbs ≤ 2 ^ 31 := by
  unfold int32_wrap
  omega

theorem uint32_wrap_natAbs_clock_drift (mv : mac_vars_t) (ts : Nat) :
    uint32_wrap ((clock_drift mv ts).natAbs : Int) = (clock_drift mv ts).natAbs := by
  have h := natAbs_int32_wrap_le ((ts : Int) - ((mv.start_slot_ts : Int) + 400 + 59))
  rw [← clock_drift_eq] at h
  unfold uint32_wrap
  omega

/-- C23: when the drift `ts - (start_slot_ts + 400 + 59)`, taken as a signed 32-bit
value, is below 100 in absolute value, `fix_drift` adds it (modulo 2^32) to the compare
register of the inter-slot channel and changes nothing else: no event is raised, and
the association state, the MAC state, the other timer channels and the radio are as
before. -/
theorem C23_small_drift_shifts_inter_slot_compare (node_type : mr_node_type_t) (c : mac_ctx_t)
    (ts now : Nat) (hsmall : (clock_drift c.mac ts).natAbs < 100) :
    clock_drift c.mac ts = int32_wrap ((ts : Int) - ((c.mac.start_slot_ts : Int) + 400 + 59)) ∧
    fix_drift node_type c ts now =
      { c with
          timer :=
            { c.timer with
                cc := c.timer.cc.set MARI_TIMER_INTER_SLOT_CHANNEL
                  (uint32_wrap ((c.timer.cc.getD MARI_TIMER_INTER_SLOT_CHANNEL 0 : Int) +
                    clock_drift c.mac ts)) } } ∧
    (MARI_TIMER_INTER_SLOT_CHANNEL < c.timer.cc.length →
      (((fix_drift node_type c ts now).timer.cc.getD MARI_TIMER_INTER_SLOT_CHANNEL 0 : Nat) : Int) =
        ((c.timer.cc.getD MARI_TIMER_INTER_SLOT_CHANNEL 0 : Int) + clock_drift c.mac ts) % 2 ^ 32) ∧
    (∀ ch, ch ≠ MARI_TIMER_INTER_SLOT_CHANNEL →
      (fix_drift node_type c ts now).timer.cc.getD ch 0 = c.timer.cc.getD ch 0) ∧
    (fix_drift node_type c ts now).events = c.events ∧
    (fix_drift node_type c ts now).assoc = c.assoc ∧
    (fix_drift node_type c ts now).mac = c.mac ∧
    (fix_drift node_type c ts now).radio = c.radio := by
  have hres : fix_drift node_type c ts now =
      { c with
          timer :=
            { c.timer with
                cc := c.timer.cc.set MARI_TIMER_INTER_SLOT_CHANNEL
                  (uint32_wrap ((c.timer.cc.getD MARI_TIMER_INTER_SLOT_CHANNEL 0 : Int) +
                    clock_drift c.mac ts)) } } := by
    unfold fix_drift
    simp only []
    rw [uint32_wrap_natAbs_clock_drift, if_pos hsmall]
    rfl
  refine ⟨clock_drift_eq c.mac ts, hres, ?_, ?_, ?_, ?_, ?_, ?_⟩
  · intro hlen
    rw [hres]
    simp only []
    rw [getD_set_eq, if_pos ⟨rfl, hlen⟩]
    unfold uint32_wrap
    omega
  · intro ch hch
    rw [hres]
    simp only []
    rw [getD_set_eq, if_neg (fun h => hch h.1.symm)]
  · rw [hres]
  · rw [hres]
  · rw [hres]
  · rw [hres]

/-- Witness for C23: the slot started at 1000, so a frame is expected at 1459; a frame
that starts at 1449 shifts the compare value 2780 of the inter-slot channel to 2770. -/
theorem C23_small_drift_shifts_inter_slot_compare_witness :
    clock_drift example_mac_ctx.mac 1449 = -10 ∧
    (fix_drift MARI_NODE example_mac_ctx 1449 1600).timer.cc = [2770, 0, 0, 0, 0, 0] ∧
    (fix_drift MARI_NODE example_mac_ctx 1449 1600).events = [] :=
  ⟨by decide,
   by
     rw [(C23_small_drift_shifts_inter_slot_compare MARI_NODE example_mac_ctx 1449 1600
       (by decide)).2.1]
     decide,
   (C23_small_drift_shifts_inter_slot_compare MARI_NODE example_mac_ctx 1449 1600
     (by decide)).2.2.2.2.1⟩

/-- C25: `select_gateway_for_handover` returns the candidate of `mr_scan_select`; it
returns false when `mr_scan_select` finds none, and otherwise returns true exactly when
the source of the candidate differs from the synced gateway, its RSSI is at least the
RSSI of the last received frame plus 24, and `now_ts - synced_ts` (on 32 bits) is at
least 5000000.  In particular, with a last-frame RSSI of -70 and five seconds elapsed, a
candidate from another gateway at -44 is accepted and one at -50 is rejected. -/
theorem C25_handover_acceptance (c : mac_ctx_t) (now_ts : Nat) :
    MARI_HANDOVER_RSSI_HYSTERESIS = 24 ∧ MARI_HANDOVER_MIN_INTERVAL = 5000000 ∧
    (select_gateway_for_handover c now_ts).2 =
      (mr_scan_select c.scan c.mac.scan_started_ts now_ts).2 ∧
    ((mr_scan_select c.scan c.mac.scan_started_ts now_ts).1 = false →
      (select_gateway_for_handover c now_ts).1 = false) ∧
    ((mr_scan_select c.scan c.mac.scan_started_ts now_ts).1 = true →
      ((select_gateway_for_handover c now_ts).1 = true ↔
        (mr_scan_select c.scan c.mac.scan_started_ts now_ts).2.beacon.src ≠ c.mac.synced_gateway ∧
        (mr_scan_select c.scan c.mac.scan_started_ts now_ts).2.rssi ≥
          c.mac.received_packet.rssi + 24 ∧
        u32_sub now_ts c.mac.synced_ts ≥ 5000000)) ∧
    (c.mac.synced_ts ≤ now_ts → now_ts < 2 ^ 32 →
      u32_sub now_ts c.mac.synced_ts = now_ts - c.mac.synced_ts) ∧
    ((mr_scan_select c.scan c.mac.scan_started_ts now_ts).1 = true →
      (mr_scan_select c.scan c.mac.scan_started_ts now_ts).2.beacon.src ≠ c.mac.synced_gateway →
      c.mac.received_packet.rssi = -70 → u32_sub now_ts c.mac.synced_ts ≥ 5000000 →
      ((mr_scan_select c.scan c.mac.scan_started_ts now_ts).2.rssi = -44 →
        (select_gateway_for_handover c now_ts).1 = true) ∧
      ((mr_scan_select c.scan c.mac.scan_started_ts now_ts).2.rssi = -50 →
        (select_gateway_for_handover c now_ts).1 = false)) := by
  have hiff : (mr_scan_select c.scan c.mac.scan_started_ts now_ts).1 = true →
      ((select_gateway_for_handover c now_ts).1 = true ↔
        (mr_scan_select c.scan c.mac.scan_started_ts now_ts).2.beacon.src ≠ c.mac.synced_gateway ∧
        (mr_scan_select c.scan c.mac.scan_started_ts now_ts).2.rssi ≥
          c.mac.received_packet.rssi + 24 ∧
        u32_sub now_ts c.mac.synced_ts ≥ 5000000) := by
    intro hsel
    unfold select_gateway_for_handover
    simp only []
    rw [if_neg (by rw [hsel]; exact fun h => h rfl)]
    unfold MARI_HANDOVER_RSSI_HYSTERESIS MARI_HANDOVER_MIN_INTERVAL
    split_ifs with h1 h2 h3
    · constructor
      · intro h; exact h.elim
      · intro h; exact absurd h1 h.1
    · constructor
      · intro h; exact h.elim
      · intro h; omega
    · constructor
      · intro h; exact h.elim
      · intro h; omega
    · constructor
      · intro _; exact ⟨h1, by omega, by omega⟩
      · intro _; rfl
  refine ⟨rfl, rfl, ?_, ?_, hiff, ?_, ?_⟩
  · unfold select_gateway_for_handover
    simp only []
    split_ifs <;> rfl
  · intro hsel
    unfold select_gateway_for_handover
    simp only []
    rw [if_pos (by rw [hsel]; exact fun h => Bool.noConfusion h)]
  · intro h1 h2
    exact u32_sub_exact now_ts c.mac.synced_ts h2 h1
  · intro hsel hsrc hcur htime
    constructor
    · intro hr
      exact (hiff hsel).2 ⟨hsrc, by rw [hr, hcur]; decide, htime⟩
    · intro hr
      cases hb : (select_gateway_for_handover c now_ts).1
      · rfl
      · have := ((hiff hsel).1 hb).2.1
        rw [hr, hcur] at this
        exact absurd this (by decide)

theorem set_schedule_loop_some_iff (schedule_id : Nat) (l : List schedule_t) :
    ∀ i, (set_schedule_loop schedule_id i l).isSome = true ↔ ∃ s ∈ l, s.id = schedule_id := by
  induction l with
  | nil => intro i; simp [set_schedule_loop]
  | cons a rest ih =>
    intro i
    unfold set_schedule_loop
    by_cases h : a.id = schedule_id
    · rw [if_pos h]
      simp only [Option.isSome_some, true_iff]
      exact ⟨a, List.mem_cons_self _ _, h⟩
    · rw [if_neg h, ih (i + 1)]
      constructor
      · rintro ⟨s, hs, hid⟩
        exact ⟨s, List.mem_cons_of_mem _ hs, hid⟩
      · rintro ⟨s, hs, hid⟩
        rcases List.mem_cons.1 hs with h1 | h1
        · rw [h1] at hid; exact absurd hid h
        · exact ⟨s, h1, hid⟩

theorem mr_scheduler_set_schedule_known (st : schedule_vars_t) (schedule_id : Nat) :
    ((mr_scheduler_set_schedule st schedule_id).1 = true ↔
      ∃ s ∈ st.schedules, s.id = schedule_id) ∧
    ((mr_scheduler_set_schedule st schedule_id).1 = false →
      (mr_scheduler_set_schedule st schedule_id).2 = st) := by
  have h := set_schedule_loop_some_iff schedule_id st.schedules 0
  unfold mr_scheduler_set_schedule
  cases hl : set_schedule_loop schedule_id 0 st.schedules with
  | none =>
    rw [hl] at h
    simp only [Option.isSome_none] at h
    refine ⟨?_, fun _ => rfl⟩
    simp only []
    constructor
    · intro hh; exact Bool.noConfusion hh
    · intro hh; exact Bool.noConfusion (h.2 hh)
  | some i =>
    rw [hl] at h
    simp only [Option.isSome_some, true_iff] at h
    refine ⟨?_, ?_⟩
    · exact ⟨fun _ => h, fun _ => rfl⟩
    · simp only []
      intro hh; exact Bool.noConfusion hh

/-- C26: `sync_to_gateway`.  The schedule id of the selected beacon is known when one of
the available schedules has it.  Then the function returns true, the ASN becomes
`beacon.asn + Δ / 1780 + 1`, plus one more exactly when `Δ mod 1780 > 890` (on 64 bits),
where `Δ = now_ts - selected.timestamp` on 32 bits, and the synced gateway, synced
network id and sync time become the source of the beacon, its network id and `now_ts`.
When the id is unknown the function returns false and changes nothing. -/
theorem C26_sync_sets_asn_and_gateway (c : mac_ctx_t) (now_ts : Nat)
    (selected : mr_channel_info_t) (correction now : Nat) :
    slot_durations.whole_slot = 1780 ∧
    ((mr_scheduler_set_schedule c.sched selected.beacon.active_schedule_id).1 = true ↔
      ∃ s ∈ c.sched.schedules, s.id = selected.beacon.active_schedule_id) ∧
    ((mr_scheduler_set_schedule c.sched selected.beacon.active_schedule_id).1 = true →
      (sync_to_gateway c now_ts selected correction now).1 = true ∧
      (sync_to_gateway c now_ts selected correction now).2.mac.asn =
        (selected.beacon.asn + (u32_sub now_ts selected.timestamp / 1780 + 1 +
          (if u32_sub now_ts selected.timestamp % 1780 > 890 then 1 else 0))) % 2 ^ 64 ∧
      (sync_to_gateway c now_ts selected correction now).2.mac.synced_gateway =
        selected.beacon.src ∧
      (sync_to_gateway c now_ts selected correction now).2.mac.synced_network_id =
        selected.beacon.network_id % 2 ^ 16 ∧
      (sync_to_gateway c now_ts selected correction now).2.mac.synced_ts = now_ts) ∧
    ((mr_scheduler_set_schedule c.sched selected.beacon.active_schedule_id).1 = false →
      sync_to_gateway c now_ts selected correction now = (false, c)) := by
  obtain ⟨hk1, hk2⟩ := mr_scheduler_set_schedule_known c.sched selected.beacon.active_schedule_id
  refine ⟨rfl, hk1, ?_, ?_⟩
  · intro hknown
    have hw : slot_durations.whole_slot = 1780 := rfl
    unfold sync_to_gateway
    simp only []
    rw [if_neg (by rw [hknown]; exact fun h => h rfl)]
    refine ⟨rfl, ?_, rfl, rfl, rfl⟩
    simp only [hw]
    by_cases hlate : u32_sub now_ts selected.timestamp % 1780 > 1780 / 2
    · rw [if_pos hlate, if_pos (by omega)]
    · rw [if_neg hlate, if_neg (by omega)]
  · intro hunknown
    unfold sync_to_gateway
    simp only []
    rw [if_pos (by rw [hunknown]; exact fun h => Bool.noConfusion h), hk2 hunknown]

/-! ## Theorems: join request at the gateway, join response at the node -/

theorem assign_loop_result (node_id asn : Nat) (cells : List cell_t) :
    ∀ (i cnt : Nat),
      ((assign_loop node_id asn i cnt cells).1 = -1 ∧
        (assign_loop node_id asn i cnt cells).2 = (cells, cnt)) ∨
      ((i : Int) ≤ (assign_loop node_id asn i cnt cells).1 ∧
        (assign_loop node_id asn i cnt cells).1 < (i : Int) + cells.length) := by
  induction cells with
  | nil => intro i cnt; left; exact ⟨rfl, rfl⟩
  | cons a rest ih =>
    intro i cnt
    by_cases h1 : a.type = SLOT_TYPE_UPLINK ∧ a.assigned_node_id = 0
    · right
      rw [assign_loop, if_pos h1]
      simp only [List.length_cons]
      constructor <;> push_cast <;> omega
    · by_cases h2 : a.type = SLOT_TYPE_UPLINK ∧ a.assigned_node_id = node_id
      · right
        rw [assign_loop, if_neg h1, if_pos h2]
        simp only [List.length_cons]
        constructor <;> push_cast <;> omega
      · rw [assign_loop, if_neg h1, if_neg h2]
        rcases ih (i + 1) cnt with ⟨e1, e2⟩ | ⟨e1, e2⟩
        · left
          simp only []
          refine ⟨e1, ?_⟩
          rw [e2]
        · right
          simp only [List.length_cons]
          push_cast at e1 e2 ⊢
          constructor <;> omega

theorem gateway_assign_result (st : schedule_vars_t) (node_id asn : Nat) :
    ((mr_scheduler_gateway_assign_next_available_uplink_cell st node_id asn).1 < 0 →
      mr_scheduler_gateway_assign_next_available_uplink_cell st node_id asn = (-1, st)) ∧
    (0 ≤ (mr_scheduler_gateway_assign_next_available_uplink_cell st node_id asn).1 →
      (mr_scheduler_gateway_assign_next_available_uplink_cell st node_id asn).1 <
        st.active_schedule.cells.length) := by
  have h := assign_loop_result node_id asn st.active_schedule.cells 0
    st.num_assigned_uplink_nodes
  unfold mr_scheduler_gateway_assign_next_available_uplink_cell
  simp only []
  rcases h with ⟨e1, e2⟩ | ⟨e1, e2⟩
  · refine ⟨?_, ?_⟩
    · intro _
      rw [e1, e2]
    · intro h0
      rw [e1] at h0
      omega
  · refine ⟨?_, ?_⟩
    · intro h0
      omega
    · intro _
      simpa using e2

theorem mr_queue_set_join_response_holder (q : queue_vars_t) (node_id cell device_id
    network_id : Nat) (hbuf : sizeof_mr_packet_header_t < q.join_packet.buffer.length)
    (hcell : cell < 256) :
    (mr_queue_set_join_response q node_id cell device_id network_id).join_packet.length =
      sizeof_mr_packet_header_t + 1 ∧
    (mr_queue_set_join_response q node_id cell device_id network_id).join_packet.buffer =
      ({ version := MARI_PROTOCOL_VERSION, type := MARI_PACKET_JOIN_RESPONSE,
         network_id := network_id, dst := node_id, src := device_id,
         stats_rssi := 0 } : mr_packet_header_t).bytes ++
        cell :: q.join_packet.buffer.drop (sizeof_mr_packet_header_t + 1) ∧
    (mr_queue_set_join_response q node_id cell device_id network_id).packet_queue =
      q.packet_queue ∧
    (mr_queue_set_join_response q node_id cell device_id network_id).queue_locked =
      q.queue_locked := by
  have hlen := mr_packet_header_bytes_length
    { version := MARI_PROTOCOL_VERSION, type := MARI_PACKET_JOIN_RESPONSE,
      network_id := network_id, dst := node_id, src := device_id, stats_rssi := 0 }
  have hsz : sizeof_mr_packet_header_t % 256 = sizeof_mr_packet_header_t := by decide
  refine ⟨?_, ?_, rfl, rfl⟩
  · show (sizeof_mr_packet_header_t % 256 + 1) % 256 = _
    decide
  · show (memcpy _ _ _).set (sizeof_mr_packet_header_t % 256) (cell % 256) = _
    unfold memcpy
    rw [hsz, List.take_of_length_le (by rw [hlen]), Nat.mod_eq_of_lt hcell]
    obtain ⟨x, rest, hx⟩ : ∃ x rest, q.join_packet.buffer.drop sizeof_mr_packet_header_t
        = x :: rest := by
      cases hd : q.join_packet.buffer.drop sizeof_mr_packet_header_t with
      | nil =>
        have := congrArg List.length hd
        simp only [List.length_drop, List.length_nil] at this
        omega
      | cons x rest => exact ⟨x, rest, rfl⟩
    have hrest : q.join_packet.buffer.drop (sizeof_mr_packet_header_t + 1) = rest := by
      rw [← List.drop_drop, hx]
      rfl
    rw [hx, hrest]
    rw [List.set_append_right _ _ (by rw [hlen]), hlen, Nat.sub_self]
    rfl

theorem header_bytes_getD_after (h : mr_packet_header_t) (x : Nat) (rest : List Nat) :
    (h.bytes ++ x :: rest).getD sizeof_mr_packet_header_t 0 = x := by
  have hlen := mr_packet_header_bytes_length h
  rw [List.getD_eq_getElem?_getD, List.getElem?_append_right (by rw [hlen]), hlen, Nat.sub_self]
  simp

/-- C27: a gateway receives a frame of type JoinRequest with its own network id,
addressed to it or broadcast; the schedule has at most `MARI_N_CELLS_MAX` cells and the
join holder its 255-byte buffer.  If the scheduler returns a cell index `i ≥ 0`,
`mr_handle_packet` returns true, the schedule is the one after the assignment, the
holder contains a frame of the length of the common header plus one, of type
JoinResponse, addressed to the requester, whose byte after the header is `i`, the bloom
dirty flag is set and the only event is NodeJoined with the requester.  If the
scheduler returns a negative value, the only event is Error with GatewayFull and no
module state changes. -/
theorem C27_join_request_at_gateway (env : mari_env_t) (s : mari_state_t) (packet : List Nat)
    (length : Nat)
    (hgw : env.node_type = MARI_GATEWAY)
    (htype : (mr_packet_header_t.of_bytes packet).type = MARI_PACKET_JOIN_REQUEST)
    (hnet : (mr_packet_header_t.of_bytes packet).network_id = s.assoc.network_id)
    (hdst : (mr_packet_header_t.of_bytes packet).dst = env.device_id ∨
      (mr_packet_header_t.of_bytes packet).dst = MARI_BROADCAST_ADDRESS)
    (hcells : s.sched.active_schedule.n_cells ≤ MARI_N_CELLS_MAX)
    (hbuf : s.queue.join_packet.buffer.length = MARI_PACKET_MAX_SIZE) :
    (0 ≤ (mr_scheduler_gateway_assign_next_available_uplink_cell s.sched
        (mr_packet_header_t.of_bytes packet).src env.asn).1 →
      mr_handle_packet env s packet length =
        (true,
         { s with
             sched := (mr_scheduler_gateway_assign_next_available_uplink_cell s.sched
               (mr_packet_header_t.of_bytes packet).src env.asn).2
             queue := mr_queue_set_join_response s.queue (mr_packet_header_t.of_bytes packet).src
               (mr_scheduler_gateway_assign_next_available_uplink_cell s.sched
                 (mr_packet_header_t.of_bytes packet).src env.asn).1.toNat
               env.device_id s.assoc.network_id
             bloom := { s.bloom with is_dirty := true } },
         [(mr_event_t.MARI_NODE_JOINED,
           { node_id := (mr_packet_header_t.of_bytes packet).src,
             tag := mr_event_tag_t.MARI_NONE })]) ∧
      (mr_handle_packet env s packet length).2.1.queue.join_packet.length =
        sizeof_mr_packet_header_t + 1 ∧
      (mr_packet_header_t.of_bytes
        (mr_handle_packet env s packet length).2.1.queue.join_packet.buffer).type =
          MARI_PACKET_JOIN_RESPONSE ∧
      (mr_packet_header_t.of_bytes
        (mr_handle_packet env s packet length).2.1.queue.join_packet.buffer).dst =
          (mr_packet_header_t.of_bytes packet).src % 2 ^ 64 ∧
      ((mr_handle_packet env s packet length).2.1.queue.join_packet.buffer.getD
          sizeof_mr_packet_header_t 0 : Int) =
        (mr_scheduler_gateway_assign_next_available_uplink_cell s.sched
          (mr_packet_header_t.of_bytes packet).src env.asn).1 ∧
      (mr_handle_packet env s packet length).2.1.bloom.is_dirty = true) ∧
    ((mr_scheduler_gateway_assign_next_available_uplink_cell s.sched
        (mr_packet_header_t.of_bytes packet).src env.asn).1 < 0 →
      mr_handle_packet env s packet length =
        (true, s,
         [(mr_event_t.MARI_ERROR,
           { node_id := 0, tag := mr_event_tag_t.MARI_GATEWAY_FULL })])) := by
  obtain ⟨ha1, ha2⟩ := gateway_assign_result s.sched (mr_packet_header_t.of_bytes packet).src
    env.asn
  have hnotwrong : ¬ ((decide ((mr_packet_header_t.of_bytes packet).dst ≠ env.device_id ∧
      (mr_packet_header_t.of_bytes packet).dst ≠ MARI_BROADCAST_ADDRESS) = true) ∧
      (decide ((mr_packet_header_t.of_bytes packet).type ≠ MARI_PACKET_BEACON) = true)) := by
    intro h
    have h1 := of_decide_eq_true h.1
    rcases hdst with hd | hd
    · exact h1.1 hd
    · exact h1.2 hd
  have hnetid : mr_assoc_get_network_id env.node_type s.assoc env.synced_network_id =
      s.assoc.network_id := by
    unfold mr_assoc_get_network_id
    rw [if_pos hgw]
  have hgo : mr_handle_packet env s packet length =
      if (mr_scheduler_gateway_assign_next_available_uplink_cell s.sched
          (mr_packet_header_t.of_bytes packet).src env.asn).1 ≥ 0 then
        (true,
         { s with
             sched := (mr_scheduler_gateway_assign_next_available_uplink_cell s.sched
               (mr_packet_header_t.of_bytes packet).src env.asn).2
             queue := mr_queue_set_join_response s.queue (mr_packet_header_t.of_bytes packet).src
               (uint8_wrap (mr_scheduler_gateway_assign_next_available_uplink_cell s.sched
                 (mr_packet_header_t.of_bytes packet).src env.asn).1)
               env.device_id s.assoc.network_id
             bloom := { s.bloom with is_dirty := true } },
         [(mr_event_t.MARI_NODE_JOINED,
           { node_id := (mr_packet_header_t.of_bytes packet).src,
             tag := mr_event_tag_t.MARI_NONE })])
      else
        (true,
         { s with
             sched := (mr_scheduler_gateway_assign_next_available_uplink_cell s.sched
               (mr_packet_header_t.of_bytes packet).src env.asn).2 },
         [(mr_event_t.MARI_ERROR,
           { node_id := 0, tag := mr_event_tag_t.MARI_GATEWAY_FULL })]) := by
    unfold mr_handle_packet
    simp only []
    rw [if_neg hnotwrong, if_pos hgw]
    unfold mr_handle_packet_gateway
    simp only []
    rw [hnetid, if_neg (fun h => h hnet), if_pos htype]
  constructor
  · intro h0
    have hlt := ha2 h0
    have hlt' : (mr_scheduler_gateway_assign_next_available_uplink_cell s.sched
        (mr_packet_header_t.of_bytes packet).src env.asn).1 < 149 := by
      unfold schedule_t.n_cells MARI_N_CELLS_MAX at hcells
      omega
    have hu8 : uint8_wrap (mr_scheduler_gateway_assign_next_available_uplink_cell s.sched
        (mr_packet_header_t.of_bytes packet).src env.asn).1 =
        (mr_scheduler_gateway_assign_next_available_uplink_cell s.sched
          (mr_packet_header_t.of_bytes packet).src env.asn).1.toNat := by
      unfold uint8_wrap
      rw [Int.emod_eq_of_lt h0 (by omega)]
    obtain ⟨q1, q2, _, _⟩ := mr_queue_set_join_response_holder s.queue
      (mr_packet_header_t.of_bytes packet).src
      (mr_scheduler_gateway_assign_next_available_uplink_cell s.sched
        (mr_packet_header_t.of_bytes packet).src env.asn).1.toNat
      env.device_id s.assoc.network_id
      (by rw [hbuf]; decide) (by omega)
    rw [hgo, if_pos h0, hu8]
    refine ⟨rfl, q1, ?_, ?_, ?_, rfl⟩
    · simp only []
      rw [q2, mr_packet_header_of_bytes_bytes]
      rfl
    · simp only []
      rw [q2, mr_packet_header_of_bytes_bytes]
    · simp only []
      rw [q2, header_bytes_getD_after]
      omega
  · intro hneg
    rw [hgo, if_neg (by omega), ha1 hneg]

/-- Witness for C27: the join request of node 7 at the freshly booted example gateway
is answered with cell 5. -/
theorem C27_join_request_at_gateway_witness :
    (mr_scheduler_gateway_assign_next_available_uplink_cell example_gateway_state.sched
      (mr_packet_header_t.of_bytes example_join_request_frame).src example_gateway_env.asn).1 = 5 ∧
    (mr_handle_packet example_gateway_env example_gateway_state example_join_request_frame
      24).2.1.queue.join_packet.length = sizeof_mr_packet_header_t + 1 ∧
    (mr_handle_packet example_gateway_env example_gateway_state example_join_request_frame
      24).2.1.bloom.is_dirty = true := by
  have h5 : (mr_scheduler_gateway_assign_next_available_uplink_cell example_gateway_state.sched
      (mr_packet_header_t.of_bytes example_join_request_frame).src example_gateway_env.asn).1
      = 5 := by decide
  have h := (C27_join_request_at_gateway example_gateway_env example_gateway_state
    example_join_request_frame 24 rfl rfl rfl (Or.inl rfl) (by show 7 ≤ 149; decide)
    (by show (List.replicate 255 (0 : Nat)).length = 255; exact List.length_replicate _ _)).1
      (by rw [h5]; decide)
  exact ⟨h5, h.2.1, h.2.2.2.2.2⟩

theorem join_response_frame_eq (q : queue_vars_t) (node_id cell device_id network_id : Nat)
    (out : List Nat) (hbuf : sizeof_mr_packet_header_t < q.join_packet.buffer.length)
    (hcell : cell < 256) :
    join_response_frame q node_id cell device_id network_id out =
      ({ version := MARI_PROTOCOL_VERSION, type := MARI_PACKET_JOIN_RESPONSE,
         network_id := network_id, dst := node_id, src := device_id,
         stats_rssi := 0 } : mr_packet_header_t).bytes ++
        cell :: out.drop (sizeof_mr_packet_header_t + 1) := by
  obtain ⟨h1, h2, _, _⟩ := mr_queue_set_join_response_holder q node_id cell device_id
    network_id hbuf hcell
  have hlen := mr_packet_header_bytes_length
    { version := MARI_PROTOCOL_VERSION, type := MARI_PACKET_JOIN_RESPONSE,
      network_id := network_id, dst := node_id, src := device_id, stats_rssi := 0 }
  unfold join_response_frame mr_queue_get_join_packet
  simp only []
  unfold memcpy
  rw [h1, h2, List.take_append_eq_append_take, hlen]
  rw [List.take_of_length_le (by rw [hlen]; omega)]
  simp

/-- C28: for a requester id, a cell index `i` below 149 and a join holder with its
255-byte buffer, `mr_queue_set_join_response` puts in the holder a frame of the length
of the common header plus one; the frame sent from it has type JoinResponse, is
addressed to the requester, and its byte at the offset of the header length is `i`; a
node with that id in state Joining that accepts the network id handles the frame by
calling `mr_scheduler_node_assign_myself_to_cell` with index `i`. -/
theorem C28_join_response_round_trip (q : queue_vars_t) (id i device_id network_id : Nat)
    (out : List Nat)
    (hi : i < MARI_N_CELLS_MAX)
    (hbuf : q.join_packet.buffer.length = MARI_PACKET_MAX_SIZE) :
    (mr_queue_set_join_response q id i device_id network_id).join_packet.length =
      sizeof_mr_packet_header_t + 1 ∧
    (mr_queue_get_join_packet (mr_queue_set_join_response q id i device_id network_id) out).1 =
      sizeof_mr_packet_header_t + 1 ∧
    (mr_packet_header_t.of_bytes
      (join_response_frame q id i device_id network_id out)).type = MARI_PACKET_JOIN_RESPONSE ∧
    (mr_packet_header_t.of_bytes
      (join_response_frame q id i device_id network_id out)).dst = id % 2 ^ 64 ∧
    (join_response_frame q id i device_id network_id out).getD sizeof_mr_packet_header_t 0 = i ∧
    (∀ (env : mari_env_t) (s : mari_state_t) (length : Nat),
      env.node_type = MARI_NODE → env.device_id = id % 2 ^ 64 →
      s.assoc.state = JOIN_STATE_JOINING →
      mr_assoc_node_matches_network_id s.assoc (network_id % 2 ^ 16) = true →
      mr_handle_packet env s (join_response_frame q id i device_id network_id out) length =
        if (mr_scheduler_node_assign_myself_to_cell s.sched env.device_id i).1 = true then
          (true,
           { s with
               sched := (mr_scheduler_node_assign_myself_to_cell s.sched env.device_id i).2
               assoc := (mr_assoc_node_handle_joined env s.assoc s.queue
                 (device_id % 2 ^ 64)).1
               queue := (mr_assoc_node_handle_joined env s.assoc s.queue
                 (device_id % 2 ^ 64)).2.1 },
           (mr_assoc_node_handle_joined env s.assoc s.queue (device_id % 2 ^ 64)).2.2)
        else
          (true,
           { s with
               sched := (mr_scheduler_node_assign_myself_to_cell s.sched env.device_id i).2 },
           [(mr_event_t.MARI_ERROR,
             { node_id := 0, tag := mr_event_tag_t.MARI_NONE })])) := by
  have hi' : i < 256 := by unfold MARI_N_CELLS_MAX at hi; omega
  have hb : sizeof_mr_packet_header_t < q.join_packet.buffer.length := by
    rw [hbuf]; decide
  obtain ⟨h1, _, _, _⟩ := mr_queue_set_join_response_holder q id i device_id network_id hb hi'
  have hframe := join_response_frame_eq q id i device_id network_id out hb hi'
  have hparse := mr_packet_header_of_bytes_bytes
    { version := MARI_PROTOCOL_VERSION, type := MARI_PACKET_JOIN_RESPONSE,
      network_id := network_id, dst := id, src := device_id, stats_rssi := 0 }
    (i :: out.drop (sizeof_mr_packet_header_t + 1))
  rw [← hframe] at hparse
  have hbyte : (join_response_frame q id i device_id network_id out).getD
      sizeof_mr_packet_header_t 0 = i := by
    rw [hframe, header_bytes_getD_after]
  refine ⟨h1, h1, by rw [hparse]; rfl, by rw [hparse], hbyte, ?_⟩
  intro env s length hnode hdev hstate hmatch
  unfold mr_handle_packet
  simp only []
  rw [hparse]
  simp only []
  have hnw : ¬ ((decide (id % 2 ^ 64 ≠ env.device_id ∧
      id % 2 ^ 64 ≠ MARI_BROADCAST_ADDRESS) = true) ∧
      (decide (MARI_PACKET_JOIN_RESPONSE % 2 ^ 32 ≠ MARI_PACKET_BEACON) = true)) := by
    intro h
    exact (of_decide_eq_true h.1).1 hdev.symm
  rw [if_neg hnw, if_neg (by rw [hnode]; decide)]
  unfold mr_handle_packet_node
  simp only []
  rw [hparse]
  simp only []
  rw [if_neg (by rw [hmatch]; exact fun h => h rfl), if_neg (by decide), if_pos (by decide),
    if_neg (fun h => h hstate), if_neg (fun h => h hdev.symm), hbyte]

/-- Witness for C28: gateway 1 answers node 7 with cell 5; the example node reads 5. -/
theorem C28_join_response_round_trip_witness :
    (join_response_frame example_queue 7 5 1 1 []).getD sizeof_mr_packet_header_t 0 = 5 ∧
    (mr_packet_header_t.of_bytes (join_response_frame example_queue 7 5 1 1 [])).dst =
      7 % 2 ^ 64 := by
  have h := C28_join_response_round_trip example_queue 7 5 1 1 [] (by decide)
    (by show (List.replicate 255 (0 : Nat)).length = 255; exact List.length_replicate _ _)
  exact ⟨h.2.2.2.2.1, h.2.2.2.1⟩

/-! ## Theorems: data frames and the Downlink slot -/

theorem header_then_payload (h : mr_packet_header_t) (buffer data : List Nat) (n : Nat) :
    (memcpy buffer h.bytes sizeof_mr_packet_header_t).take sizeof_mr_packet_header_t ++
        memcpy ((memcpy buffer h.bytes sizeof_mr_packet_header_t).drop sizeof_mr_packet_header_t)
          data n =
      h.bytes ++ (data.take n ++ (buffer.drop sizeof_mr_packet_header_t).drop n) := by
  have hlen := mr_packet_header_bytes_length h
  have hb : h.bytes.take sizeof_mr_packet_header_t = h.bytes :=
    List.take_of_length_le (by rw [hlen])
  have hd : h.bytes.drop sizeof_mr_packet_header_t = [] :=
    List.drop_of_length_le (by rw [hlen])
  unfold memcpy
  rw [hb, List.take_append_of_le_length (by rw [hlen]), hb,
    List.drop_append_of_le_length (by rw [hlen]), hd, List.nil_append]

/-- C29: for a 64-bit destination and device id, a 16-bit network id and `n` payload
bytes, `mr_build_packet_data` returns the length of the common header plus `n` (at most
255 when `n ≤ 255 -` header length); the header of the buffer reads back as
version 2, type Data (16), the network id, the destination and the device id as source,
and the `n` bytes after the header are the payload bytes in order. -/
theorem C29_data_packet_round_trip (buffer : List Nat) (dst : Nat) (data : List Nat)
    (n device_id network_id : Nat)
    (hn : n ≤ data.length)
    (hdst : dst < 2 ^ 64) (hdev : device_id < 2 ^ 64) (hnet : network_id < 2 ^ 16) :
    (mr_build_packet_data buffer dst data n device_id network_id).1 =
      sizeof_mr_packet_header_t + n ∧
    (n ≤ 255 - sizeof_mr_packet_header_t →
      (mr_build_packet_data buffer dst data n device_id network_id).1 ≤ MARI_PACKET_MAX_SIZE) ∧
    mr_packet_header_t.of_bytes (mr_build_packet_data buffer dst data n device_id network_id).2 =
      { version := 2, type := 16, network_id := network_id, dst := dst, src := device_id,
        stats_rssi := 0 } ∧
    ((mr_build_packet_data buffer dst data n device_id network_id).2.drop
        sizeof_mr_packet_header_t).take n = data.take n ∧
    (∀ k, k < n →
      (mr_build_packet_data buffer dst data n device_id network_id).2.getD
        (sizeof_mr_packet_header_t + k) 0 = data.getD k 0) := by
  have hlen := mr_packet_header_bytes_length
    { version := MARI_PROTOCOL_VERSION, type := MARI_PACKET_DATA,
      network_id := network_id, dst := dst, src := device_id, stats_rssi := 0 }
  have hbuf : (mr_build_packet_data buffer dst data n device_id network_id).2 =
      ({ version := MARI_PROTOCOL_VERSION, type := MARI_PACKET_DATA,
         network_id := network_id, dst := dst, src := device_id,
         stats_rssi := 0 } : mr_packet_header_t).bytes ++
        (data.take n ++ (buffer.drop sizeof_mr_packet_header_t).drop n) := by
    unfold mr_build_packet_data _set_header
    simp only []
    exact header_then_payload _ buffer data n
  have htake : (data.take n).length = n := by
    rw [List.length_take]; omega
  refine ⟨rfl, ?_, ?_, ?_, ?_⟩
  · intro h
    show sizeof_mr_packet_header_t + n ≤ MARI_PACKET_MAX_SIZE
    unfold MARI_PACKET_MAX_SIZE
    have : sizeof_mr_packet_header_t = 24 := rfl
    omega
  · rw [hbuf, mr_packet_header_of_bytes_bytes]
    simp only []
    rw [Nat.mod_eq_of_lt hnet, Nat.mod_eq_of_lt hdst, Nat.mod_eq_of_lt hdev]
    rfl
  · rw [hbuf, List.drop_append_of_le_length (by rw [hlen]), List.drop_of_length_le (by rw [hlen]),
      List.nil_append, List.take_append_of_le_length (by rw [htake]),
      List.take_of_length_le (by rw [htake])]
  · intro k hk
    rw [hbuf, List.getD_eq_getElem?_getD, List.getElem?_append_right (by rw [hlen]; omega), hlen,
      Nat.add_sub_cancel_left, List.getElem?_append_left (by rw [htake]; exact hk),
      List.getElem?_take_of_lt hk, List.getD_eq_getElem?_getD]

/-- Witness for C29: a data frame from node 7 to gateway 1 with payload 10, 20, 30. -/
theorem C29_data_packet_round_trip_witness :
    (mr_build_packet_data [] 1 [10, 20, 30] 3 7 1).1 = sizeof_mr_packet_header_t + 3 ∧
    ((mr_build_packet_data [] 1 [10, 20, 30] 3 7 1).2.drop sizeof_mr_packet_header_t).take 3 =
      [10, 20, 30].take 3 := by
  have h := C29_data_packet_round_trip [] 1 [10, 20, 30] 3 7 1 (by decide) (by decide)
    (by decide) (by decide)
  exact ⟨h.1, h.2.2.2.1⟩

/-! ## Theorems: frames for another device -/

/-- C32: a frame that is not a beacon and whose destination is neither the device's own id
nor the broadcast address is dropped by `mr_handle_packet`, on a gateway and on a node
alike: the call returns false, passes no event to the application and leaves the
association, scheduler, scan, queue and bloom states as they were. -/
theorem C32_foreign_unicast_dropped (env : mari_env_t) (s : mari_state_t) (packet : List Nat)
    (length : Nat)
    (htype : (mr_packet_header_t.of_bytes packet).type ≠ MARI_PACKET_BEACON)
    (hown : (mr_packet_header_t.of_bytes packet).dst ≠ env.device_id)
    (hbc : (mr_packet_header_t.of_bytes packet).dst ≠ MARI_BROADCAST_ADDRESS) :
    mr_handle_packet env s packet length = (false, s, []) := by
  unfold mr_handle_packet
  simp only [hown, hbc, htype, ne_eq, not_false_eq_true, and_self, decide_True,
    Bool.and_self, if_true]

theorem C32_foreign_unicast_dropped_witness :
    mr_handle_packet example_node_env example_node_state example_foreign_frame 24
        = (false, example_node_state, []) ∧
      mr_handle_packet example_gateway_env example_gateway_state example_foreign_frame 24
        = (false, example_gateway_state, []) :=
  ⟨C32_foreign_unicast_dropped example_node_env example_node_state example_foreign_frame 24
      (by decide) (by decide) (by decide),
   C32_foreign_unicast_dropped example_gateway_env example_gateway_state example_foreign_frame 24
      (by decide) (by decide) (by decide)⟩

/-! ## Theorems: join timeout, zero-length frames -/

/-- C33: the join-response timeout check is wrong when the 32-bit microsecond counter
wraps between the join request and the check.  A node starts joining at
`t0 = 2^32 - 1000`: the deadline `t0 + 2670` wraps to 1670, and 500 microseconds later
(`now = 2^32 - 500`, before the deadline) `mr_assoc_node_too_long_waiting_for_join_response`
already returns true.  A node starts joining at `t0 = 2^32 - 2700`: the deadline is
`2^32 - 30`, and 3000 microseconds later (`now = 300`, after the deadline) the function
returns false. -/
theorem C33_join_timeout_wrong_across_wrap :
    (mr_assoc_node_start_joining example_assoc_synced 4294966296 4294966296).state
        = JOIN_STATE_JOINING ∧
      (mr_assoc_node_start_joining example_assoc_synced 4294966296 4294966296).join_response_timeout_ts
        = 1670 ∧
      (4294966296 + 500) % 2 ^ 32 = 4294966796 ∧
      mr_assoc_node_too_long_waiting_for_join_response
        { example_node_env with now_ts := (4294966296 + 500) % 2 ^ 32 }
        (mr_assoc_node_start_joining example_assoc_synced 4294966296 4294966296) = true ∧
      (mr_assoc_node_start_joining example_assoc_synced 4294964596 4294964596).join_response_timeout_ts
        = 4294967266 ∧
      (4294964596 + 3000) % 2 ^ 32 = 300 ∧
      mr_assoc_node_too_long_waiting_for_join_response
        { example_node_env with now_ts := (4294964596 + 3000) % 2 ^ 32 }
        (mr_assoc_node_start_joining example_assoc_synced 4294964596 4294964596) = false := by
  refine ⟨rfl, ?_, ?_, ?_, ?_, ?_, ?_⟩ <;> decide

theorem mr_queue_next_packet_ring_zero (q : queue_vars_t) (packet : List Nat)
    (h : (mr_queue_peek q packet).1 = 0) :
    mr_queue_next_packet_ring q packet = (0, packet, q) := by
  have h2 : (mr_queue_peek q packet).2 = packet := by
    unfold mr_queue_peek at h ⊢
    split_ifs at h ⊢ with h1 h2
    · rfl
    · rfl
    · simp only [] at h ⊢
      rw [h]
      simp [memcpy]
  unfold mr_queue_next_packet_ring
  simp only [h, ne_eq, not_true_eq_false, if_false, h2]

theorem queue_drain_zero_head (n : Nat) (q : queue_vars_t) (packet : List Nat)
    (hu : q.queue_locked = false) (hne : q.packet_queue.current ≠ q.packet_queue.last)
    (h0 : (q.slot q.packet_queue.current).length = 0) :
    queue_drain n q packet = List.replicate n (0, []) := by
  have hp : (mr_queue_peek q packet).1 = 0 := by
    unfold mr_queue_peek
    rw [hu]
    simp only [Bool.false_eq_true, if_false, if_neg hne]
    exact h0
  induction n with
  | zero => rfl
  | succ k ih =>
    rw [queue_drain, mr_queue_next_packet_ring_zero q packet hp]
    simp only [List.take_zero]
    rw [ih]
    rfl

/-- C40: on an unlocked queue `mr_queue_peek` returns 0 although the ring is not empty,
when the oldest frame has length 0.  After `mr_queue_add(p, 0)` and `mr_queue_add([5], 1)`
on the example queue the ring holds two frames (`current = 0`, `last = 2`), the peek
returns 0, and any number of successive ring dequeues (`len = mr_queue_peek(packet);
if (len) mr_queue_pop();`) return length 0 and leave the queue as it was: the frame `[5]`
is never returned. -/
theorem C40_zero_length_frame_blocks_ring :
    example_queue_zero_head.queue_locked = false ∧
      example_queue_zero_head.packet_queue.current = 0 ∧
      example_queue_zero_head.packet_queue.last = 2 ∧
      (example_queue_zero_head.slot 0).length = 0 ∧
      slot_holds (example_queue_zero_head.slot 1) [5] ∧
      (mr_queue_peek example_queue_zero_head (List.replicate 255 0)).1 = 0 ∧
      mr_queue_next_packet_ring example_queue_zero_head (List.replicate 255 0)
        = (0, List.replicate 255 0, example_queue_zero_head) ∧
      (∀ n : Nat, queue_drain n example_queue_zero_head (List.replicate 255 0)
        = List.replicate n (0, [])) := by
  have hp : (mr_queue_peek example_queue_zero_head (List.replicate 255 0)).1 = 0 := by decide
  refine ⟨rfl, rfl, rfl, rfl, ⟨rfl, rfl⟩, hp, ?_, ?_⟩
  · exact mr_queue_next_packet_ring_zero _ _ hp
  · intro n
    exact queue_drain_zero_head n _ _ rfl (by decide) rfl

/-- C31: on a node Uplink slot with a non-empty, unlocked ring whose oldest frame has
length 0, `mr_queue_next_packet` does not return and pop the oldest frame: it returns a
Keepalive frame (24 bytes, type 8, destination the synced gateway 1, source the own
id 7) and leaves the ring as it was (`current = 0`, `last = 2`). -/
theorem C31_zero_length_head_gives_keepalive :
    example_node_env.node_type = MARI_NODE ∧
      example_queue_zero_head.queue_locked = false ∧
      example_queue_zero_head.packet_queue.current = 0 ∧
      example_queue_zero_head.packet_queue.last = 2 ∧
      (mr_queue_next_packet example_node_env example_gateway example_bloom
        example_queue_zero_head example_assoc_joined SLOT_TYPE_UPLINK
        (List.replicate 255 0)).1 = 24 ∧
      mr_packet_header_t.of_bytes
        (mr_queue_next_packet example_node_env example_gateway example_bloom
          example_queue_zero_head example_assoc_joined SLOT_TYPE_UPLINK
          (List.replicate 255 0)).2.1
        = { version := MARI_PROTOCOL_VERSION, type := MARI_PACKET_KEEPALIVE, network_id := 1,
            dst := 1, src := 7, stats_rssi := 0 } ∧
      (mr_queue_next_packet example_node_env example_gateway example_bloom
        example_queue_zero_head example_assoc_joined SLOT_TYPE_UPLINK
        (List.replicate 255 0)).2.2.1 = example_queue_zero_head := by
  have hp : (mr_queue_peek example_queue_zero_head (List.replicate 255 0)).1 = 0 := by decide
  have hr := mr_queue_next_packet_ring_zero _ _ hp
  have hn : mr_queue_next_packet example_node_env example_gateway example_bloom
        example_queue_zero_head example_assoc_joined SLOT_TYPE_UPLINK
        (List.replicate 255 0) =
      (24, (mr_build_packet_keepalive (List.replicate 255 0) 1 7 1).2,
        example_queue_zero_head, example_assoc_joined) := by
    unfold mr_queue_next_packet
    rw [if_neg (by decide), if_neg (by decide), if_pos rfl, hr]
    rfl
  rw [hn]
  refine ⟨rfl, rfl, rfl, rfl, rfl, ?_, rfl⟩
  show mr_packet_header_t.of_bytes
    (memcpy (List.replicate 255 0) _ sizeof_mr_packet_header_t) = _
  decide

/-! ## Theorems: dispatch of the new schedule after a sync -/

theorem getD_set_self {α : Type} (l : List α) (i : Nat) (a d : α) (h : i < l.length) :
    (l.set i a).getD i d = a := by
  rw [getD_set_eq, if_pos ⟨rfl, h⟩]

/-- C39: the one-shot by which `sync_to_gateway` dispatches the new schedule never has
an underflowed delay.  With `Δ = now_ts - selected.timestamp` on 32 bits, a known schedule
id and a correction of 0 (initial sync) or 206 (handover), the period armed on channel 1
is exactly `((1780 - Δ mod 1780) + skip) - (541 + correction)` as an integer, where `skip`
is 1780 when `Δ mod 1780 > 890` and 0 otherwise; it lies between 143 and 2128, and the
compare register of channel 1 is set that many microseconds after `now`. -/
theorem C39_dispatch_offset_never_underflows (c : mac_ctx_t) (now_ts : Nat)
    (selected : mr_channel_info_t) (correction now : Nat)
    (hcorr : correction = 0 ∨ correction = 206)
    (hknown : (mr_scheduler_set_schedule c.sched selected.beacon.active_schedule_id).1 = true)
    (hcb : MARI_TIMER_CHANNEL_1 < c.timer.timer_callback.length)
    (hcc : MARI_TIMER_CHANNEL_1 < c.timer.cc.length) :
    (((sync_to_gateway c now_ts selected correction now).2.timer.timer_callback.getD
        MARI_TIMER_CHANNEL_1 { period_us := 0, one_shot := false, callback := none }).period_us
        : Int) =
        ((1780 : Int) - ((u32_sub now_ts selected.timestamp % 1780 : Nat) : Int)
          + (if u32_sub now_ts selected.timestamp % 1780 > 890 then 1780 else 0))
          - (541 + (correction : Int)) ∧
      143 ≤ ((sync_to_gateway c now_ts selected correction now).2.timer.timer_callback.getD
        MARI_TIMER_CHANNEL_1 { period_us := 0, one_shot := false, callback := none }).period_us ∧
      ((sync_to_gateway c now_ts selected correction now).2.timer.timer_callback.getD
        MARI_TIMER_CHANNEL_1 { period_us := 0, one_shot := false, callback := none }).period_us
          ≤ 2128 ∧
      (sync_to_gateway c now_ts selected correction now).2.timer.cc.getD MARI_TIMER_CHANNEL_1 0 =
        (now + ((sync_to_gateway c now_ts selected correction now).2.timer.timer_callback.getD
          MARI_TIMER_CHANNEL_1 { period_us := 0, one_shot := false, callback := none }).period_us)
          % 2 ^ 32 := by
  have hw : slot_durations.whole_slot = 1780 := rfl
  have hs : sync_to_gateway c now_ts selected correction now =
      (true,
       { c with
           sched := (mr_scheduler_set_schedule c.sched selected.beacon.active_schedule_id).2
           mac :=
             { c.mac with
                 synced_gateway := selected.beacon.src
                 synced_network_id := selected.beacon.network_id % 2 ^ 16
                 synced_ts := now_ts
                 asn := (selected.beacon.asn +
                   (if u32_sub now_ts selected.timestamp % 1780 > 1780 / 2 then
                     (u32_sub now_ts selected.timestamp / 1780 + 1 + 1, 1780)
                    else (u32_sub now_ts selected.timestamp / 1780 + 1, 0)).1) % 2 ^ 64 }
           timer := mr_timer_hf_set_oneshot_us c.timer MARI_TIMER_CHANNEL_1
             ((u64_sub ((1780 - u32_sub now_ts selected.timestamp % 1780) +
                (if u32_sub now_ts selected.timestamp % 1780 > 1780 / 2 then
                     (u32_sub now_ts selected.timestamp / 1780 + 1 + 1, 1780)
                    else (u32_sub now_ts selected.timestamp / 1780 + 1, 0)).2)
                ((541 + correction) % 2 ^ 64)) % 2 ^ 32)
             timer_hf_cb_t.activity_scan_dispatch_new_schedule now }) := by
    unfold sync_to_gateway
    simp only []
    rw [if_neg (by rw [hknown]; exact fun h => h rfl)]
    simp only [hw]
  rw [hs]
  simp only [mr_timer_hf_set_oneshot_us, timer_hf_arm]
  rw [getD_set_self _ _ _ _ hcb, getD_set_self _ _ _ _ hcc]
  simp only []
  have hm : u32_sub now_ts selected.timestamp % 1780 < 1780 := Nat.mod_lt _ (by decide)
  generalize u32_sub now_ts selected.timestamp % 1780 = m at hm ⊢
  unfold u64_sub
  by_cases hlate : m > 1780 / 2
  · have hlate2 : m > 890 := by omega
    rw [if_pos hlate, if_pos hlate2]
    simp only []
    rcases hcorr with h | h <;> subst h <;> refine ⟨?_, ?_, ?_, trivial⟩ <;> omega
  · have hlate2 : ¬ m > 890 := by omega
    rw [if_neg hlate, if_neg hlate2]
    simp only []
    rcases hcorr with h | h <;> subst h <;> refine ⟨?_, ?_, ?_, trivial⟩ <;> omega

/-- Witness for C39: the example node syncs at time 5000 to a beacon received at time
3000 (`Δ mod 1780 = 220`); at initial sync the dispatch delay is 1019 microseconds. -/
theorem C39_dispatch_offset_never_underflows_witness :
    143 ≤ ((sync_to_gateway example_sync_ctx 5000 example_selected 0 5003).2.timer.timer_callback.getD
        MARI_TIMER_CHANNEL_1 { period_us := 0, one_shot := false, callback := none }).period_us ∧
      ((sync_to_gateway example_sync_ctx 5000 example_selected 0 5003).2.timer.timer_callback.getD
        MARI_TIMER_CHANNEL_1 { period_us := 0, one_shot := false, callback := none }).period_us
          ≤ 2128 :=
  ⟨(C39_dispatch_offset_never_underflows example_sync_ctx 5000 example_selected 0 5003
      (Or.inl rfl) (by decide) (by decide) (by decide)).2.1,
   (C39_dispatch_offset_never_underflows example_sync_ctx 5000 example_selected 0 5003
      (Or.inl rfl) (by decide) (by decide) (by decide)).2.2.1⟩

/-! ## Theorems: usage statistics -/

theorem stats_register_word_testBit (word b j : Nat) (used : Bool) (hb : b < 64) :
    (stats_register_word word b (if used then 1 else 0)).testBit j =
      ((word.testBit j && (decide (j < 64) && !decide (b = j))) || (used && decide (b = j))) := by
  have hlt : 2 ^ b < 2 ^ 64 := Nat.pow_lt_pow_right (by decide) hb
  have h1 : (1 <<< b) % 2 ^ 64 = 2 ^ b := by
    rw [Nat.one_shiftLeft, Nat.mod_eq_of_lt hlt]
  have hmask : (2 ^ 64 - 1 - 2 ^ b).testBit j = (decide (j < 64) && !decide (b = j)) := by
    have e : 2 ^ 64 - 1 - 2 ^ b = 2 ^ 64 - (2 ^ b + 1) := by omega
    rw [e, Nat.testBit_two_pow_sub_succ hlt, Nat.testBit_two_pow]
  have henc : (((if used then 1 else 0) <<< b) % 2 ^ 64).testBit j = (used && decide (b = j)) := by
    cases used
    · simp
    · simp only [if_true, Bool.true_and]
      rw [h1, Nat.testBit_two_pow]
  unfold stats_register_word
  rw [Nat.testBit_lor, Nat.testBit_and, h1, hmask, henc]

theorem stats_register_word_idem (word b : Nat) (used : Bool) (hb : b < 64) :
    stats_register_word (stats_register_word word b (if used then 1 else 0)) b
        (if used then 1 else 0) =
      stats_register_word word b (if used then 1 else 0) := by
  apply Nat.eq_of_testBit_eq
  intro j
  rw [stats_register_word_testBit _ b j used hb, stats_register_word_testBit _ b j used hb]
  cases word.testBit j <;> cases used <;> cases decide (j < 64) <;> cases decide (b = j) <;> rfl

theorem mr_scheduler_tick_cell_index (st : schedule_vars_t) (av : assoc_vars_t)
    (node_type : mr_node_type_t) (device_id asn : Nat) :
    (mr_scheduler_tick st av node_type device_id asn).2.1.current_cell_index =
      asn % st.active_schedule.n_cells := by
  unfold mr_scheduler_tick
  simp only []
  split_ifs <;> rfl

/-- C35: after `mr_scheduler_tick` on a schedule of 1 to 149 cells has selected cell
`i = asn mod n_cells`, `mr_scheduler_stats_register_used_slot(used)` sets bit `i mod 64`
of word `i div 64` of the four-word bitmap to `used` and leaves every other bit of the
four words as it was; the bitmap keeps its four words, and registering the same value a
second time changes nothing. -/
theorem C35_register_used_slot_sets_one_bit (st : schedule_vars_t) (av : assoc_vars_t)
    (node_type : mr_node_type_t) (device_id asn : Nat) (stats : schedule_stats_t)
    (used : Bool)
    (hcells : 0 < st.active_schedule.n_cells)
    (hmax : st.active_schedule.n_cells ≤ MARI_N_CELLS_MAX)
    (hlen : stats.sched_usage.length = MARI_STATS_SCHED_USAGE_SIZE) :
    (∀ w j : Nat, w < 4 → j < 64 →
      usage_bit
        (mr_scheduler_stats_register_used_slot
          (mr_scheduler_tick st av node_type device_id asn).2.1 stats used) w j =
        if w = asn % st.active_schedule.n_cells / 64 ∧
            j = asn % st.active_schedule.n_cells % 64 then used
        else usage_bit stats w j) ∧
      (mr_scheduler_stats_register_used_slot
        (mr_scheduler_tick st av node_type device_id asn).2.1 stats used).sched_usage.length
          = 4 ∧
      mr_scheduler_stats_register_used_slot
        (mr_scheduler_tick st av node_type device_id asn).2.1
        (mr_scheduler_stats_register_used_slot
          (mr_scheduler_tick st av node_type device_id asn).2.1 stats used) used =
        mr_scheduler_stats_register_used_slot
          (mr_scheduler_tick st av node_type device_id asn).2.1 stats used := by
  have hi : asn % st.active_schedule.n_cells < st.active_schedule.n_cells :=
    Nat.mod_lt _ hcells
  have hmax2 : st.active_schedule.n_cells ≤ 149 := hmax
  have hlen4 : stats.sched_usage.length = 4 := hlen
  generalize hidx : asn % st.active_schedule.n_cells = i at hi ⊢
  have hi149 : i < 149 := by omega
  have hreg : ∀ s : schedule_stats_t,
      mr_scheduler_stats_register_used_slot
        (mr_scheduler_tick st av node_type device_id asn).2.1 s used =
      { s with
          sched_usage := s.sched_usage.set (i / 64)
            (stats_register_word (s.sched_usage.getD (i / 64) 0) (i % 64)
              (if used then 1 else 0)) } := by
    intro s
    unfold mr_scheduler_stats_register_used_slot
    rw [mr_scheduler_tick_cell_index, hidx]
    have h256 : i % 256 = i := Nat.mod_eq_of_lt (by omega)
    simp only [h256]
    rw [if_pos (show i / 64 < MARI_STATS_SCHED_USAGE_SIZE by
      show i / 64 < 4
      omega)]
  have hw : i / 64 < stats.sched_usage.length := by omega
  have hb : i % 64 < 64 := Nat.mod_lt _ (by decide)
  refine ⟨?_, ?_, ?_⟩
  · intro w j _ hj
    rw [hreg]
    unfold usage_bit
    simp only []
    rw [getD_set_eq]
    by_cases hwi : w = i / 64
    · subst hwi
      rw [if_pos ⟨rfl, hw⟩, stats_register_word_testBit _ _ _ _ hb]
      by_cases hji : j = i % 64
      · subst hji
        rw [if_pos ⟨rfl, rfl⟩]
        simp
      · rw [if_neg (fun h => hji h.2)]
        have hne : ¬ i % 64 = j := fun h => hji h.symm
        simp [hj, hne]
    · rw [if_neg (fun h => hwi h.1.symm), if_neg (fun h => hwi h.1)]
  · rw [hreg]
    simp only [List.length_set]
    exact hlen4
  · rw [hreg, hreg]
    simp only []
    rw [getD_set_self _ _ _ _ hw, List.set_set, stats_register_word_idem _ _ _ hb]

/-- Witness for C35: on the ticked example schedule at ASN 12 (cell 5), registering a
used slot leaves bit 0 of word 0 set. -/
theorem C35_register_used_slot_sets_one_bit_witness :
    usage_bit
      (mr_scheduler_stats_register_used_slot
        (mr_scheduler_tick example_gateway example_assoc MARI_GATEWAY 1 12).2.1
        example_stats true) 0 0 = true :=
  ((C35_register_used_slot_sets_one_bit example_gateway example_assoc MARI_GATEWAY 1 12
    example_stats true (by decide) (by decide) rfl).1 0 0 (by decide) (by decide)).trans
    (by decide)

/-! ## Theorems: rebuild of the bloom filter -/

theorem bloom_idx_eq_mod (h1 h2 k : Nat) : bloom_idx h1 h2 k = (h1 + k * h2) % 1024 := by
  unfold bloom_idx MARI_BLOOM_M_BITS
  have e := Nat.and_pow_two_sub_one_eq_mod ((h1 + (k * h2) % 2 ^ 64) % 2 ^ 64) 10
  have e2 : (1024 : Nat) - 1 = 2 ^ 10 - 1 := by decide
  rw [e2, e]
  generalize k * h2 = m
  omega

theorem bloom_set_bit_iff (bloom : List Nat) (idx j : Nat) (h : idx / 8 < bloom.length) :
    bloom_bit (bloom_set_bit bloom idx) j = true ↔ (bloom_bit bloom j = true ∨ j = idx) := by
  unfold bloom_bit bloom_set_bit
  rw [getD_set_eq]
  by_cases hb : idx / 8 = j / 8
  · rw [if_pos ⟨hb, h⟩, Nat.testBit_lor, Nat.one_shiftLeft, Nat.testBit_two_pow, hb]
    simp only [Bool.or_eq_true, decide_eq_true_eq]
    constructor
    · rintro (h1 | h1)
      · exact Or.inl h1
      · right; omega
    · rintro (h1 | h1)
      · exact Or.inl h1
      · right; omega
  · rw [if_neg (fun hh => hb hh.1)]
    constructor
    · intro h1; exact Or.inl h1
    · rintro (h1 | h1)
      · exact h1
      · exact absurd (by rw [h1]) hb

theorem bloom_set_hashes_iff (bloom : List Nat) (h1 h2 j : Nat) (hlen : bloom.length = 128) :
    bloom_bit (bloom_set_hashes bloom h1 h2) j = true ↔
      (bloom_bit bloom j = true ∨ ∃ k, k < 2 ∧ j = bloom_idx h1 h2 k) := by
  simp only [bloom_set_hashes, MARI_BLOOM_K_HASHES, List.range_succ, List.range_zero,
    List.nil_append, List.cons_append, List.foldl_cons, List.foldl_nil]
  have hlt0 := bloom_idx_lt h1 h2 0
  have hlt1 := bloom_idx_lt h1 h2 1
  rw [bloom_set_bit_iff _ _ _ (by rw [bloom_set_bit_length]; omega),
    bloom_set_bit_iff _ _ _ (by omega)]
  constructor
  · rintro ((h | h) | h)
    · exact Or.inl h
    · exact Or.inr ⟨0, by decide, h⟩
    · exact Or.inr ⟨1, by decide, h⟩
  · rintro (h | ⟨k, hk, h⟩)
    · exact Or.inl (Or.inl h)
    · have hk' : k = 0 ∨ k = 1 := by omega
      rcases hk' with rfl | rfl
      · exact Or.inl (Or.inr h)
      · exact Or.inr h

theorem bloom_compute_loop_iff (cells : List cell_t) :
    ∀ (bloom : List Nat) (j : Nat), bloom.length = 128 →
      (bloom_bit (bloom_compute_loop cells bloom) j = true ↔
        (bloom_bit bloom j = true ∨ bloom_position_of cells j)) := by
  induction cells with
  | nil =>
    intro bloom j _
    unfold bloom_compute_loop bloom_position_of
    simp
  | cons a rest ih =>
    intro bloom j hlen
    have hcons : bloom_position_of (a :: rest) j ↔
        ((a.type = SLOT_TYPE_UPLINK ∧ a.assigned_node_id ≠ 0 ∧
          ∃ k, k < 2 ∧ j = (a.bloom_h1 + k * a.bloom_h2) % 1024) ∨
          bloom_position_of rest j) := by
      unfold bloom_position_of
      simp only [List.mem_cons, exists_eq_or_imp]
    rw [hcons]
    by_cases hty : a.type ≠ SLOT_TYPE_UPLINK
    · rw [bloom_compute_loop, if_pos hty, ih bloom j hlen]
      constructor
      · rintro (h | h)
        · exact Or.inl h
        · exact Or.inr (Or.inr h)
      · rintro (h | h | h)
        · exact Or.inl h
        · exact absurd h.1 hty
        · exact Or.inr h
    · by_cases hid : a.assigned_node_id = 0
      · rw [bloom_compute_loop, if_neg hty, if_pos hid, ih bloom j hlen]
        constructor
        · rintro (h | h)
          · exact Or.inl h
          · exact Or.inr (Or.inr h)
        · rintro (h | h | h)
          · exact Or.inl h
          · exact absurd hid h.2.1
          · exact Or.inr h
      · rw [bloom_compute_loop, if_neg hty, if_neg hid,
          ih _ j (by rw [bloom_set_hashes_length]; exact hlen),
          bloom_set_hashes_iff bloom _ _ j hlen]
        have hty2 : a.type = SLOT_TYPE_UPLINK := not_not.mp hty
        constructor
        · rintro ((h | ⟨k, hk, h⟩) | h)
          · exact Or.inl h
          · exact Or.inr (Or.inl ⟨hty2, hid, k, hk, by rw [h, bloom_idx_eq_mod]⟩)
          · exact Or.inr (Or.inr h)
        · rintro (h | ⟨_, _, k, hk, h⟩ | h)
          · exact Or.inl (Or.inl h)
          · exact Or.inl (Or.inr ⟨k, hk, by rw [h, bloom_idx_eq_mod]⟩)
          · exact Or.inr h

theorem bloom_bit_zero (n j : Nat) : bloom_bit (List.replicate n 0) j = false := by
  unfold bloom_bit
  have h : (List.replicate n 0).getD (j / 8) 0 = 0 := by
    rw [List.getD_eq_getElem?_getD, List.getElem?_replicate]
    split <;> rfl
  rw [h, Nat.zero_testBit]

theorem bloom_compute_loop_no_assigned (cells : List cell_t) :
    ∀ (bloom : List Nat),
      (∀ c ∈ cells, c.type = SLOT_TYPE_UPLINK → c.assigned_node_id = 0) →
      bloom_compute_loop cells bloom = bloom := by
  induction cells with
  | nil => intro bloom _; rfl
  | cons a rest ih =>
    intro bloom h
    have hrest := ih bloom (fun c hc => h c (List.mem_cons_of_mem a hc))
    by_cases hty : a.type ≠ SLOT_TYPE_UPLINK
    · rw [bloom_compute_loop, if_pos hty, hrest]
    · rw [bloom_compute_loop, if_neg hty,
        if_pos (h a (List.mem_cons_self a rest) (not_not.mp hty)), hrest]

theorem mr_bloom_node_contains_zero (node_id n : Nat) :
    mr_bloom_node_contains node_id (List.replicate n 0) = false := by
  have h : ∀ i, (List.replicate n 0).getD i 0 = 0 := by
    intro i
    rw [List.getD_eq_getElem?_getD, List.getElem?_replicate]
    split <;> rfl
  unfold mr_bloom_node_contains
  simp only [MARI_BLOOM_K_HASHES, List.range_succ, List.range_zero, List.nil_append,
    List.cons_append, List.all_cons, h, Nat.zero_and]
  rfl

/-- C34: `mr_bloom_gateway_event_loop`.  When the dirty flag is set, the flag is cleared
and the filter is rebuilt from zero: it has 128 bytes and, for every bit index below
1024, the bit is 1 if and only if the index is `(h1 + k * h2) mod 1024` for `k = 0` or
`k = 1` and the cached hashes `(h1, h2)` of some Uplink cell with a non-zero node id; if
no Uplink cell has a node id, every byte of the filter is zero and
`mr_bloom_node_contains` is false for every node id.  When the flag is clear, nothing
changes. -/
theorem C34_event_loop_rebuilds_exact_filter (bv : bloom_vars_t) (st : schedule_vars_t) :
    (bv.is_dirty = true →
      (mr_bloom_gateway_event_loop bv st).is_dirty = false ∧
      (mr_bloom_gateway_event_loop bv st).bloom.length = 128 ∧
      (∀ j, j < 1024 →
        (bloom_bit (mr_bloom_gateway_event_loop bv st).bloom j = true ↔
          bloom_position_of st.active_schedule.cells j)) ∧
      ((∀ c ∈ st.active_schedule.cells, c.type = SLOT_TYPE_UPLINK → c.assigned_node_id = 0) →
        (mr_bloom_gateway_event_loop bv st).bloom = List.replicate 128 0 ∧
        ∀ node_id, mr_bloom_node_contains node_id (mr_bloom_gateway_event_loop bv st).bloom
          = false)) ∧
    (bv.is_dirty = false → mr_bloom_gateway_event_loop bv st = bv) := by
  have hlen : (List.replicate MARI_BLOOM_M_BYTES 0).length = 128 := by
    simp [MARI_BLOOM_M_BYTES, MARI_BLOOM_M_BITS]
  refine ⟨?_, ?_⟩
  · intro hd
    have he : mr_bloom_gateway_event_loop bv st =
        mr_bloom_gateway_set_clean (mr_bloom_gateway_compute bv st) := by
      unfold mr_bloom_gateway_event_loop mr_bloom_gateway_is_dirty
      rw [if_pos hd]
    rw [he]
    refine ⟨rfl, ?_, ?_, ?_⟩
    · simp only [mr_bloom_gateway_set_clean, mr_bloom_gateway_compute]
      rw [bloom_compute_loop_length, hlen]
    · intro j _
      simp only [mr_bloom_gateway_set_clean, mr_bloom_gateway_compute]
      rw [bloom_compute_loop_iff _ _ j hlen, bloom_bit_zero]
      simp
    · intro hnone
      have hz : (mr_bloom_gateway_set_clean (mr_bloom_gateway_compute bv st)).bloom =
          List.replicate 128 0 := by
        simp only [mr_bloom_gateway_set_clean, mr_bloom_gateway_compute]
        rw [bloom_compute_loop_no_assigned _ _ hnone]
        rfl
      rw [hz]
      exact ⟨rfl, fun node_id => mr_bloom_node_contains_zero node_id 128⟩
  · intro hc
    unfold mr_bloom_gateway_event_loop mr_bloom_gateway_is_dirty
    rw [hc]
    rfl

/-- Witness for C34: on the freshly booted example gateway, which has no assigned cell,
a dirty filter is rebuilt to all zero. -/
theorem C34_event_loop_rebuilds_exact_filter_witness :
    (mr_bloom_gateway_event_loop { example_bloom with is_dirty := true } example_gateway).bloom
      = List.replicate 128 0 :=
  (((C34_event_loop_rebuilds_exact_filter { example_bloom with is_dirty := true }
    example_gateway).1 rfl).2.2.2 (by decide)).1

/-! ## Theorems: the assigned-nodes counter -/

theorem assigned_uplink_count_cons (a : cell_t) (rest : List cell_t) :
    assigned_uplink_count (a :: rest) =
      assigned_uplink_count rest +
        (if a.type = SLOT_TYPE_UPLINK ∧ a.assigned_node_id ≠ 0 then 1 else 0) := by
  unfold assigned_uplink_count
  rw [List.countP_cons]
  simp only [decide_eq_true_eq]

theorem free_uplink_count_cons (a : cell_t) (rest : List cell_t) :
    free_uplink_count (a :: rest) =
      free_uplink_count rest +
        (if a.type = SLOT_TYPE_UPLINK ∧ a.assigned_node_id = 0 then 1 else 0) := by
  unfold free_uplink_count
  rw [List.countP_cons]
  simp only [decide_eq_true_eq]

theorem uplink_count_cons (a : cell_t) (rest : List cell_t) :
    uplink_count (a :: rest) =
      uplink_count rest + (if a.type = SLOT_TYPE_UPLINK then 1 else 0) := by
  unfold uplink_count
  rw [List.countP_cons]
  simp only [decide_eq_true_eq]

theorem uplink_count_split (cells : List cell_t) :
    uplink_count cells = assigned_uplink_count cells + free_uplink_count cells := by
  induction cells with
  | nil => rfl
  | cons a rest ih =>
    rw [uplink_count_cons, assigned_uplink_count_cons, free_uplink_count_cons, ih]
    by_cases hty : a.type = SLOT_TYPE_UPLINK <;> by_cases hid : a.assigned_node_id = 0 <;>
      simp [hty, hid] <;> omega

theorem assigned_uplink_count_le_length (cells : List cell_t) :
    assigned_uplink_count cells ≤ cells.length := by
  unfold assigned_uplink_count
  exact List.countP_le_length _

theorem assigned_uplink_count_of_free (cells : List cell_t)
    (h : ∀ c ∈ cells, c.assigned_node_id = 0) : assigned_uplink_count cells = 0 := by
  induction cells with
  | nil => rfl
  | cons a rest ih =>
    rw [assigned_uplink_count_cons, ih (fun c hc => h c (List.mem_cons_of_mem a hc))]
    have ha := h a (List.mem_cons_self a rest)
    simp [ha]

theorem assign_loop_counts (node_id asn : Nat) (hid : node_id ≠ 0) (cells : List cell_t) :
    ∀ (i cnt : Nat), cnt < 255 →
      (assign_loop node_id asn i cnt cells).2.2 + assigned_uplink_count cells =
          cnt + assigned_uplink_count (assign_loop node_id asn i cnt cells).2.1 ∧
        (assign_loop node_id asn i cnt cells).2.1.map (fun c => c.type) =
          cells.map (fun c => c.type) := by
  induction cells with
  | nil => intro i cnt _; exact ⟨rfl, rfl⟩
  | cons a rest ih =>
    intro i cnt hcnt
    by_cases h1 : a.type = SLOT_TYPE_UPLINK ∧ a.assigned_node_id = 0
    · rw [assign_loop, if_pos h1]
      have hm : (cnt + 1) % 256 = cnt + 1 := Nat.mod_eq_of_lt (by omega)
      have hnew : a.type = SLOT_TYPE_UPLINK ∧ node_id ≠ 0 := ⟨h1.1, hid⟩
      have hold : ¬ (a.type = SLOT_TYPE_UPLINK ∧ a.assigned_node_id ≠ 0) := fun h => h.2 h1.2
      constructor
      · simp only [assigned_uplink_count_cons, if_pos hnew, if_neg hold, hm]
        omega
      · exact rfl
    · by_cases h2 : a.type = SLOT_TYPE_UPLINK ∧ a.assigned_node_id = node_id
      · rw [assign_loop, if_neg h1, if_pos h2]
        have hold : a.type = SLOT_TYPE_UPLINK ∧ a.assigned_node_id ≠ 0 :=
          ⟨h2.1, by rw [h2.2]; exact hid⟩
        constructor
        · simp only [assigned_uplink_count_cons, if_pos hold]
        · exact rfl
      · rw [assign_loop, if_neg h1, if_neg h2]
        obtain ⟨e1, e2⟩ := ih (i + 1) cnt hcnt
        constructor
        · simp only [assigned_uplink_count_cons]
          omega
        · simp only [List.map_cons]
          rw [e2]

theorem clear_old_loop_counts (asn max_asn_old : Nat) (cells : List cell_t) :
    ∀ (cnt : Nat), assigned_uplink_count cells ≤ cnt → cnt < 256 →
      (clear_old_loop asn max_asn_old cnt cells).2.1 + assigned_uplink_count cells =
          cnt + assigned_uplink_count (clear_old_loop asn max_asn_old cnt cells).1 ∧
        (clear_old_loop asn max_asn_old cnt cells).1.map (fun c => c.type) =
          cells.map (fun c => c.type) := by
  induction cells with
  | nil => intro cnt _ _; exact ⟨rfl, rfl⟩
  | cons a rest ih =>
    intro cnt hle hcnt
    rw [assigned_uplink_count_cons] at hle
    by_cases h1 : a.type ≠ SLOT_TYPE_UPLINK
    · rw [clear_old_loop, if_pos h1]
      obtain ⟨e1, e2⟩ := ih cnt (by omega) hcnt
      constructor
      · simp only [assigned_uplink_count_cons]
        omega
      · simp only [List.map_cons]
        rw [e2]
    · have hty : a.type = SLOT_TYPE_UPLINK := not_not.mp h1
      by_cases h2 : a.assigned_node_id ≠ 0 ∧ u64_sub asn a.last_received_asn > max_asn_old
      · rw [clear_old_loop, if_neg h1, if_pos h2]
        have hold : a.type = SLOT_TYPE_UPLINK ∧ a.assigned_node_id ≠ 0 := ⟨hty, h2.1⟩
        have hnew : ¬ (a.type = SLOT_TYPE_UPLINK ∧ (0 : Nat) ≠ 0) := fun h => h.2 rfl
        rw [if_pos hold] at hle
        have hd : mr_scheduler_gateway_decrease_nodes_counter cnt = cnt - 1 := by
          unfold mr_scheduler_gateway_decrease_nodes_counter
          omega
        rw [hd]
        obtain ⟨e1, e2⟩ := ih (cnt - 1) (by omega) (by omega)
        constructor
        · simp only [assigned_uplink_count_cons, if_pos hold, if_neg hnew]
          omega
        · simp only [List.map_cons]
          rw [e2]
      · rw [clear_old_loop, if_neg h1, if_neg h2]
        obtain ⟨e1, e2⟩ := ih cnt (by omega) hcnt
        constructor
        · simp only [assigned_uplink_count_cons]
          omega
        · simp only [List.map_cons]
          rw [e2]

theorem uplink_count_of_types (cells1 cells2 : List cell_t)
    (h : cells1.map (fun c => c.type) = cells2.map (fun c => c.type)) :
    uplink_count cells1 = uplink_count cells2 ∧ cells1.length = cells2.length := by
  have hl : cells1.length = cells2.length := by
    have := congrArg List.length h
    simpa using this
  refine ⟨?_, hl⟩
  have e : ∀ cells : List cell_t,
      uplink_count cells = (cells.map (fun c => c.type)).countP (fun t => t = SLOT_TYPE_UPLINK) := by
    intro cells
    unfold uplink_count
    rw [List.countP_map]
    rfl
  rw [e, e, h]

theorem gateway_step_counts (st : schedule_vars_t) (op : gateway_op)
    (hop : op.node_id_nonzero)
    (hlen : st.active_schedule.cells.length < 255)
    (hinv : st.num_assigned_uplink_nodes = assigned_uplink_count st.active_schedule.cells) :
    (gateway_step st op).num_assigned_uplink_nodes =
        assigned_uplink_count (gateway_step st op).active_schedule.cells ∧
      (gateway_step st op).active_schedule.cells.map (fun c => c.type) =
        st.active_schedule.cells.map (fun c => c.type) ∧
      (gateway_step st op).active_schedule.max_nodes = st.active_schedule.max_nodes := by
  have hle := assigned_uplink_count_le_length st.active_schedule.cells
  cases op with
  | assign node_id asn =>
    obtain ⟨e1, e2⟩ := assign_loop_counts node_id asn hop st.active_schedule.cells 0
      st.num_assigned_uplink_nodes (by omega)
    refine ⟨?_, e2, rfl⟩
    show (assign_loop node_id asn 0 st.num_assigned_uplink_nodes st.active_schedule.cells).2.2 =
      assigned_uplink_count
        (assign_loop node_id asn 0 st.num_assigned_uplink_nodes st.active_schedule.cells).2.1
    omega
  | sweep asn =>
    obtain ⟨e1, e2⟩ := clear_old_loop_counts asn
      (mr_scheduler_get_active_schedule_slot_count st * MARI_MAX_SLOTFRAMES_NO_RX_LEAVE)
      st.active_schedule.cells st.num_assigned_uplink_nodes (by omega) (by omega)
    refine ⟨?_, e2, rfl⟩
    show (clear_old_loop asn
        (mr_scheduler_get_active_schedule_slot_count st * MARI_MAX_SLOTFRAMES_NO_RX_LEAVE)
        st.num_assigned_uplink_nodes st.active_schedule.cells).2.1 =
      assigned_uplink_count (clear_old_loop asn
        (mr_scheduler_get_active_schedule_slot_count st * MARI_MAX_SLOTFRAMES_NO_RX_LEAVE)
        st.num_assigned_uplink_nodes st.active_schedule.cells).1
    omega

theorem gateway_run_counts (ops : List gateway_op) :
    ∀ (st : schedule_vars_t), (∀ op ∈ ops, op.node_id_nonzero) →
      st.active_schedule.cells.length < 255 →
      st.num_assigned_uplink_nodes = assigned_uplink_count st.active_schedule.cells →
      (gateway_run st ops).num_assigned_uplink_nodes =
          assigned_uplink_count (gateway_run st ops).active_schedule.cells ∧
        (gateway_run st ops).active_schedule.cells.map (fun c => c.type) =
          st.active_schedule.cells.map (fun c => c.type) ∧
        (gateway_run st ops).active_schedule.max_nodes = st.active_schedule.max_nodes := by
  induction ops with
  | nil => intro st _ _ hinv; exact ⟨hinv, rfl, rfl⟩
  | cons op rest ih =>
    intro st hops hlen hinv
    obtain ⟨s1, s2, s3⟩ := gateway_step_counts st op (hops op (List.mem_cons_self op rest))
      hlen hinv
    have hl := (uplink_count_of_types _ _ s2).2
    obtain ⟨r1, r2, r3⟩ := ih (gateway_step st op)
      (fun o ho => hops o (List.mem_cons_of_mem op ho)) (by rw [hl]; exact hlen) s1
    exact ⟨r1, r2.trans s2, r3.trans s3⟩

/-- C38: on a gateway whose schedule has at most 149 cells, none of them assigned, and
whose counter is zero, after any sequence of join requests with non-zero node ids and
timeout sweeps the assigned-nodes counter is the number of Uplink cells with a non-zero
node id.  Hence, when `max_nodes` is the number of Uplink cells, the `uint8_t`
difference `mr_scheduler_gateway_remaining_capacity` does not underflow (the counter is at
most `max_nodes`) and is the number of free Uplink cells. -/
theorem C38_counter_equals_assigned_cells (st : schedule_vars_t) (ops : List gateway_op)
    (hinit : ∀ c ∈ st.active_schedule.cells, c.assigned_node_id = 0)
    (hzero : st.num_assigned_uplink_nodes = 0)
    (hmax : st.active_schedule.n_cells ≤ MARI_N_CELLS_MAX)
    (hops : ∀ op ∈ ops, op.node_id_nonzero) :
    (gateway_run st ops).num_assigned_uplink_nodes =
        assigned_uplink_count (gateway_run st ops).active_schedule.cells ∧
      (st.active_schedule.max_nodes = uplink_count st.active_schedule.cells →
        (gateway_run st ops).num_assigned_uplink_nodes ≤
            (gateway_run st ops).active_schedule.max_nodes ∧
          mr_scheduler_gateway_remaining_capacity (gateway_run st ops) =
            free_uplink_count (gateway_run st ops).active_schedule.cells) := by
  have hlen : st.active_schedule.cells.length < 255 := by
    have h149 : st.active_schedule.cells.length ≤ 149 := hmax
    omega
  obtain ⟨r1, r2, r3⟩ := gateway_run_counts ops st hops hlen
    (by rw [hzero, assigned_uplink_count_of_free _ hinit])
  refine ⟨r1, ?_⟩
  intro hmn
  obtain ⟨u1, u2⟩ := uplink_count_of_types _ _ r2
  have hsplit := uplink_count_split (gateway_run st ops).active_schedule.cells
  have hule : uplink_count (gateway_run st ops).active_schedule.cells ≤
      (gateway_run st ops).active_schedule.cells.length := by
    unfold uplink_count
    exact List.countP_le_length _
  unfold mr_scheduler_gateway_remaining_capacity uint8_wrap
  rw [r3, hmn, r1]
  constructor
  · omega
  · omega

/-- Witness for C38: after nodes 3 and 7 joined the example gateway and a sweep at
ASN 100 evicted node 3, the counter is 1 and the remaining capacity is 1. -/
theorem C38_counter_equals_assigned_cells_witness :
    (gateway_run example_gateway [.assign 3 0, .assign 7 100, .sweep 100]).num_assigned_uplink_nodes =
        assigned_uplink_count
          (gateway_run example_gateway
            [.assign 3 0, .assign 7 100, .sweep 100]).active_schedule.cells ∧
      mr_scheduler_gateway_remaining_capacity
          (gateway_run example_gateway [.assign 3 0, .assign 7 100, .sweep 100]) =
        free_uplink_count
          (gateway_run example_gateway
            [.assign 3 0, .assign 7 100, .sweep 100]).active_schedule.cells :=
  ⟨(C38_counter_equals_assigned_cells example_gateway [.assign 3 0, .assign 7 100, .sweep 100]
      (by decide) rfl (by decide) (by decide)).1,
   ((C38_counter_equals_assigned_cells example_gateway [.assign 3 0, .assign 7 100, .sweep 100]
      (by decide) rfl (by decide) (by decide)).2 (by decide)).2⟩

/-- The behaviour of `mr_queue_next_packet` on a node Uplink slot with an unlocked queue.
With an empty ring, or a ring whose oldest frame has length 0, the result is a Keepalive
header (24 bytes, destination the synced gateway, source the own id, on 64 bits) and the
queue is unchanged; with an oldest frame of non-zero length, that frame is returned and
removed. -/
theorem mr_queue_next_packet_uplink (env : mari_env_t) (st : schedule_vars_t)
    (bv : bloom_vars_t) (q : queue_vars_t) (av : assoc_vars_t) (packet : List Nat)
    (hnode : env.node_type = MARI_NODE) (hu : q.queue_locked = false) :
    ((q.packet_queue.current = q.packet_queue.last ∨
        (q.slot q.packet_queue.current).length = 0) →
      (mr_queue_next_packet env st bv q av SLOT_TYPE_UPLINK packet).1 = 24 ∧
      mr_packet_header_t.of_bytes
          (mr_queue_next_packet env st bv q av SLOT_TYPE_UPLINK packet).2.1 =
        { version := MARI_PROTOCOL_VERSION, type := MARI_PACKET_KEEPALIVE,
          network_id := env.synced_network_id % 2 ^ 16, dst := env.synced_gateway % 2 ^ 64,
          src := env.device_id % 2 ^ 64, stats_rssi := 0 } ∧
      (mr_queue_next_packet env st bv q av SLOT_TYPE_UPLINK packet).2.2 = (q, av)) ∧
    ((q.packet_queue.current ≠ q.packet_queue.last ∧
        (q.slot q.packet_queue.current).length ≠ 0) →
      mr_queue_next_packet env st bv q av SLOT_TYPE_UPLINK packet =
        ((q.slot q.packet_queue.current).length,
         memcpy packet (q.slot q.packet_queue.current).buffer
           (q.slot q.packet_queue.current).length,
         { q with
             packet_queue :=
               { q.packet_queue with
                   current := (q.packet_queue.current + 1) % MARI_PACKET_QUEUE_SIZE } },
         av)) := by
  have hng : ¬ env.node_type = MARI_GATEWAY := by rw [hnode]; decide
  have hnet : mr_assoc_get_network_id env.node_type av env.synced_network_id =
      env.synced_network_id := by
    unfold mr_assoc_get_network_id
    rw [if_neg hng]
  refine ⟨?_, ?_⟩
  · intro h
    have hp : (mr_queue_peek q packet).1 = 0 := by
      unfold mr_queue_peek
      rw [hu]
      simp only [Bool.false_eq_true, if_false]
      rcases h with h | h
      · rw [if_pos h]
      · split_ifs
        · rfl
        · exact h
    have hr := mr_queue_next_packet_ring_zero q packet hp
    have hn : mr_queue_next_packet env st bv q av SLOT_TYPE_UPLINK packet =
        (24, (mr_build_packet_keepalive packet env.synced_gateway env.device_id
          env.synced_network_id).2, q, av) := by
      unfold mr_queue_next_packet
      rw [if_neg hng, if_neg (by decide), if_pos rfl, hr, hnet]
      rfl
    rw [hn]
    refine ⟨rfl, ?_, rfl⟩
    show mr_packet_header_t.of_bytes (memcpy packet _ sizeof_mr_packet_header_t) = _
    unfold memcpy
    rw [List.take_of_length_le (by rw [mr_packet_header_bytes_length]),
      mr_packet_header_of_bytes_bytes]
    rfl
  · intro h
    have hpk : mr_queue_peek q packet =
        ((q.slot q.packet_queue.current).length,
         memcpy packet (q.slot q.packet_queue.current).buffer
           (q.slot q.packet_queue.current).length) := by
      unfold mr_queue_peek
      rw [hu]
      simp only [Bool.false_eq_true, if_false, if_neg h.1]
      rfl
    have hpop : (mr_queue_pop q).2 =
        { q with
            packet_queue :=
              { q.packet_queue with
                  current := (q.packet_queue.current + 1) % MARI_PACKET_QUEUE_SIZE } } := by
      unfold mr_queue_pop
      rw [hu]
      simp only [Bool.false_eq_true, if_false, if_neg h.1]
    unfold mr_queue_next_packet
    rw [if_neg hng, if_neg (by decide), if_pos rfl]
    unfold mr_queue_next_packet_ring
    rw [hpk]
    simp only []
    rw [if_pos h.2, hpop]
    simp only []
    rw [if_pos h.2]

/-! ## Theorems: intra-slot timers -/

theorem with_ref_diff_armed (tm : timer_hf_dev_t) (channel base_us us : Nat)
    (cb : timer_hf_cb_t) (now captured : Nat) (hcc : channel < tm.cc.length)
    (hcb : channel < tm.timer_callback.length)
    (hus : us + MARI_END_GUARD_TIME ≤ slot_durations.whole_slot) :
    armed_within_slot
      (mr_timer_hf_set_oneshot_with_ref_diff_us tm channel base_us us cb now captured)
      channel cb base_us us now captured := by
  have hg : MARI_END_GUARD_TIME = 240 := rfl
  have hw : slot_durations.whole_slot = 1780 := rfl
  rw [hg, hw] at hus
  unfold armed_within_slot expiry_offset mr_timer_hf_set_oneshot_with_ref_diff_us timer_hf_arm
    timer_hf_dev_t.compare timer_hf_dev_t.cb timer_hf_dev_t.period
  simp only []
  rw [getD_set_self _ _ _ _ hcc, getD_set_self _ _ _ _ hcb, hg, hw]
  simp only []
  unfold u32_sub
  refine ⟨trivial, by omega, ?_⟩
  intro he
  refine ⟨by omega, ?_⟩
  intro hd
  constructor <;> omega

theorem with_ref_diff_other (tm : timer_hf_dev_t) (channel other base_us us : Nat)
    (cb : timer_hf_cb_t) (now captured : Nat) (hne : channel ≠ other) :
    (mr_timer_hf_set_oneshot_with_ref_diff_us tm channel base_us us cb now captured).compare
        other = tm.compare other ∧
      (mr_timer_hf_set_oneshot_with_ref_diff_us tm channel base_us us cb now captured).cb other =
        tm.cb other ∧
      (mr_timer_hf_set_oneshot_with_ref_diff_us tm channel base_us us cb now captured).period
        other = tm.period other := by
  unfold mr_timer_hf_set_oneshot_with_ref_diff_us timer_hf_arm timer_hf_dev_t.compare
    timer_hf_dev_t.cb timer_hf_dev_t.period
  simp only []
  rw [getD_set_eq, getD_set_eq, if_neg (fun h => hne h.1), if_neg (fun h => hne h.1)]
  exact ⟨rfl, rfl, rfl⟩

theorem with_ref_diff_length (tm : timer_hf_dev_t) (channel base_us us : Nat)
    (cb : timer_hf_cb_t) (now captured : Nat) :
    (mr_timer_hf_set_oneshot_with_ref_diff_us tm channel base_us us cb now captured).cc.length =
        tm.cc.length ∧
      (mr_timer_hf_set_oneshot_with_ref_diff_us tm channel base_us us cb now
        captured).timer_callback.length = tm.timer_callback.length := by
  unfold mr_timer_hf_set_oneshot_with_ref_diff_us timer_hf_arm
  constructor <;> simp only [List.length_set]

theorem armed_within_slot_of_eq (tm1 tm2 : timer_hf_dev_t) (channel : Nat) (cb : timer_hf_cb_t)
    (start_slot_ts offset now captured : Nat)
    (h : tm2.compare channel = tm1.compare channel ∧ tm2.cb channel = tm1.cb channel ∧
      tm2.period channel = tm1.period channel)
    (ha : armed_within_slot tm1 channel cb start_slot_ts offset now captured) :
    armed_within_slot tm2 channel cb start_slot_ts offset now captured := by
  unfold armed_within_slot at ha ⊢
  rw [h.1, h.2.1, h.2.2]
  exact ha

/-- C36 (the code at the failing input): the slot of the example node started at 1000
and `whole_slot - end_guard` is 1540.  In `activity_ri1` the call that arms `rie2` reads
the counter at 1020 and captures it one microsecond later, at 1021: the period is
`1540 - 20 = 1520` and the compare register becomes `1021 + 1520 = 2541`, so `rie2` fires
1541 microseconds after the start of the slot, after `whole_slot - end_guard`. -/
theorem C36_capture_delay_moves_expiry_past_end_guard :
    example_mac_ctx.mac.start_slot_ts = 1000 ∧
      slot_durations.whole_slot - slot_durations.end_guard = 1540 ∧
      (activity_ri1 example_mac_ctx 1010 1011 1015 1016 1020 1021).timer.cb
        MARI_TIMER_CHANNEL_3 = some timer_hf_cb_t.activity_rie2 ∧
      (activity_ri1 example_mac_ctx 1010 1011 1015 1016 1020 1021).timer.period
        MARI_TIMER_CHANNEL_3 = 1520 ∧
      (activity_ri1 example_mac_ctx 1010 1011 1015 1016 1020 1021).timer.compare
        MARI_TIMER_CHANNEL_3 = 1000 + 1541 ∧
      expiry_offset 1000 1021 1520 = 1541 := by
  decide

/-- C36 (amended): with the compiled constants (`tx_offset = 400`, `rx_guard = 140`,
`end_guard = 240`, `tx_max = 1140`) the slot lasts `whole_slot = 1780` microseconds and the
offsets 260, 540, 1540 (`ri2`, `rie1`, `rie2`, armed by `activity_ri1`) and 400, 1540
(`ti2`, `tie1`, armed by `activity_ti1` when the queue gives a frame) are at most
`whole_slot - end_guard = 1540`.  On a timer with compare channels 1 to 3, each of these
one-shots has its compare register at `start_slot_ts + offset` plus the advance of the
counter between the read and the capture of the arming call (on 32 bits); when the read
is earlier than the offset the period is the rest of the offset, and when moreover the
advance is below `end_guard` the one-shot fires at the offset plus the advance after the
start of the slot, before the next slot boundary. -/
theorem C36_intra_slot_timers_fire_before_slot_end (env : mari_env_t) (c : mac_ctx_t)
    (q : queue_vars_t) (bv : bloom_vars_t) (stats : schedule_stats_t) (packet : List Nat)
    (now1 captured1 now2 captured2 now3 captured3 : Nat)
    (hcc : MARI_TIMER_CHANNEL_3 < c.timer.cc.length)
    (hcb : MARI_TIMER_CHANNEL_3 < c.timer.timer_callback.length) :
    (slot_durations.tx_offset = 400 ∧ slot_durations.rx_guard = 140 ∧
      slot_durations.end_guard = 240 ∧ slot_durations.tx_max = 1140 ∧
      slot_durations.whole_slot = 1780) ∧
    (armed_within_slot (activity_ri1 c now1 captured1 now2 captured2 now3 captured3).timer
        MARI_TIMER_CHANNEL_1 timer_hf_cb_t.activity_ri2 c.mac.start_slot_ts 260 now1 captured1 ∧
      armed_within_slot (activity_ri1 c now1 captured1 now2 captured2 now3 captured3).timer
        MARI_TIMER_CHANNEL_2 timer_hf_cb_t.activity_rie1 c.mac.start_slot_ts 540 now2 captured2 ∧
      armed_within_slot (activity_ri1 c now1 captured1 now2 captured2 now3 captured3).timer
        MARI_TIMER_CHANNEL_3 timer_hf_cb_t.activity_rie2 c.mac.start_slot_ts 1540 now3
        captured3) ∧
    ((mr_queue_next_packet
        { env with
            asn := c.mac.asn
            synced_gateway := c.mac.synced_gateway
            synced_network_id := c.mac.synced_network_id }
        c.sched bv q c.assoc c.mac.current_slot_info.type packet).1 ≠ 0 →
      armed_within_slot
        (activity_ti1 env c q bv stats packet now1 captured1 now2 captured2).1.timer
        MARI_TIMER_CHANNEL_1 timer_hf_cb_t.activity_ti2 c.mac.start_slot_ts 400 now1 captured1 ∧
      armed_within_slot
        (activity_ti1 env c q bv stats packet now1 captured1 now2 captured2).1.timer
        MARI_TIMER_CHANNEL_2 timer_hf_cb_t.activity_tie1 c.mac.start_slot_ts 1540 now2
        captured2) ∧
    (400 ≤ slot_durations.whole_slot - slot_durations.end_guard ∧
      260 ≤ slot_durations.whole_slot - slot_durations.end_guard ∧
      540 ≤ slot_durations.whole_slot - slot_durations.end_guard ∧
      1540 ≤ slot_durations.whole_slot - slot_durations.end_guard ∧
      slot_durations.whole_slot - slot_durations.end_guard < slot_durations.whole_slot) := by
  have h1cc : MARI_TIMER_CHANNEL_1 < c.timer.cc.length := by
    have : MARI_TIMER_CHANNEL_1 < MARI_TIMER_CHANNEL_3 := by decide
    omega
  have h1cb : MARI_TIMER_CHANNEL_1 < c.timer.timer_callback.length := by
    have : MARI_TIMER_CHANNEL_1 < MARI_TIMER_CHANNEL_3 := by decide
    omega
  have h2cc : MARI_TIMER_CHANNEL_2 < c.timer.cc.length := by
    have : MARI_TIMER_CHANNEL_2 < MARI_TIMER_CHANNEL_3 := by decide
    omega
  have h2cb : MARI_TIMER_CHANNEL_2 < c.timer.timer_callback.length := by
    have : MARI_TIMER_CHANNEL_2 < MARI_TIMER_CHANNEL_3 := by decide
    omega
  have n12 : MARI_TIMER_CHANNEL_2 ≠ MARI_TIMER_CHANNEL_1 := by decide
  have n13 : MARI_TIMER_CHANNEL_3 ≠ MARI_TIMER_CHANNEL_1 := by decide
  have n23 : MARI_TIMER_CHANNEL_3 ≠ MARI_TIMER_CHANNEL_2 := by decide
  refine ⟨⟨rfl, rfl, rfl, rfl, rfl⟩, ?_, ?_, ⟨by decide, by decide, by decide, by decide,
    by decide⟩⟩
  · unfold activity_ri1
    simp only [set_slot_state]
    have l1 := with_ref_diff_length c.timer MARI_TIMER_CHANNEL_1 c.mac.start_slot_ts
      slot_durations.rx_offset timer_hf_cb_t.activity_ri2 now1 captured1
    have a1 := with_ref_diff_armed c.timer MARI_TIMER_CHANNEL_1 c.mac.start_slot_ts
      slot_durations.rx_offset timer_hf_cb_t.activity_ri2 now1 captured1 h1cc h1cb (by decide)
    generalize mr_timer_hf_set_oneshot_with_ref_diff_us c.timer MARI_TIMER_CHANNEL_1
      c.mac.start_slot_ts slot_durations.rx_offset timer_hf_cb_t.activity_ri2 now1 captured1 = t1
      at l1 a1 ⊢
    have l2 := with_ref_diff_length t1 MARI_TIMER_CHANNEL_2 c.mac.start_slot_ts
      (slot_durations.tx_offset + slot_durations.rx_guard) timer_hf_cb_t.activity_rie1 now2
      captured2
    have a2 := with_ref_diff_armed t1 MARI_TIMER_CHANNEL_2 c.mac.start_slot_ts
      (slot_durations.tx_offset + slot_durations.rx_guard) timer_hf_cb_t.activity_rie1 now2
      captured2 (by rw [l1.1]; exact h2cc) (by rw [l1.2]; exact h2cb) (by decide)
    have o2 := with_ref_diff_other t1 MARI_TIMER_CHANNEL_2 MARI_TIMER_CHANNEL_1
      c.mac.start_slot_ts (slot_durations.tx_offset + slot_durations.rx_guard)
      timer_hf_cb_t.activity_rie1 now2 captured2 n12
    generalize mr_timer_hf_set_oneshot_with_ref_diff_us t1 MARI_TIMER_CHANNEL_2
      c.mac.start_slot_ts (slot_durations.tx_offset + slot_durations.rx_guard)
      timer_hf_cb_t.activity_rie1 now2 captured2 = t2 at l2 a2 o2 ⊢
    have a3 := with_ref_diff_armed t2 MARI_TIMER_CHANNEL_3 c.mac.start_slot_ts
      (slot_durations.rx_offset + slot_durations.rx_max) timer_hf_cb_t.activity_rie2 now3
      captured3 (by rw [l2.1, l1.1]; exact hcc) (by rw [l2.2, l1.2]; exact hcb) (by decide)
    have o31 := with_ref_diff_other t2 MARI_TIMER_CHANNEL_3 MARI_TIMER_CHANNEL_1
      c.mac.start_slot_ts (slot_durations.rx_offset + slot_durations.rx_max)
      timer_hf_cb_t.activity_rie2 now3 captured3 n13
    have o32 := with_ref_diff_other t2 MARI_TIMER_CHANNEL_3 MARI_TIMER_CHANNEL_2
      c.mac.start_slot_ts (slot_durations.rx_offset + slot_durations.rx_max)
      timer_hf_cb_t.activity_rie2 now3 captured3 n23
    refine ⟨?_, ?_, a3⟩
    · exact armed_within_slot_of_eq t1 _ _ _ _ _ _ _
        ⟨o31.1.trans o2.1, o31.2.1.trans o2.2.1, o31.2.2.trans o2.2.2⟩ a1
    · exact armed_within_slot_of_eq t2 _ _ _ _ _ _ _ o32 a2
  · intro hlen
    unfold activity_ti1
    simp only [set_slot_state]
    rw [if_neg hlen]
    simp only []
    have l1 := with_ref_diff_length c.timer MARI_TIMER_CHANNEL_1 c.mac.start_slot_ts
      slot_durations.tx_offset timer_hf_cb_t.activity_ti2 now1 captured1
    have a1 := with_ref_diff_armed c.timer MARI_TIMER_CHANNEL_1 c.mac.start_slot_ts
      slot_durations.tx_offset timer_hf_cb_t.activity_ti2 now1 captured1 h1cc h1cb (by decide)
    generalize mr_timer_hf_set_oneshot_with_ref_diff_us c.timer MARI_TIMER_CHANNEL_1
      c.mac.start_slot_ts slot_durations.tx_offset timer_hf_cb_t.activity_ti2 now1 captured1 = t1
      at l1 a1 ⊢
    have a2 := with_ref_diff_armed t1 MARI_TIMER_CHANNEL_2 c.mac.start_slot_ts
      (slot_durations.tx_offset + slot_durations.tx_max) timer_hf_cb_t.activity_tie1 now2
      captured2 (by rw [l1.1]; exact h2cc) (by rw [l1.2]; exact h2cb) (by decide)
    have o2 := with_ref_diff_other t1 MARI_TIMER_CHANNEL_2 MARI_TIMER_CHANNEL_1
      c.mac.start_slot_ts (slot_durations.tx_offset + slot_durations.tx_max)
      timer_hf_cb_t.activity_tie1 now2 captured2 n12
    exact ⟨armed_within_slot_of_eq t1 _ _ _ _ _ _ _ o2 a1, a2⟩

/-- Witness for C36 (amended): the example node (slot started at 1000) at the start of a
receive slot, and at the start of its Uplink slot with an empty queue, where the frame to
send is a keepalive; every arming call reads the counter and captures it one microsecond
later. -/
theorem C36_intra_slot_timers_fire_before_slot_end_witness :
    (activity_ri1 example_mac_ctx 1010 1011 1015 1016 1020 1021).timer.compare
        MARI_TIMER_CHANNEL_3 = (1000 + 1540 + u32_sub 1021 1020) % 2 ^ 32 ∧
      expiry_offset 1000 1016
          ((activity_ti1 example_node_env example_uplink_slot_ctx example_queue example_bloom
            example_stats (List.replicate 255 0) 1010 1011 1015 1016).1.timer.period
              MARI_TIMER_CHANNEL_2) < slot_durations.whole_slot :=
  ⟨(C36_intra_slot_timers_fire_before_slot_end example_node_env example_mac_ctx example_queue
      example_bloom example_stats (List.replicate 255 0) 1010 1011 1015 1016 1020 1021
      (by decide) (by decide)).2.1.2.2.2.1,
   ((((C36_intra_slot_timers_fire_before_slot_end example_node_env example_uplink_slot_ctx
      example_queue example_bloom example_stats (List.replicate 255 0) 1010 1011 1015 1016
      1020 1021 (by decide) (by decide)).2.2.1 (by decide)).2.2.2 (by decide)).2
        (by decide)).2⟩

/-! ## Theorems: beacons of a full gateway -/

/-- Contract of `mr_assoc_handle_beacon` on the byte it reads: when the
remaining-capacity byte of the frame it is given is 0, it returns the scan table it was
given, so `mr_scan_select` over any window gives the same answer after the call as
before it. -/
theorem mr_assoc_handle_beacon_zero_capacity (env : mari_env_t) (av : assoc_vars_t)
    (sv : scan_vars_t) (packet : List Nat) (channel ts ts_scan_started ts_scan_ended : Nat)
    (hfull : (mr_beacon_packet_header_t.of_bytes packet).remaining_capacity = 0) :
    (mr_assoc_handle_beacon env av sv packet channel ts).2 = sv ∧
      mr_scan_select (mr_assoc_handle_beacon env av sv packet channel ts).2
        ts_scan_started ts_scan_ended = mr_scan_select sv ts_scan_started ts_scan_ended := by
  have h : (mr_assoc_handle_beacon env av sv packet channel ts).2 = sv := by
    unfold mr_assoc_handle_beacon
    simp only [hfull, if_true]
    split_ifs <;> rfl
  rw [h]
  exact ⟨rfl, rfl⟩

/-- C37 (the code at the failing input): node 7, Synced to gateway 1 with an empty scan
table, receives in a slot, at -50 dBm, the beacon by which gateway 1 advertises
`remaining_capacity = 0`.  Given to `mr_assoc_handle_beacon` as sent, the frame leaves the
scan table empty.  But `activity_ri4` writes the RSSI into the byte after `src` of the
received frame, `header->stats.rssi`, which in a beacon is `remaining_capacity`, before
it calls `mr_handle_packet`: the byte becomes 206, the beacon is added to the scan table
as entry 0 with remaining capacity 206, the capacity the association layer remembers for
its gateway is 206, and `mr_scan_select` returns gateway 1, where it finds no gateway in
the table as it was. -/
theorem C37_received_beacon_of_full_gateway_is_scanned :
    (mr_beacon_packet_header_t.of_bytes example_beacon_frame_full).remaining_capacity = 0 ∧
      (mr_beacon_packet_header_t.of_bytes example_beacon_frame_full).src = 1 ∧
      example_beacon_slot_ctx.mac.synced_gateway = 1 ∧
      example_node_env.radio_rssi = -50 ∧
      (mr_assoc_handle_beacon example_node_env example_assoc_synced example_scan_empty
        example_beacon_frame_full 37 10).2 = example_scan_empty ∧
      (mr_scan_select example_scan_empty 1 100).1 = false ∧
      (activity_ri4 example_node_env example_beacon_slot_ctx example_queue example_bloom true
          example_beacon_frame_full sizeof_mr_beacon_packet_header_t 1700 1700).1.mac.received_packet.packet.getD
        (1 + sizeof_enum + 2 + 8 + 8) 0 = 206 ∧
      ((activity_ri4 example_node_env example_beacon_slot_ctx example_queue example_bloom true
          example_beacon_frame_full sizeof_mr_beacon_packet_header_t 1700 1700).1.scan.entry 0).gateway_id = 1 ∧
      (((activity_ri4 example_node_env example_beacon_slot_ctx example_queue example_bloom true
          example_beacon_frame_full sizeof_mr_beacon_packet_header_t 1700 1700).1.scan.entry 0).info
        0).beacon.remaining_capacity = 206 ∧
      (activity_ri4 example_node_env example_beacon_slot_ctx example_queue example_bloom true
          example_beacon_frame_full sizeof_mr_beacon_packet_header_t 1700 1700).1.assoc.synced_gateway_remaining_capacity
        = 206 ∧
      (mr_scan_select
        (activity_ri4 example_node_env example_beacon_slot_ctx example_queue example_bloom true
          example_beacon_frame_full sizeof_mr_beacon_packet_header_t 1700 1700).1.scan
        1 100).1 = true ∧
      (mr_scan_select
        (activity_ri4 example_node_env example_beacon_slot_ctx example_queue example_bloom true
          example_beacon_frame_full sizeof_mr_beacon_packet_header_t 1700 1700).1.scan
        1 100).2.beacon.src = 1 := by
  refine ⟨by decide, by decide, rfl, rfl, ?_, by decide, ?_, ?_, ?_, ?_, ?_, ?_⟩
  · exact (mr_assoc_handle_beacon_zero_capacity _ _ _ _ _ _ 1 100 (by decide)).1
  all_goals decide

/-! ## Theorems: the frame of a gateway Downlink slot -/

theorem mr_queue_next_packet_ring_head (q : queue_vars_t) (packet : List Nat)
    (hu : q.queue_locked = false) (hne : q.packet_queue.current ≠ q.packet_queue.last)
    (hlen : (q.slot q.packet_queue.current).length ≠ 0) :
    mr_queue_next_packet_ring q packet =
      ((q.slot q.packet_queue.current).length,
       memcpy packet (q.slot q.packet_queue.current).buffer
         (q.slot q.packet_queue.current).length,
       { q with
           packet_queue :=
             { q.packet_queue with
                 current := (q.packet_queue.current + 1) % MARI_PACKET_QUEUE_SIZE } }) := by
  have hpk : mr_queue_peek q packet =
      ((q.slot q.packet_queue.current).length,
       memcpy packet (q.slot q.packet_queue.current).buffer
         (q.slot q.packet_queue.current).length) := by
    unfold mr_queue_peek
    rw [hu]
    simp only [Bool.false_eq_true, if_false, if_neg hne]
    rfl
  have hpop : (mr_queue_pop q).2 =
      { q with
          packet_queue :=
            { q.packet_queue with
                current := (q.packet_queue.current + 1) % MARI_PACKET_QUEUE_SIZE } } := by
    unfold mr_queue_pop
    rw [hu]
    simp only [Bool.false_eq_true, if_false, if_neg hne]
  unfold mr_queue_next_packet_ring
  rw [hpk]
  simp only []
  rw [if_pos hlen, hpop]

/-- The behaviour of `mr_queue_next_packet` on a gateway Downlink slot.  With a non-empty
join holder it returns the length and the bytes of the holder, empties the holder and
leaves the ring (its slots, `current` and `last`), the lock and the association state as
they are.  With an empty holder and an unlocked queue: when the ring holds a frame whose
length is not 0 at `current`, that frame is returned and `current` advances by one modulo
32; when the ring is empty, or the frame at `current` has length 0, the call returns 0 and
changes nothing. -/
theorem mr_queue_next_packet_downlink (env : mari_env_t) (st : schedule_vars_t)
    (bv : bloom_vars_t) (q : queue_vars_t) (av : assoc_vars_t) (packet : List Nat)
    (hgw : env.node_type = MARI_GATEWAY) :
    (q.join_packet.length > 0 →
      mr_queue_next_packet env st bv q av SLOT_TYPE_DOWNLINK packet =
        (q.join_packet.length, memcpy packet q.join_packet.buffer q.join_packet.length,
         { q with join_packet := { q.join_packet with length := 0 } }, av) ∧
      (q.join_packet.length ≤ q.join_packet.buffer.length →
        (mr_queue_next_packet env st bv q av SLOT_TYPE_DOWNLINK packet).2.1.take
          q.join_packet.length = q.join_packet.buffer.take q.join_packet.length)) ∧
    (q.join_packet.length = 0 → q.queue_locked = false →
      ((q.packet_queue.current ≠ q.packet_queue.last ∧
          (q.slot q.packet_queue.current).length ≠ 0) →
        mr_queue_next_packet env st bv q av SLOT_TYPE_DOWNLINK packet =
          ((q.slot q.packet_queue.current).length,
           memcpy packet (q.slot q.packet_queue.current).buffer
             (q.slot q.packet_queue.current).length,
           { q with
               packet_queue :=
                 { q.packet_queue with
                     current := (q.packet_queue.current + 1) % MARI_PACKET_QUEUE_SIZE } },
           av)) ∧
      ((q.packet_queue.current = q.packet_queue.last ∨
          (q.slot q.packet_queue.current).length = 0) →
        mr_queue_next_packet env st bv q av SLOT_TYPE_DOWNLINK packet = (0, packet, q, av))) := by
  constructor
  · intro hne
    have hhas : mr_queue_has_join_packet q = true := by
      simp [mr_queue_has_join_packet, hne]
    have hres : mr_queue_next_packet env st bv q av SLOT_TYPE_DOWNLINK packet =
        (q.join_packet.length, memcpy packet q.join_packet.buffer q.join_packet.length,
         { q with join_packet := { q.join_packet with length := 0 } }, av) := by
      unfold mr_queue_next_packet
      rw [if_pos hgw, if_neg (by decide), if_pos rfl, if_pos hhas]
      rfl
    refine ⟨hres, ?_⟩
    intro hle
    rw [hres]
    simp only []
    unfold memcpy
    rw [List.take_append_of_le_length (by rw [List.length_take]; omega),
      List.take_of_length_le (by rw [List.length_take]; omega)]
  · intro hempty hu
    have hhas : mr_queue_has_join_packet q = false := by
      simp [mr_queue_has_join_packet, hempty]
    have hres : mr_queue_next_packet env st bv q av SLOT_TYPE_DOWNLINK packet =
        ((mr_queue_next_packet_ring q packet).1, (mr_queue_next_packet_ring q packet).2.1,
         (mr_queue_next_packet_ring q packet).2.2, av) := by
      unfold mr_queue_next_packet
      rw [if_pos hgw, if_neg (by decide), if_pos rfl, hhas]
      rfl
    constructor
    · intro h
      rw [hres, mr_queue_next_packet_ring_head q packet hu h.1 h.2]
    · intro h
      have hp : (mr_queue_peek q packet).1 = 0 := by
        unfold mr_queue_peek
        rw [hu]
        simp only [Bool.false_eq_true, if_false]
        rcases h with h | h
        · rw [if_pos h]
        · split_ifs
          · rfl
          · exact h
      rw [hres, mr_queue_next_packet_ring_zero q packet hp]

/-- C30 (the code at the failing input): on a gateway Downlink slot with an empty join
holder and an unlocked ring that holds two frames (`current = 0`, `last = 2`), the older
one of length 0 and then `[5]`, `mr_queue_next_packet` does not return and pop the oldest
ring frame: it returns 0 and leaves the queue as it was, so the frame `[5]` stays behind
it.  On the same gateway with only the frame `[5]` in the ring, the call returns length
1, the byte 5, and advances `current` to 1. -/
theorem C30_zero_length_head_blocks_downlink :
    example_gateway_env.node_type = MARI_GATEWAY ∧
      example_queue_zero_head.join_packet.length = 0 ∧
      example_queue_zero_head.queue_locked = false ∧
      example_queue_zero_head.packet_queue.current = 0 ∧
      example_queue_zero_head.packet_queue.last = 2 ∧
      (example_queue_zero_head.slot 0).length = 0 ∧
      slot_holds (example_queue_zero_head.slot 1) [5] ∧
      mr_queue_next_packet example_gateway_env example_gateway example_bloom
        example_queue_zero_head example_assoc SLOT_TYPE_DOWNLINK (List.replicate 255 0) =
        (0, List.replicate 255 0, example_queue_zero_head, example_assoc) ∧
      example_queue_one.packet_queue.current = 0 ∧
      example_queue_one.packet_queue.last = 1 ∧
      (mr_queue_next_packet example_gateway_env example_gateway example_bloom
        example_queue_one example_assoc SLOT_TYPE_DOWNLINK (List.replicate 255 0)).1 = 1 ∧
      (mr_queue_next_packet example_gateway_env example_gateway example_bloom
        example_queue_one example_assoc SLOT_TYPE_DOWNLINK (List.replicate 255 0)).2.1.take 1
        = [5] ∧
      (mr_queue_next_packet example_gateway_env example_gateway example_bloom
        example_queue_one example_assoc SLOT_TYPE_DOWNLINK
        (List.replicate 255 0)).2.2.1.packet_queue.current = 1 := by
  refine ⟨rfl, rfl, rfl, rfl, rfl, rfl, ⟨rfl, rfl⟩, ?_, rfl, rfl, ?_, ?_, ?_⟩
  · exact ((mr_queue_next_packet_downlink example_gateway_env example_gateway example_bloom
      example_queue_zero_head example_assoc (List.replicate 255 0) rfl).2 rfl rfl).2
      (Or.inr rfl)
  all_goals decide

end Mari
